import Mathlib

/-!
# ngx-scanner: continuous scan session and scanner component

A shallow embedding of `BrowserMultiFormatContinuousReader` and
`ZXingScannerComponent` (file `fesm2020/zxing-ngx-scanner.mjs`).

Modelling conventions.

* JavaScript objects with identity (code readers, scan sessions) live in a
  heap of lists and are referred to by their index.
* `undefined` / `null` are `Option.none`; a JavaScript truthiness test on an
  object reference is `Option.isSome`.
* A synchronous `throw` and the rejection of an `async` function are returned
  as `thrown : Option JsError` next to the state reached at that point, so the
  effects performed before the exception stay visible.
* Every `await` is taken as atomic: the platform's answer (the device opens or
  fails, the permission probe resolves or rejects, the device list) is an
  explicit argument of the operation that awaits it.
* The decoder invokes its per-frame callback whenever it likes; a callback
  invocation is an explicit step `decodeCallback`. The callback is handed to
  the decoder before the session is subscribed: `scanFromDeviceObservableDuring`
  and `scanFromDeviceDuring` are the start of a session with the callback
  invocations that the decoder makes while the awaited calls are pending, and
  they coincide with the atomic `scanFromDeviceObservable` and `scanFromDevice`
  when there are none.
* The `message` of an error may be `undefined`; `name` is always a string.
* The RxJS `BehaviorSubject` and the `@zxing/browser` controls are library
  code; they are modelled by their documented behaviour (see the doc comments).
-/

namespace NgxScanner

/-! ## Data model -/

/-- A JavaScript error value: only `name` and `message` are inspected by the code. The exceptions
of the barcode library are built without a message as a rule, and then `message` is `undefined`
(`none`). -/
structure JsError where
  name : String
  message : Option String
deriving DecidableEq, Repr

/-- A decoded `Result` of the barcode library; `getText()` returns `text`. -/
structure Result where
  text : String
deriving DecidableEq, Repr

/-- A `MediaDeviceInfo` as returned by `listVideoInputDevices`. -/
structure MediaDeviceInfo where
  deviceId : String
  label : String
deriving DecidableEq, Repr

/-- The object pushed through `scan$`: `{}`, `{ result }` or `{ error }`. -/
structure ScanValue where
  result : Option Result
  error : Option JsError
deriving DecidableEq, Repr

/-- The three kinds of notification an RxJS observer can receive. -/
inductive Notification where
  | next (v : ScanValue)
  | error (e : JsError)
  | complete
deriving DecidableEq, Repr

/-- One delivery: the observer that is notified and what it receives. -/
abbrev Delivery := Nat × Notification

/-! ## RxJS `BehaviorSubject` (library behaviour) -/

/-- The state of an RxJS `BehaviorSubject`: the current value, the `isStopped` /
`hasError` / `thrownError` flags of `Subject`, and the subscribed observers. -/
structure BehaviorSubject where
  value : ScanValue
  isStopped : Bool
  hasError : Bool
  thrownError : Option JsError
  observers : List Nat
deriving DecidableEq, Repr

namespace BehaviorSubject

/-- The subject built by `new BehaviorSubject(v)`. -/
def create (v : ScanValue) : BehaviorSubject :=
  { value := v, isStopped := false, hasError := false, thrownError := none, observers := [] }

/-- The method `next(v)`: stores the value, and notifies every observer unless the subject is stopped. -/
def next (v : ScanValue) (b : BehaviorSubject) : BehaviorSubject × List Delivery :=
  let b1 := { b with value := v }
  if b.isStopped then (b1, []) else (b1, b.observers.map fun o => (o, Notification.next v))

/-- The method `error(e)`: unless already stopped, stops the subject with the error, notifies
every observer and drops them. -/
def error (e : JsError) (b : BehaviorSubject) : BehaviorSubject × List Delivery :=
  if b.isStopped then (b, [])
  else ({ b with isStopped := true, hasError := true, thrownError := some e, observers := [] },
        b.observers.map fun o => (o, Notification.error e))

/-- The method `complete()`: unless already stopped, stops the subject, notifies every observer
and drops them. -/
def complete (b : BehaviorSubject) : BehaviorSubject × List Delivery :=
  if b.isStopped then (b, [])
  else ({ b with isStopped := true, observers := [] },
        b.observers.map fun o => (o, Notification.complete))

/-- The method `subscribe` for observer `o`: an errored subject replays its error, a completed one
completes the observer, and a live one registers the observer and replays the current value. -/
def subscribe (o : Nat) (b : BehaviorSubject) : BehaviorSubject × List Delivery :=
  if b.hasError then
    match b.thrownError with
    | some e => (b, [(o, Notification.error e)])
    | none => (b, [])
  else if b.isStopped then (b, [(o, Notification.complete)])
  else ({ b with observers := b.observers ++ [o] }, [(o, Notification.next b.value)])

/-- Unsubscribing observer `o` removes it from the observer list. -/
def unsubscribe (o : Nat) (b : BehaviorSubject) : BehaviorSubject :=
  { b with observers := b.observers.filter fun x => x != o }

/-- The `closed` flag of the subscription of observer `o`: it is no longer registered. -/
def closed (o : Nat) (b : BehaviorSubject) : Bool :=
  !(b.observers.contains o)

end BehaviorSubject

/-! ## The continuous reader -/

/-- The controls returned by `decodeFromVideoDevice` (library object): the number of `stop()`
calls it has received and which optional capabilities it exposes. -/
structure ScannerControls where
  stopCalls : Nat
  switchTorch : Bool
  streamVideoConstraintsApply : Bool
deriving DecidableEq, Repr

/-- One call of `scanFromDeviceObservable`: the reader it ran on, the device, its `scan$`
subject and, when the device opened, the decoder controls `ctrls`. -/
structure Session where
  reader : Nat
  deviceId : String
  scan : BehaviorSubject
  ctrls : Option ScannerControls
deriving DecidableEq, Repr

/-- A `BrowserMultiFormatContinuousReader` instance. The field `scannerControls` holds the
wrapped controls `{ ...ctrls, stop() }` of a session, identified by the session's index. -/
structure Reader where
  scannerControls : Option Nat
deriving DecidableEq, Repr

/-- The heap of reader instances and scan sessions. -/
structure Heap where
  readers : List Reader
  sessions : List Session
deriving DecidableEq, Repr

/-- The platform's answer to `decodeFromVideoDevice`. -/
inductive OpenResponse where
  | resolve (switchTorch : Bool) (streamVideoConstraintsApply : Bool)
  | reject (e : JsError)
deriving DecidableEq, Repr

/-- A heap together with the notifications delivered and the exception thrown, if any. -/
structure Effect where
  heap : Heap
  delivered : List Delivery
  thrown : Option JsError
deriving DecidableEq, Repr

namespace Heap

/-- The empty heap. -/
def empty : Heap := { readers := [], sessions := [] }

/-- The field `scannerControls` of reader `r`. -/
def scannerControls (h : Heap) (r : Nat) : Option Nat :=
  match h.readers[r]? with
  | some rd => rd.scannerControls
  | none => none

/-- The assignment `this.scannerControls = v` on reader `r`. -/
def setScannerControls (r : Nat) (v : Option Nat) (h : Heap) : Heap :=
  { h with readers := h.readers.set r { scannerControls := v } }

/-- Replaces the session stored at index `i`. -/
def setSession (i : Nat) (s : Session) (h : Heap) : Heap :=
  { h with sessions := h.sessions.set i s }

end Heap

/-- JavaScript `String.prototype.includes`. -/
def includes (s pat : String) : Bool :=
  s.data.tails.any fun t => pat.data.isPrefixOf t

/-- The value of `NotFoundException.name`. -/
def NotFoundException.name : String := "NotFoundException"

/-- The value of `ChecksumException.name`. -/
def ChecksumException.name : String := "ChecksumException"

/-- The value of `FormatException.name`. -/
def FormatException.name : String := "FormatException"

/-- The `TypeError` raised by `error.message.includes(..)` when `error.message` is undefined. -/
def undefinedIncludesError : JsError :=
  { name := "TypeError",
    message := some "Cannot read properties of undefined (reading 'includes')" }

/-- The condition of the `if` in the decoder callback, evaluated left to right: `some true` when
the error is a scan failure and the stream goes on, `some false` when it is not. The call
`error.message.includes(..)` is reached only when none of the three names matches; it raises a
`TypeError` when `message` is undefined, and then the condition has no value (`none`). -/
def isSoftFailure (error : JsError) : Option Bool :=
  if error.name == NotFoundException.name ||
     error.name == ChecksumException.name ||
     error.name == FormatException.name then some true
  else
    match error.message with
    | some m => some (includes m "No MultiFormat Readers were able to detect the code.")
    | none => none

/-- The error thrown by `getScannerControls` when no controls are stored. -/
def noScanningError : JsError :=
  { name := "Error", message := some "No scanning is running at the time." }

/-- The `TypeError` raised by `this.scannerControls.stop()` when `scannerControls` is undefined. -/
def undefinedStopError : JsError :=
  { name := "TypeError", message := some "Cannot read properties of undefined (reading 'stop')" }

/-- The method `getScannerControls` of reader `r`: the stored controls, or the exception. -/
def getScannerControls (h : Heap) (r : Nat) : Except JsError Nat :=
  match h.scannerControls r with
  | none => Except.error noScanningError
  | some k => Except.ok k

/-- The method `stop()` of the wrapped controls of session `k`:
`ctrls.stop(); scan$.complete();`. -/
def scannerControlsStop (h : Heap) (k : Nat) : Heap × List Delivery :=
  match h.sessions[k]? with
  | none => (h, [])
  | some sk =>
    let c := sk.ctrls.map fun c => { c with stopCalls := c.stopCalls + 1 }
    let r := sk.scan.complete
    (h.setSession k { sk with ctrls := c, scan := r.1 }, r.2)

/-- The callback handed to `decodeFromVideoDevice` by the session `i`, invoked by the decoder
with `(result, error)`. -/
def decodeCallback (h : Heap) (i : Nat) (result : Option Result) (error : Option JsError) :
    Effect :=
  match h.sessions[i]? with
  | none => { heap := h, delivered := [], thrown := none }
  | some sess =>
    match error with
    | none =>
      let r := sess.scan.next { result := result, error := none }
      { heap := h.setSession i { sess with scan := r.1 }, delivered := r.2, thrown := none }
    | some err =>
      match isSoftFailure err with
      | none => { heap := h, delivered := [], thrown := some undefinedIncludesError }
      | some true =>
        let r := sess.scan.next { result := none, error := some err }
        { heap := h.setSession i { sess with scan := r.1 }, delivered := r.2, thrown := none }
      | some false =>
        let r := sess.scan.error err
        let h1 := h.setSession i { sess with scan := r.1 }
        match h1.scannerControls sess.reader with
        | none => { heap := h1, delivered := r.2, thrown := some undefinedStopError }
        | some k =>
          let st := scannerControlsStop h1 k
          { heap := st.1.setScannerControls sess.reader none,
            delivered := r.2 ++ st.2, thrown := none }

/-- The outcome of `scanFromDeviceObservable`: the heap, the index of the session whose stream
is returned, and the notifications delivered meanwhile. -/
structure Started where
  heap : Heap
  stream : Nat
  delivered : List Delivery
deriving DecidableEq, Repr

/-- The method `scanFromDeviceObservable(deviceId, previewEl)` of reader `r`, with the
platform's answer to `decodeFromVideoDevice`. -/
def scanFromDeviceObservable (h : Heap) (r : Nat) (deviceId : String) (resp : OpenResponse) :
    Started :=
  let i := h.sessions.length
  let scan0 := BehaviorSubject.create { result := none, error := none }
  match resp with
  | OpenResponse.resolve torch constraints =>
    let sess : Session :=
      { reader := r, deviceId := deviceId, scan := scan0,
        ctrls := some { stopCalls := 0, switchTorch := torch,
                        streamVideoConstraintsApply := constraints } }
    { heap := Heap.setScannerControls r (some i) { h with sessions := h.sessions ++ [sess] },
      stream := i, delivered := [] }
  | OpenResponse.reject e =>
    let er := scan0.error e
    let sess : Session := { reader := r, deviceId := deviceId, scan := er.1, ctrls := none }
    let h1 : Heap := { h with sessions := h.sessions ++ [sess] }
    match h1.scannerControls r with
    | none => { heap := h1.setScannerControls r none, stream := i, delivered := er.2 }
    | some k =>
      let st := scannerControlsStop h1 k
      { heap := st.1.setScannerControls r none, stream := i, delivered := er.2 ++ st.2 }

/-- A run of decoder callbacks on session `i`, collecting what is delivered. -/
def runCallbacks (i : Nat) : List (Option Result × Option JsError) → Heap → Heap × List Delivery
  | [], h => (h, [])
  | cb :: rest, h =>
    let e := decodeCallback h i cb.1 cb.2
    let r := runCallbacks i rest e.heap
    (r.1, e.delivered ++ r.2)

/-! ## The scanner component -/

/-- The values observable on the component's outputs. `permissionResponseError` is the error
notification that terminates the `permissionResponse` emitter. -/
inductive Event where
  | autostarted
  | autostarting (state : Bool)
  | torchCompatible (b : Bool)
  | scanSuccess (text : String)
  | scanFailure (reason : Option JsError)
  | scanError (e : JsError)
  | scanComplete (result : Option Result)
  | camerasFound (devices : List MediaDeviceInfo)
  | camerasNotFound (e : Option JsError)
  | permissionResponse (p : Option Bool)
  | permissionResponseError (e : JsError)
  | hasDevices (b : Option Bool)
  | deviceChange (d : Option MediaDeviceInfo)
deriving DecidableEq, Repr

/-- A `MediaStream` obtained by the permission probe: only its number of tracks matters. -/
structure MediaStream where
  tracks : Nat
deriving DecidableEq, Repr

/-- The platform's answer to `getUserMedia`. -/
inductive ProbeResponse where
  | resolve (stream : Option MediaStream)
  | reject (err : JsError)
deriving DecidableEq, Repr

/-- The answers the platform gives to the calls awaited during one operation. -/
structure Platform where
  decodeFromVideoDevice : OpenResponse
  getUserMedia : ProbeResponse
  listVideoInputDevices : List MediaDeviceInfo
deriving DecidableEq, Repr

/-- A JavaScript value as it occurs in a `formats` list: a string, a non-string value (such as
a member of `BarcodeFormat`) or `undefined`. -/
inductive FormatItem where
  | text (s : String)
  | value (v : Nat)
  | undefined
deriving DecidableEq, Repr

/-- The member `BarcodeFormat.QR_CODE` of the format enumeration of the barcode library. -/
def BarcodeFormat.QR_CODE : Nat := 11

/-- The hints map `Map<DecodeHintType, any>`, by the two keys the component writes; `none` is a
key that is not in the map. The map object is shared with the code reader, which is handed the
same map at construction and on every assignment of `hints`. -/
structure Hints where
  POSSIBLE_FORMATS : Option (List FormatItem)
  TRY_HARDER : Option Bool
deriving DecidableEq, Repr

/-- The fields of a `ZXingScannerComponent`, the heap of readers and sessions it created, the
log of the values emitted on its outputs, and counters for the platform operations it invoked.
The hints start as the constructor leaves them (`formats = [BarcodeFormat.QR_CODE]`);
`constraintsApplied` and `torchSwitched` log the calls of `streamVideoConstraintsApply` and
`switchTorch` on the controls of a session. -/
structure State where
  heap : Heap
  _ready : Bool
  _enabled : Bool
  _isAutostarting : Bool
  autostart : Bool
  hasNavigator : Bool
  isMediaDevicesSupported : Bool
  hasPermission : Option Bool
  _device : Option MediaDeviceInfo
  _devicePreStart : Option MediaDeviceInfo
  _codeReader : Option Nat
  _scanSubscription : Option Nat
  permissionResponseStopped : Bool
  events : List Event
  releaseAllStreamsCalls : Nat
  cleanVideoSourceCalls : Nat
  tracksStopped : Nat
  _hints : Hints :=
    { POSSIBLE_FORMATS := some [FormatItem.value BarcodeFormat.QR_CODE], TRY_HARDER := none }
  constraintsApplied : List (Nat × Nat) := []
  torchSwitched : List (Nat × Bool) := []
deriving DecidableEq, Repr

/-- A state together with the exception thrown (or the rejection of the `async` method). -/
structure Outcome where
  state : State
  thrown : Option JsError
deriving DecidableEq, Repr

/-- The component right after its constructor ran, on a platform with or without `navigator`
and `navigator.mediaDevices`. -/
def fresh (hasNavigator mediaDevices : Bool) : State :=
  { heap := Heap.empty, _ready := false, _enabled := true, _isAutostarting := false,
    autostart := true, hasNavigator := hasNavigator,
    isMediaDevicesSupported := hasNavigator && mediaDevices,
    hasPermission := none, _device := none, _devicePreStart := none, _codeReader := none,
    _scanSubscription := none, permissionResponseStopped := false, events := [],
    releaseAllStreamsCalls := 0, cleanVideoSourceCalls := 0, tracksStopped := 0 }

/-- A value is emitted on one of the outputs. -/
def emit (e : Event) (s : State) : State :=
  { s with events := s.events ++ [e] }

/-- The method `dispatchScanSuccess`. -/
def dispatchScanSuccess (result : Result) (s : State) : State :=
  emit (Event.scanSuccess result.text) s

/-- The method `dispatchScanFailure`. -/
def dispatchScanFailure (reason : Option JsError) (s : State) : State :=
  emit (Event.scanFailure reason) s

/-- The method `dispatchScanError`. -/
def dispatchScanError (error : JsError) (s : State) : State :=
  emit (Event.scanError error) s

/-- The method `dispatchScanComplete`. -/
def dispatchScanComplete (result : Option Result) (s : State) : State :=
  emit (Event.scanComplete result) s

/-- The method `_onDecodeError`. -/
def _onDecodeError (err : JsError) (s : State) : State :=
  dispatchScanError err s

/-- The method `_onDecodeResult`. -/
def _onDecodeResult (result : Option Result) (error : Option JsError) (s : State) : State :=
  let s1 :=
    match result with
    | some r => dispatchScanSuccess r s
    | none => dispatchScanFailure error s
  dispatchScanComplete result s1

/-- The observer `(next, error, complete)` that `scanFromDevice` subscribes to the stream. -/
def notify (n : Notification) (s : State) : State :=
  match n with
  | Notification.next x => _onDecodeResult x.result x.error s
  | Notification.error err => _onDecodeError err s
  | Notification.complete => s

/-- Runs the observer on each delivered notification, in order. -/
def deliver (ds : List Delivery) (s : State) : State :=
  ds.foldl (fun acc d => notify d.2 acc) s

/-- The decoder invokes the callback of session `i`; an exception raised inside the callback
goes back to the decoder. -/
def onFrame (i : Nat) (result : Option Result) (error : Option JsError) (s : State) : State :=
  let e := decodeCallback s.heap i result error
  deliver e.delivered { s with heap := e.heap }

/-- A run of decoder callbacks on session `i`. -/
def onFrames (i : Nat) (cbs : List (Option Result × Option JsError)) (s : State) : State :=
  cbs.foldl (fun acc cb => onFrame i cb.1 cb.2 acc) s

/-- The call `stop()` on the wrapped controls of session `k`, as obtained from
`getScannerControls()`; the observers of the stream run inside it. -/
def stopControls (k : Nat) (s : State) : State :=
  let st := scannerControlsStop s.heap k
  deliver st.2 { s with heap := st.1 }

/-- The method `getCodeReader`: the current reader, created first when there is none. -/
def getCodeReader (s : State) : State × Nat :=
  match s._codeReader with
  | some r => (s, r)
  | none =>
    let r := s.heap.readers.length
    ({ s with heap := { s.heap with readers := s.heap.readers ++ [{ scannerControls := none }] },
              _codeReader := some r }, r)

/-- The error of `scanFromDevice` for an undefined stream. -/
def undefinedStreamError : JsError :=
  { name := "Error", message := some "Undefined decoding stream, aborting." }

/-- The method `scanFromDevice(deviceId)`. -/
def scanFromDevice (deviceId : String) (env : Platform) (s : State) : Outcome :=
  let g := getCodeReader s
  let codeReader := g.2
  let st := scanFromDeviceObservable g.1.heap codeReader deviceId env.decodeFromVideoDevice
  let s1 := deliver st.delivered { g.1 with heap := st.heap }
  match s1.heap.sessions[st.stream]? with
  | none => { state := s1, thrown := some undefinedStreamError }
  | some sess =>
    let sub := sess.scan.subscribe st.stream
    let s2 := deliver sub.2
      { s1 with heap := s1.heap.setSession st.stream { sess with scan := sub.1 } }
    let s3 := { s2 with _scanSubscription := some st.stream }
    if sub.1.closed st.stream then { state := s3, thrown := none }
    else
      match getScannerControls s3.heap codeReader with
      | Except.error e => { state := s3, thrown := some e }
      | Except.ok k =>
        let hasTorchControl :=
          match s3.heap.sessions[k]? with
          | some sk => (sk.ctrls.map fun c => c.switchTorch).getD false
          | none => false
        { state := emit (Event.torchCompatible hasTorchControl) s3, thrown := none }

/-- The call `this._scanSubscription?.unsubscribe()` for the subscription to stream `sub`. -/
def unsubscribe (sub : Nat) (s : State) : State :=
  match s.heap.sessions[sub]? with
  | none => s
  | some sess =>
    { s with heap := s.heap.setSession sub { sess with scan := sess.scan.unsubscribe sub } }

/-- The method `scanStop`. -/
def scanStop (s : State) : Outcome :=
  match s._scanSubscription with
  | some sub =>
    let r : Outcome :=
      match s._codeReader with
      | none => { state := s, thrown := none }
      | some cr =>
        match getScannerControls s.heap cr with
        | Except.error e => { state := s, thrown := some e }
        | Except.ok k => { state := stopControls k s, thrown := none }
    match r.thrown with
    | some e => { state := r.state, thrown := some e }
    | none =>
      let s2 := unsubscribe sub r.state
      { state := emit (Event.torchCompatible false) { s2 with _scanSubscription := none },
        thrown := none }
  | none => { state := emit (Event.torchCompatible false) s, thrown := none }

/-- The method `setDevice(device)`. -/
def setDevice (device : Option MediaDeviceInfo) (env : Platform) (s : State) : Outcome :=
  let r := scanStop s
  match r.thrown with
  | some e => { state := r.state, thrown := some e }
  | none =>
    let s1 := { r.state with _device := device }
    let s2 :=
      if s1._device.isNone then { s1 with cleanVideoSourceCalls := s1.cleanVideoSourceCalls + 1 }
      else s1
    match device with
    | some d => if s2._enabled then scanFromDevice d.deviceId env s2
                else { state := s2, thrown := none }
    | none => { state := s2, thrown := none }

/-- The method `isCurrentDevice(device)`. -/
def isCurrentDevice (device : Option MediaDeviceInfo) (s : State) : Bool :=
  device.map (fun d => d.deviceId) == s._device.map (fun d => d.deviceId)

/-- The setter `set device(device)`; the promise of `setDevice` is not awaited. -/
def set_device (device : Option MediaDeviceInfo) (env : Platform) (s : State) : State :=
  if !s._ready then { s with _devicePreStart := device }
  else if s._isAutostarting then s
  else if isCurrentDevice device s then s
  else if s.hasPermission != some true then s
  else (setDevice device env s).state

/-- The getter `get device()`. -/
def get_device (s : State) : Option MediaDeviceInfo := s._device

/-- The getter `get codeReader()`. -/
def codeReader (s : State) : Option Nat := s._codeReader

/-- The setter `set isAutostarting(state)`. -/
def set_isAutostarting (state : Bool) (s : State) : State :=
  emit (Event.autostarting state) { s with _isAutostarting := state }

/-- The method `setPermission`: a terminated `permissionResponse` emitter delivers nothing. -/
def setPermission (hasPermission : Option Bool) (s : State) : State :=
  let s1 := { s with hasPermission := hasPermission }
  if s1.permissionResponseStopped then s1 else emit (Event.permissionResponse hasPermission) s1

/-- The call `this.permissionResponse.error(err)`. -/
def permissionResponseError (err : JsError) (s : State) : State :=
  if s.permissionResponseStopped then s
  else { emit (Event.permissionResponseError err) s with permissionResponseStopped := true }

/-- The method `handlePermissionException`. -/
def handlePermissionException (err : JsError) (s : State) : State × Option Bool :=
  let r : State × Option Bool :=
    if err.name = "NotSupportedError" then (emit (Event.hasDevices none) s, none)
    else if err.name = "NotAllowedError" then (emit (Event.hasDevices (some true)) s, some false)
    else if err.name = "NotFoundError" then
      (emit (Event.camerasNotFound (some err)) (emit (Event.hasDevices (some false)) s), none)
    else if err.name = "NotReadableError" then
      (emit (Event.camerasNotFound (some err)) (emit (Event.hasDevices (some false)) s), none)
    else (s, none)
  (permissionResponseError err (setPermission r.2 r.1), r.2)

/-- The method `terminateStream`. -/
def terminateStream (stream : Option MediaStream) (s : State) : State :=
  match stream with
  | some m => { s with tracksStopped := s.tracksStopped + m.tracks }
  | none => s

/-- The method `askForPermission`. -/
def askForPermission (env : Platform) (s : State) : State × Option Bool :=
  if !s.hasNavigator then
    let s1 := setPermission none s
    (s1, s1.hasPermission)
  else if !s.isMediaDevicesSupported then
    let s1 := setPermission none s
    (s1, s1.hasPermission)
  else
    match env.getUserMedia with
    | ProbeResponse.resolve stream =>
      let permission := stream.isSome
      let s1 := terminateStream stream s
      (setPermission (some permission) s1, some permission)
    | ProbeResponse.reject err =>
      let r := handlePermissionException err s
      (terminateStream none r.1, r.2)

/-- The method `updateVideoInputDevices`. -/
def updateVideoInputDevices (env : Platform) (s : State) : State × List MediaDeviceInfo :=
  let devices := env.listVideoInputDevices
  let hasDevices := decide (devices.length > 0)
  let s1 := emit (Event.camerasFound devices) (emit (Event.hasDevices (some hasDevices)) s)
  let s2 := if !hasDevices then emit (Event.camerasNotFound none) s1 else s1
  (s2, devices)

/-- Case folding of the `i` flag for the characters of the pattern. -/
def canonicalize (c : Char) : Char :=
  if c = 'Á' then 'á' else c.toLower

/-- The arrow function `matcher` of `autostartScanner`: the label matches
`/back|trás|rear|traseira|environment|ambiente/gi`. -/
def matcher (d : MediaDeviceInfo) : Bool :=
  let l := d.label.data.map canonicalize
  ["back", "trás", "rear", "traseira", "environment", "ambiente"].any fun p =>
    l.tails.any fun t => p.data.isPrefixOf t

/-- The error of `autostartScanner` for an empty device list. -/
def noInputDevicesError : JsError :=
  { name := "Error", message := some "Impossible to autostart, no input devices available." }

/-- The method `autostartScanner(devices)`. -/
def autostartScanner (devices : List MediaDeviceInfo) (env : Platform) (s : State) : Outcome :=
  match (devices.find? matcher).orElse (fun _ => devices.getLast?) with
  | none => { state := s, thrown := some noInputDevicesError }
  | some device =>
    let r := setDevice (some device) env s
    match r.thrown with
    | some e => { state := r.state, thrown := some e }
    | none => { state := emit (Event.deviceChange (some device)) r.state, thrown := none }

/-- The method `initAutostartOff`; neither promise is awaited. -/
def initAutostartOff (env : Platform) (s : State) : State :=
  let s1 := set_isAutostarting false s
  let s2 := (updateVideoInputDevices env s1).1
  if s2._device.isSome && s2._devicePreStart.isSome then
    (setDevice s2._devicePreStart env s2).state
  else s2

/-- The method `initAutostartOn`. -/
def initAutostartOn (env : Platform) (s : State) : Outcome :=
  let s1 := set_isAutostarting true s
  let a := askForPermission env s1
  let r : Outcome :=
    if a.2 = some true then
      let u := updateVideoInputDevices env a.1
      autostartScanner u.2 env u.1
    else { state := a.1, thrown := none }
  match r.thrown with
  | some e => { state := r.state, thrown := some e }
  | none => { state := emit Event.autostarted (set_isAutostarting false r.state), thrown := none }

/-- The method `init`. -/
def init (env : Platform) (s : State) : Outcome :=
  if !s.autostart then
    { state := { initAutostartOff env s with _ready := true }, thrown := none }
  else
    let r := initAutostartOn env s
    match r.thrown with
    | some e => { state := r.state, thrown := some e }
    | none => { state := { r.state with _ready := true }, thrown := none }

/-- The method `ngOnInit`; the promise of `init` is not awaited. -/
def ngOnInit (env : Platform) (s : State) : State :=
  (init env s).state

/-- The method `_reset`: returns the previously selected device. -/
def _reset (env : Platform) (s : State) : State × Option MediaDeviceInfo :=
  match s._codeReader with
  | none => (s, none)
  | some _ =>
    let s1 := { s with _codeReader := none }
    let device := s1._device
    (set_device none env s1, device)

/-- The method `reset`. -/
def reset (env : Platform) (s : State) : State :=
  emit (Event.deviceChange none) (_reset env s).1

/-- The static call `BrowserMultiFormatContinuousReader.releaseAllStreams()`. -/
def releaseAllStreams (s : State) : State :=
  { s with releaseAllStreamsCalls := s.releaseAllStreamsCalls + 1 }

/-- The setter `set enable(enabled)`; the promises of `scanFromDevice` and `init` are not
awaited. -/
def set_enable (enabled : Bool) (env : Platform) (s : State) : State :=
  let s1 := { s with _enabled := enabled }
  if !s1._enabled then releaseAllStreams (reset env s1)
  else
    match s1._device with
    | some d => (scanFromDevice d.deviceId env s1).state
    | none => (init env s1).state

/-- The error of `scanStart` when a scan subscription exists. -/
def alreadyRunningError : JsError :=
  { name := "Error", message := some "There is already a scan process running." }

/-- The error of `scanStart` when no device is selected. -/
def noDeviceError : JsError :=
  { name := "Error",
    message := some "No device defined, cannot start scan, please define a device." }

/-- The method `scanStart`; the promise of `scanFromDevice` is not awaited. -/
def scanStart (env : Platform) (s : State) : Outcome :=
  if s._scanSubscription.isSome then { state := s, thrown := some alreadyRunningError }
  else
    match s._device with
    | none => { state := s, thrown := some noDeviceError }
    | some d => { state := (scanFromDevice d.deviceId env s).state, thrown := none }

/-- The method `restart`. -/
def restart (env : Platform) (s : State) : State :=
  let s1 := { s with _codeReader := none }
  let r := _reset env s1
  match r.2 with
  | none => r.1
  | some prevDevice => set_device (some prevDevice) env r.1

/-- The method `ngOnDestroy`. -/
def ngOnDestroy (env : Platform) (s : State) : State :=
  releaseAllStreams (reset env s)

/-! ## Reachable states -/

/-- The operations on a component: its public inputs and methods, and the decoder invoking the
callback of a session. -/
inductive Action where
  | set_device (device : Option MediaDeviceInfo)
  | set_enable (enabled : Bool)
  | set_autostart (autostart : Bool)
  | scanStart
  | scanStop
  | restart
  | init
  | ngOnDestroy
  | onFrame (i : Nat) (result : Option Result) (error : Option JsError)
deriving DecidableEq, Repr

/-- One operation, with the platform's answers during it; the state is the one reached when
the operation returns or throws. -/
def step (a : Action) (env : Platform) (s : State) : State :=
  match a with
  | Action.set_device device => set_device device env s
  | Action.set_enable enabled => set_enable enabled env s
  | Action.set_autostart b => { s with autostart := b }
  | Action.scanStart => (scanStart env s).state
  | Action.scanStop => (scanStop s).state
  | Action.restart => restart env s
  | Action.init => (init env s).state
  | Action.ngOnDestroy => ngOnDestroy env s
  | Action.onFrame i result error => onFrame i result error s

/-- Runs a sequence of operations. -/
def run (ops : List (Action × Platform)) (s : State) : State :=
  ops.foldl (fun acc op => step op.1 op.2 acc) s

/-- The states a freshly constructed component can reach. -/
inductive Reachable : State → Prop where
  | fresh (hasNavigator mediaDevices : Bool) : Reachable (fresh hasNavigator mediaDevices)
  | step {s : State} (a : Action) (env : Platform) : Reachable s → Reachable (step a env s)

/-- A session is active: it was started on an opened device, `stop()` was never invoked on its
decoder controls and its stream is neither completed nor terminated by an error. -/
def Session.isActive (x : Session) : Bool :=
  match x.ctrls with
  | some c => c.stopCalls == 0 && !x.scan.isStopped
  | none => false

/-- The number of active sessions. -/
def activeSessions (s : State) : Nat :=
  s.heap.sessions.countP Session.isActive

/-! ## Notions used in the statements -/

/-- The stream value of session `i` replaced by `v`, nothing else touched. -/
def withValue (v : ScanValue) (x : Session) : Session :=
  { x with scan := { x.scan with value := v } }

/-- The events the observer of `scanFromDevice` emits for one notification. -/
def observed (n : Notification) : List Event :=
  match n with
  | Notification.next x =>
    match x.result with
    | some r => [Event.scanSuccess r.text, Event.scanComplete (some r)]
    | none => [Event.scanFailure x.error, Event.scanComplete none]
  | Notification.error err => [Event.scanError err]
  | Notification.complete => []

/-- The session after a fatal error: the stream is terminated with `e` and its controls have
received one more `stop()`. -/
def terminated (e : JsError) (c : ScannerControls) (x : Session) : Session :=
  { x with scan := { x.scan with isStopped := true, hasError := true, thrownError := some e,
                                 observers := [] },
           ctrls := some { c with stopCalls := c.stopCalls + 1 } }

/-- The session after `stop()` on its wrapped controls: the stream is completed and its controls
have received one more `stop()`. -/
def stopped (c : ScannerControls) (x : Session) : Session :=
  { x with scan := { x.scan with isStopped := true, observers := [] },
           ctrls := some { c with stopCalls := c.stopCalls + 1 } }

/-- Session `y'` is session `y` with its stream still stopped: same reader, same termination
flags, error and observers. -/
def StoppedLike (y y' : Session) : Prop :=
  y'.reader = y.reader ∧ y'.scan.isStopped = true ∧ y'.scan.hasError = y.scan.hasError ∧
  y'.scan.thrownError = y.scan.thrownError ∧ y'.scan.observers = y.scan.observers

/-- The stream of a session whose device failed to open with `e`. -/
def failedStream (e : JsError) : BehaviorSubject :=
  { value := { result := none, error := none }, isStopped := true, hasError := true,
    thrownError := some e, observers := [] }

/-- The two fields the subscription invariant is about. -/
def selection (s : State) : Option Nat × Option MediaDeviceInfo :=
  (s._scanSubscription, s._device)

/-- The invariant: a scan subscription implies a current device. -/
def SubscriptionHasDevice (s : State) : Prop :=
  (selection s).1.isSome = true → (selection s).2.isSome = true

/-- The component has an active session on device `D`: `D` is the current device and the scan
subscription is on an active session opened on `D.deviceId`. -/
def HasActiveSessionOn (s : State) (D : MediaDeviceInfo) : Prop :=
  s._device = some D ∧
  ∃ i x, s._scanSubscription = some i ∧ s.heap.sessions[i]? = some x ∧
    x.isActive = true ∧ x.deviceId = D.deviceId

/-! ## Example scenario -/

/-- A platform on which the probe is granted, two cameras are listed and the device opens,
exposing the torch. -/
def examplePlatform : Platform :=
  { decodeFromVideoDevice := OpenResponse.resolve true false,
    getUserMedia := ProbeResponse.resolve (some { tracks := 1 }),
    listVideoInputDevices :=
      [{ deviceId := "f", label := "Front Camera" }, { deviceId := "b", label := "Back Camera" }] }

/-- The component after `init` on the example platform: it scans on the back camera. -/
def scanningState : State :=
  (init examplePlatform (fresh true true)).state

/-- The session that `scanningState` runs. -/
def scanningSession : Session :=
  { reader := 0, deviceId := "b",
    scan := { value := { result := none, error := none }, isStopped := false, hasError := false,
              thrownError := none, observers := [0] },
    ctrls := some { stopCalls := 0, switchTorch := true, streamVideoConstraintsApply := false } }

/-- A soft failure: no code in the frame. -/
def notFound : JsError := { name := "NotFoundException", message := some "" }

/-- A soft failure: a code was found and failed its checksum. -/
def badChecksum : JsError := { name := "ChecksumException", message := some "" }

/-- A fatal error. -/
def trackEnded : JsError := { name := "InvalidStateError", message := some "The track has ended." }

/-! ## Notions for the device, permission and autostart claims -/

/-- The session after one more `stop()` on its wrapped controls. -/
def stopApplied (y : Session) : Session :=
  { y with ctrls := y.ctrls.map fun c => { c with stopCalls := c.stopCalls + 1 },
           scan := y.scan.complete.1 }

/-- The call of `scanFromDeviceObservable` that `scanFromDevice(deviceId)` makes, on the code
reader that `getCodeReader` hands out. -/
def opened (deviceId : String) (env : Platform) (s : State) : Started :=
  scanFromDeviceObservable (getCodeReader s).1.heap (getCodeReader s).2 deviceId
    env.decodeFromVideoDevice

/-- No failed session: the scan subscription, if any, is on the session whose controls the
current code reader stores, and the stream of that session is live. -/
def NoFailedSession (s : State) : Prop :=
  ∀ i, s._scanSubscription = some i →
    ∃ r x c, s._codeReader = some r ∧ s.heap.scannerControls r = some i ∧
      s.heap.sessions[i]? = some x ∧ x.ctrls = some c ∧ x.scan.isStopped = false

/-- The current code reader, if any, is a reader of the heap. -/
def ReaderAllocated (s : State) : Prop :=
  ∀ r, s._codeReader = some r → r < s.heap.readers.length

/-- The words of the rear-camera heuristic. -/
def rearWords : List String :=
  ["back", "trás", "rear", "traseira", "environment", "ambiente"]

/-- Specification side: the capital form of a letter of the six words. -/
def capital (c : Char) : Char :=
  if c = 'á' then 'Á' else c.toUpper

/-- Specification side: the character `c` of a label is the letter `w` of a word, in either
letter case. -/
def sameLetter (w c : Char) : Bool :=
  c == w || c == capital w

/-- Specification side: the text starts with the word, each letter in either case. -/
def startsWithIgnoringCase : List Char → List Char → Bool
  | [], _ => true
  | _ :: _, [] => false
  | w :: ws, c :: cs => sameLetter w c && startsWithIgnoringCase ws cs

/-- Specification side: the label contains the word at some position, ignoring letter case. -/
def containsIgnoringCase (label word : String) : Bool :=
  label.data.tails.any fun t => startsWithIgnoringCase word.data t

/-- The letters of the six words. -/
def rearLetters : List Char := "backtrásenvimo".data

/-- The selection as the specification words it: the first device in list order whose label
contains one of the words ignoring case; otherwise the last device; nothing for an empty list. -/
def autostartChoice (devices : List MediaDeviceInfo) : Option MediaDeviceInfo :=
  match devices.filter fun d => rearWords.any (containsIgnoringCase d.label) with
  | d :: _ => some d
  | [] => devices.getLast?

/-- The part of the state that starting and stopping scans depends on. -/
def control (s : State) : Heap × Option Nat × Option Nat × Option MediaDeviceInfo × Bool :=
  (s.heap, s._codeReader, s._scanSubscription, s._device, s._enabled)

/-- A platform on which the probe is granted and no camera is listed. -/
def noCameraPlatform : Platform :=
  { examplePlatform with listVideoInputDevices := [] }

/-- The condition under which the claim says the device input reaches `setDevice`: ready, not
autostarting, a device id different from the current one, permission granted. -/
def reachesSetDevice (device : Option MediaDeviceInfo) (s : State) : Bool :=
  s._ready && !s._isAutostarting && !isCurrentDevice device s && (s.hasPermission == some true)

/-- What `permissionResponse` delivers for `setPermission(p)` followed by `error(err)` when the
emitter was live or already terminated. -/
def permissionEvents (stopped : Bool) (p : Option Bool) (err : JsError) : List Event :=
  if stopped then [] else [Event.permissionResponse p, Event.permissionResponseError err]

/-- A component that was constructed with autostart switched off and got a device assigned
before it was ready. -/
def preStartState (D : MediaDeviceInfo) : State :=
  set_device (some D) examplePlatform { fresh true true with autostart := false }

/-- The component after a permission probe that the user denied. -/
def deniedState : State :=
  (askForPermission
    { examplePlatform with
      getUserMedia := ProbeResponse.reject { name := "NotAllowedError", message := some "" } }
    (fresh true true)).1

/-! ## Formats, video constraints and torch -/

/-- The code points of the ECMAScript productions WhiteSpace (TAB, VT, FF, ZWNBSP and the
characters of category Zs) and LineTerminator (LF, CR, LS, PS). -/
def whiteSpaceCodePoints : List Nat :=
  [0x09, 0x0A, 0x0B, 0x0C, 0x0D, 0x20, 0xA0, 0x1680, 0x2000, 0x2001, 0x2002, 0x2003, 0x2004,
   0x2005, 0x2006, 0x2007, 0x2008, 0x2009, 0x200A, 0x2028, 0x2029, 0x202F, 0x205F, 0x3000,
   0xFEFF]

/-- The character is white space or a line terminator. -/
def isWhiteSpace (c : Char) : Bool :=
  whiteSpaceCodePoints.contains c.toNat

/-- JavaScript `String.prototype.trim`: strips white space and line terminators at both ends. -/
def trim (s : String) : String :=
  String.mk ((s.data.dropWhile isWhiteSpace).reverse.dropWhile isWhiteSpace).reverse

/-- The simple upper-case mappings of the Unicode character database (version 14.0), as runs
`(first, last, step, target)`: each code point `first + k * step` up to `last` has the
one-character upper-case form `target + k * step`. -/
def upperCaseRuns : List (Nat × Nat × Nat × Nat) :=
  [(0x61, 0x7A, 1, 0x41), (0xB5, 0xB5, 1, 0x39C), (0xE0, 0xF6, 1, 0xC0), (0xF8, 0xFE, 1, 0xD8),
   (0xFF, 0xFF, 1, 0x178), (0x101, 0x12F, 2, 0x100), (0x131, 0x131, 1, 0x49),
   (0x133, 0x137, 2, 0x132), (0x13A, 0x148, 2, 0x139), (0x14B, 0x177, 2, 0x14A),
   (0x17A, 0x17E, 2, 0x179), (0x17F, 0x17F, 1, 0x53), (0x180, 0x180, 1, 0x243),
   (0x183, 0x185, 2, 0x182), (0x188, 0x188, 1, 0x187), (0x18C, 0x18C, 1, 0x18B),
   (0x192, 0x192, 1, 0x191), (0x195, 0x195, 1, 0x1F6), (0x199, 0x199, 1, 0x198),
   (0x19A, 0x19A, 1, 0x23D), (0x19E, 0x19E, 1, 0x220), (0x1A1, 0x1A5, 2, 0x1A0),
   (0x1A8, 0x1A8, 1, 0x1A7), (0x1AD, 0x1AD, 1, 0x1AC), (0x1B0, 0x1B0, 1, 0x1AF),
   (0x1B4, 0x1B6, 2, 0x1B3), (0x1B9, 0x1B9, 1, 0x1B8), (0x1BD, 0x1BD, 1, 0x1BC),
   (0x1BF, 0x1BF, 1, 0x1F7), (0x1C5, 0x1C5, 1, 0x1C4), (0x1C6, 0x1C6, 1, 0x1C4),
   (0x1C8, 0x1C8, 1, 0x1C7), (0x1C9, 0x1C9, 1, 0x1C7), (0x1CB, 0x1CB, 1, 0x1CA),
   (0x1CC, 0x1CC, 1, 0x1CA), (0x1CE, 0x1DC, 2, 0x1CD), (0x1DD, 0x1DD, 1, 0x18E),
   (0x1DF, 0x1EF, 2, 0x1DE), (0x1F2, 0x1F2, 1, 0x1F1), (0x1F3, 0x1F3, 1, 0x1F1),
   (0x1F5, 0x1F5, 1, 0x1F4), (0x1F9, 0x21F, 2, 0x1F8), (0x223, 0x233, 2, 0x222),
   (0x23C, 0x23C, 1, 0x23B), (0x23F, 0x240, 1, 0x2C7E), (0x242, 0x242, 1, 0x241),
   (0x247, 0x24F, 2, 0x246), (0x250, 0x250, 1, 0x2C6F), (0x251, 0x251, 1, 0x2C6D),
   (0x252, 0x252, 1, 0x2C70), (0x253, 0x253, 1, 0x181), (0x254, 0x254, 1, 0x186),
   (0x256, 0x257, 1, 0x189), (0x259, 0x259, 1, 0x18F), (0x25B, 0x25B, 1, 0x190),
   (0x25C, 0x25C, 1, 0xA7AB), (0x260, 0x260, 1, 0x193), (0x261, 0x261, 1, 0xA7AC),
   (0x263, 0x263, 1, 0x194), (0x265, 0x265, 1, 0xA78D), (0x266, 0x266, 1, 0xA7AA),
   (0x268, 0x268, 1, 0x197), (0x269, 0x269, 1, 0x196), (0x26A, 0x26A, 1, 0xA7AE),
   (0x26B, 0x26B, 1, 0x2C62), (0x26C, 0x26C, 1, 0xA7AD), (0x26F, 0x26F, 1, 0x19C),
   (0x271, 0x271, 1, 0x2C6E), (0x272, 0x272, 1, 0x19D), (0x275, 0x275, 1, 0x19F),
   (0x27D, 0x27D, 1, 0x2C64), (0x280, 0x280, 1, 0x1A6), (0x282, 0x282, 1, 0xA7C5),
   (0x283, 0x283, 1, 0x1A9), (0x287, 0x287, 1, 0xA7B1), (0x288, 0x288, 1, 0x1AE),
   (0x289, 0x289, 1, 0x244), (0x28A, 0x28B, 1, 0x1B1), (0x28C, 0x28C, 1, 0x245),
   (0x292, 0x292, 1, 0x1B7), (0x29D, 0x29D, 1, 0xA7B2), (0x29E, 0x29E, 1, 0xA7B0),
   (0x345, 0x345, 1, 0x399), (0x371, 0x373, 2, 0x370), (0x377, 0x377, 1, 0x376),
   (0x37B, 0x37D, 1, 0x3FD), (0x3AC, 0x3AC, 1, 0x386), (0x3AD, 0x3AF, 1, 0x388),
   (0x3B1, 0x3C1, 1, 0x391), (0x3C2, 0x3C2, 1, 0x3A3), (0x3C3, 0x3CB, 1, 0x3A3),
   (0x3CC, 0x3CC, 1, 0x38C), (0x3CD, 0x3CE, 1, 0x38E), (0x3D0, 0x3D0, 1, 0x392),
   (0x3D1, 0x3D1, 1, 0x398), (0x3D5, 0x3D5, 1, 0x3A6), (0x3D6, 0x3D6, 1, 0x3A0),
   (0x3D7, 0x3D7, 1, 0x3CF), (0x3D9, 0x3EF, 2, 0x3D8), (0x3F0, 0x3F0, 1, 0x39A),
   (0x3F1, 0x3F1, 1, 0x3A1), (0x3F2, 0x3F2, 1, 0x3F9), (0x3F3, 0x3F3, 1, 0x37F),
   (0x3F5, 0x3F5, 1, 0x395), (0x3F8, 0x3F8, 1, 0x3F7), (0x3FB, 0x3FB, 1, 0x3FA),
   (0x430, 0x44F, 1, 0x410), (0x450, 0x45F, 1, 0x400), (0x461, 0x481, 2, 0x460),
   (0x48B, 0x4BF, 2, 0x48A), (0x4C2, 0x4CE, 2, 0x4C1), (0x4CF, 0x4CF, 1, 0x4C0),
   (0x4D1, 0x52F, 2, 0x4D0), (0x561, 0x586, 1, 0x531), (0x10D0, 0x10FA, 1, 0x1C90),
   (0x10FD, 0x10FF, 1, 0x1CBD), (0x13F8, 0x13FD, 1, 0x13F0), (0x1C80, 0x1C80, 1, 0x412),
   (0x1C81, 0x1C81, 1, 0x414), (0x1C82, 0x1C82, 1, 0x41E), (0x1C83, 0x1C84, 1, 0x421),
   (0x1C85, 0x1C85, 1, 0x422), (0x1C86, 0x1C86, 1, 0x42A), (0x1C87, 0x1C87, 1, 0x462),
   (0x1C88, 0x1C88, 1, 0xA64A), (0x1D79, 0x1D79, 1, 0xA77D), (0x1D7D, 0x1D7D, 1, 0x2C63),
   (0x1D8E, 0x1D8E, 1, 0xA7C6), (0x1E01, 0x1E95, 2, 0x1E00), (0x1E9B, 0x1E9B, 1, 0x1E60),
   (0x1EA1, 0x1EFF, 2, 0x1EA0), (0x1F00, 0x1F07, 1, 0x1F08), (0x1F10, 0x1F15, 1, 0x1F18),
   (0x1F20, 0x1F27, 1, 0x1F28), (0x1F30, 0x1F37, 1, 0x1F38), (0x1F40, 0x1F45, 1, 0x1F48),
   (0x1F51, 0x1F57, 2, 0x1F59), (0x1F60, 0x1F67, 1, 0x1F68), (0x1F70, 0x1F71, 1, 0x1FBA),
   (0x1F72, 0x1F75, 1, 0x1FC8), (0x1F76, 0x1F77, 1, 0x1FDA), (0x1F78, 0x1F79, 1, 0x1FF8),
   (0x1F7A, 0x1F7B, 1, 0x1FEA), (0x1F7C, 0x1F7D, 1, 0x1FFA), (0x1FB0, 0x1FB1, 1, 0x1FB8),
   (0x1FBE, 0x1FBE, 1, 0x399), (0x1FD0, 0x1FD1, 1, 0x1FD8), (0x1FE0, 0x1FE1, 1, 0x1FE8),
   (0x1FE5, 0x1FE5, 1, 0x1FEC), (0x214E, 0x214E, 1, 0x2132), (0x2170, 0x217F, 1, 0x2160),
   (0x2184, 0x2184, 1, 0x2183), (0x24D0, 0x24E9, 1, 0x24B6), (0x2C30, 0x2C5F, 1, 0x2C00),
   (0x2C61, 0x2C61, 1, 0x2C60), (0x2C65, 0x2C65, 1, 0x23A), (0x2C66, 0x2C66, 1, 0x23E),
   (0x2C68, 0x2C6C, 2, 0x2C67), (0x2C73, 0x2C73, 1, 0x2C72), (0x2C76, 0x2C76, 1, 0x2C75),
   (0x2C81, 0x2CE3, 2, 0x2C80), (0x2CEC, 0x2CEE, 2, 0x2CEB), (0x2CF3, 0x2CF3, 1, 0x2CF2),
   (0x2D00, 0x2D25, 1, 0x10A0), (0x2D27, 0x2D27, 1, 0x10C7), (0x2D2D, 0x2D2D, 1, 0x10CD),
   (0xA641, 0xA66D, 2, 0xA640), (0xA681, 0xA69B, 2, 0xA680), (0xA723, 0xA72F, 2, 0xA722),
   (0xA733, 0xA76F, 2, 0xA732), (0xA77A, 0xA77C, 2, 0xA779), (0xA77F, 0xA787, 2, 0xA77E),
   (0xA78C, 0xA78C, 1, 0xA78B), (0xA791, 0xA793, 2, 0xA790), (0xA794, 0xA794, 1, 0xA7C4),
   (0xA797, 0xA7A9, 2, 0xA796), (0xA7B5, 0xA7C3, 2, 0xA7B4), (0xA7C8, 0xA7CA, 2, 0xA7C7),
   (0xA7D1, 0xA7D1, 1, 0xA7D0), (0xA7D7, 0xA7D9, 2, 0xA7D6), (0xA7F6, 0xA7F6, 1, 0xA7F5),
   (0xAB53, 0xAB53, 1, 0xA7B3), (0xAB70, 0xABBF, 1, 0x13A0), (0xFF41, 0xFF5A, 1, 0xFF21),
   (0x10428, 0x1044F, 1, 0x10400), (0x104D8, 0x104FB, 1, 0x104B0), (0x10597, 0x105BB, 2, 0x10570),
   (0x10598, 0x105A0, 2, 0x10571), (0x105A4, 0x105B0, 2, 0x1057D), (0x105B4, 0x105B8, 2, 0x1058D),
   (0x105BC, 0x105BC, 1, 0x10595), (0x10CC0, 0x10CF2, 1, 0x10C80), (0x118C0, 0x118DF, 1, 0x118A0),
   (0x16E60, 0x16E7F, 1, 0x16E40), (0x1E922, 0x1E943, 1, 0x1E900)]

/-- The unconditional special casings of the Unicode character database (version 14.0): the
code points whose upper-case form has several characters. -/
def upperCaseSpecial : List (Nat × List Nat) :=
  [(0xDF, [0x53, 0x53]), (0x149, [0x2BC, 0x4E]), (0x1F0, [0x4A, 0x30C]),
   (0x390, [0x399, 0x308, 0x301]), (0x3B0, [0x3A5, 0x308, 0x301]), (0x587, [0x535, 0x552]),
   (0x1E96, [0x48, 0x331]), (0x1E97, [0x54, 0x308]), (0x1E98, [0x57, 0x30A]),
   (0x1E99, [0x59, 0x30A]), (0x1E9A, [0x41, 0x2BE]), (0x1F50, [0x3A5, 0x313]),
   (0x1F52, [0x3A5, 0x313, 0x300]), (0x1F54, [0x3A5, 0x313, 0x301]),
   (0x1F56, [0x3A5, 0x313, 0x342]), (0x1F80, [0x1F08, 0x399]), (0x1F81, [0x1F09, 0x399]),
   (0x1F82, [0x1F0A, 0x399]), (0x1F83, [0x1F0B, 0x399]), (0x1F84, [0x1F0C, 0x399]),
   (0x1F85, [0x1F0D, 0x399]), (0x1F86, [0x1F0E, 0x399]), (0x1F87, [0x1F0F, 0x399]),
   (0x1F88, [0x1F08, 0x399]), (0x1F89, [0x1F09, 0x399]), (0x1F8A, [0x1F0A, 0x399]),
   (0x1F8B, [0x1F0B, 0x399]), (0x1F8C, [0x1F0C, 0x399]), (0x1F8D, [0x1F0D, 0x399]),
   (0x1F8E, [0x1F0E, 0x399]), (0x1F8F, [0x1F0F, 0x399]), (0x1F90, [0x1F28, 0x399]),
   (0x1F91, [0x1F29, 0x399]), (0x1F92, [0x1F2A, 0x399]), (0x1F93, [0x1F2B, 0x399]),
   (0x1F94, [0x1F2C, 0x399]), (0x1F95, [0x1F2D, 0x399]), (0x1F96, [0x1F2E, 0x399]),
   (0x1F97, [0x1F2F, 0x399]), (0x1F98, [0x1F28, 0x399]), (0x1F99, [0x1F29, 0x399]),
   (0x1F9A, [0x1F2A, 0x399]), (0x1F9B, [0x1F2B, 0x399]), (0x1F9C, [0x1F2C, 0x399]),
   (0x1F9D, [0x1F2D, 0x399]), (0x1F9E, [0x1F2E, 0x399]), (0x1F9F, [0x1F2F, 0x399]),
   (0x1FA0, [0x1F68, 0x399]), (0x1FA1, [0x1F69, 0x399]), (0x1FA2, [0x1F6A, 0x399]),
   (0x1FA3, [0x1F6B, 0x399]), (0x1FA4, [0x1F6C, 0x399]), (0x1FA5, [0x1F6D, 0x399]),
   (0x1FA6, [0x1F6E, 0x399]), (0x1FA7, [0x1F6F, 0x399]), (0x1FA8, [0x1F68, 0x399]),
   (0x1FA9, [0x1F69, 0x399]), (0x1FAA, [0x1F6A, 0x399]), (0x1FAB, [0x1F6B, 0x399]),
   (0x1FAC, [0x1F6C, 0x399]), (0x1FAD, [0x1F6D, 0x399]), (0x1FAE, [0x1F6E, 0x399]),
   (0x1FAF, [0x1F6F, 0x399]), (0x1FB2, [0x1FBA, 0x399]), (0x1FB3, [0x391, 0x399]),
   (0x1FB4, [0x386, 0x399]), (0x1FB6, [0x391, 0x342]), (0x1FB7, [0x391, 0x342, 0x399]),
   (0x1FBC, [0x391, 0x399]), (0x1FC2, [0x1FCA, 0x399]), (0x1FC3, [0x397, 0x399]),
   (0x1FC4, [0x389, 0x399]), (0x1FC6, [0x397, 0x342]), (0x1FC7, [0x397, 0x342, 0x399]),
   (0x1FCC, [0x397, 0x399]), (0x1FD2, [0x399, 0x308, 0x300]), (0x1FD3, [0x399, 0x308, 0x301]),
   (0x1FD6, [0x399, 0x342]), (0x1FD7, [0x399, 0x308, 0x342]), (0x1FE2, [0x3A5, 0x308, 0x300]),
   (0x1FE3, [0x3A5, 0x308, 0x301]), (0x1FE4, [0x3A1, 0x313]), (0x1FE6, [0x3A5, 0x342]),
   (0x1FE7, [0x3A5, 0x308, 0x342]), (0x1FF2, [0x1FFA, 0x399]), (0x1FF3, [0x3A9, 0x399]),
   (0x1FF4, [0x38F, 0x399]), (0x1FF6, [0x3A9, 0x342]), (0x1FF7, [0x3A9, 0x342, 0x399]),
   (0x1FFC, [0x3A9, 0x399]), (0xFB00, [0x46, 0x46]), (0xFB01, [0x46, 0x49]),
   (0xFB02, [0x46, 0x4C]), (0xFB03, [0x46, 0x46, 0x49]), (0xFB04, [0x46, 0x46, 0x4C]),
   (0xFB05, [0x53, 0x54]), (0xFB06, [0x53, 0x54]), (0xFB13, [0x544, 0x546]),
   (0xFB14, [0x544, 0x535]), (0xFB15, [0x544, 0x53B]), (0xFB16, [0x54E, 0x546]),
   (0xFB17, [0x544, 0x53D])]

/-- The upper-case form of one character; a character without a mapping stays as it is. -/
def upperCase (c : Char) : List Char :=
  match List.lookup c.toNat upperCaseSpecial with
  | some u => u.map Char.ofNat
  | none =>
    match upperCaseRuns.find? fun r =>
        decide (r.1 ≤ c.toNat) && decide (c.toNat ≤ r.2.1) &&
          (c.toNat - r.1) % r.2.2.1 == 0 with
    | some r => [Char.ofNat (r.2.2.2 + (c.toNat - r.1))]
    | none => [c]

/-- JavaScript `String.prototype.toUpperCase`: the upper-case form of each character in turn;
the conversion depends on neither context nor locale. -/
def toUpperCase (s : String) : String :=
  String.mk (s.data.flatMap upperCase)

/-- The names of the enumeration `BarcodeFormat` of the barcode library, in the order of their
values 0 to 16. -/
def BarcodeFormat.names : List String :=
  ["AZTEC", "CODABAR", "CODE_39", "CODE_93", "CODE_128", "DATA_MATRIX", "EAN_8", "EAN_13", "ITF",
   "MAXICODE", "PDF_417", "QR_CODE", "RSS_14", "RSS_EXPANDED", "UPC_A", "UPC_E",
   "UPC_EAN_EXTENSION"]

/-- The own properties of the object `BarcodeFormat`. A numeric enumeration is compiled to
`BarcodeFormat[BarcodeFormat["AZTEC"] = 0] = "AZTEC"` and so on: every name is a key holding its
number, and every number, as a decimal string, is a key holding its name. -/
def BarcodeFormat.entries : List (String × FormatItem) :=
  BarcodeFormat.names.enum.flatMap fun e =>
    [(e.2, FormatItem.value e.1), (toString e.1, FormatItem.text e.2)]

/-- The property access `BarcodeFormat[key]` for an upper-cased key: an own property, or
`undefined` (the name of every property inherited from `Object.prototype` has a lower-case
letter). -/
def BarcodeFormat.get (key : String) : FormatItem :=
  (List.lookup key BarcodeFormat.entries).getD FormatItem.undefined

/-- The method `getBarcodeFormatOrFail(format)`. -/
def getBarcodeFormatOrFail (format : FormatItem) : FormatItem :=
  match format with
  | FormatItem.text s => BarcodeFormat.get (toUpperCase (trim s))
  | other => other

/-- What a template can bind to the `formats` input: a bare string or a list. -/
inductive FormatsInput where
  | text (s : String)
  | list (items : List FormatItem)
deriving DecidableEq, Repr

/-- The error of the `formats` setter for a string input. -/
def invalidFormatsError : JsError :=
  { name := "Error", message := some "Invalid formats, make sure the [formats] input is a binding." }

/-- The getter `get hints()`. -/
def get_hints (s : State) : Hints := s._hints

/-- The setter `set hints(hints)`: the call `this.codeReader?.setHints(this._hints)` hands the
code reader the map it shares with the component. -/
def set_hints (hints : Hints) (s : State) : State :=
  { s with _hints := hints }

/-- The getter `get formats()`. -/
def get_formats (s : State) : Option (List FormatItem) :=
  (get_hints s).POSSIBLE_FORMATS

/-- The setter `set formats(input)`. -/
def set_formats (input : FormatsInput) (s : State) : Outcome :=
  match input with
  | FormatsInput.text _ => { state := s, thrown := some invalidFormatsError }
  | FormatsInput.list items =>
    let formats := items.map getBarcodeFormatOrFail
    let hints := get_hints s
    { state := set_hints { hints with POSSIBLE_FORMATS := some formats } s, thrown := none }

/-- The `TypeError` of calling a method that the controls do not have. -/
def notAFunctionError (method : String) : JsError :=
  { name := "TypeError", message := some ("controls." ++ method ++ " is not a function") }

/-- The setter `set videoConstraints(constraints)`. -/
def set_videoConstraints (constraints : Nat) (s : State) : Outcome :=
  match s._codeReader with
  | none => { state := s, thrown := none }
  | some r =>
    match getScannerControls s.heap r with
    | Except.error e => { state := s, thrown := some e }
    | Except.ok k =>
      let exposed : Bool :=
        match s.heap.sessions[k]? with
        | some sk => (sk.ctrls.map fun c => c.streamVideoConstraintsApply).getD false
        | none => false
      if exposed then
        { state := { s with constraintsApplied := s.constraintsApplied ++ [(k, constraints)] },
          thrown := none }
      else { state := s, thrown := some (notAFunctionError "streamVideoConstraintsApply") }

/-- The body of the `try` block of the `torch` setter; `failure` is the exception that
`switchTorch` itself raises on this platform, if any. -/
def torchAttempt (onOff : Bool) (failure : Option JsError) (s : State) : Outcome :=
  let g := getCodeReader s
  match getScannerControls g.1.heap g.2 with
  | Except.error e => { state := g.1, thrown := some e }
  | Except.ok k =>
    let exposed : Bool :=
      match g.1.heap.sessions[k]? with
      | some sk => (sk.ctrls.map fun c => c.switchTorch).getD false
      | none => false
    if exposed then
      match failure with
      | some e => { state := g.1, thrown := some e }
      | none =>
        { state := { g.1 with torchSwitched := g.1.torchSwitched ++ [(k, onOff)] },
          thrown := none }
    else { state := g.1, thrown := some (notAFunctionError "switchTorch") }

/-- The setter `set torch(onOff)`: the `catch` block ignores every exception of the body. -/
def set_torch (onOff : Bool) (failure : Option JsError) (s : State) : Outcome :=
  { state := (torchAttempt onOff failure s).state, thrown := none }

/-- A failed session: a scan subscription is held and a code reader exists, but the reader has
no controls. -/
def FailedSession (s : State) : Prop :=
  ∃ i r, s._scanSubscription = some i ∧ s._codeReader = some r ∧
    s.heap.scannerControls r = none

/-- The scanning component after a fatal decoder error: the subscription is still held, the
code reader exists and has no controls. -/
def failedState : State :=
  onFrame 0 none (some trackEnded) scanningState

/-- A platform on which the user denies the permission probe. -/
def deniedPlatform : Platform :=
  { examplePlatform with
    getUserMedia := ProbeResponse.reject { name := "NotAllowedError", message := some "" } }

/-- The number of scanComplete events in a log. -/
def scanCompletes (evs : List Event) : Nat :=
  evs.countP fun ev =>
    match ev with
    | Event.scanComplete _ => true
    | _ => false

/-- The callback invocation carries a successful decode or a soft failure. -/
def nonFatal (cb : Option Result × Option JsError) : Bool :=
  match cb.2 with
  | none => true
  | some e => isSoftFailure e == some true

/-- The value that a non-fatal callback invocation pushes into the stream. -/
def pushed (cb : Option Result × Option JsError) : ScanValue :=
  match cb.2 with
  | none => { result := cb.1, error := none }
  | some e => { result := none, error := some e }

/-- The component right after a first session was opened on the back camera. -/
def startedState : State :=
  (scanFromDevice "b" examplePlatform (fresh true true)).state

/-! ## States and errors for the revised claims -/

/-- A fatal error of the barcode library that was built without a message. -/
def illegalState : JsError := { name := "IllegalStateException", message := none }

/-- The component after `init` followed by `enable = true`: two sessions run on one reader. -/
def twoSessionState : State :=
  run [(Action.init, examplePlatform), (Action.set_enable true, examplePlatform)] (fresh true true)

/-- The component after `init` followed by `restart()`: the session of `init` is still running
and subscribed, the decoder has been discarded. -/
def restartedState : State :=
  run [(Action.init, examplePlatform), (Action.restart, examplePlatform)] (fresh true true)

/-! ## A session start with the decoder at work -/

/-- The method `scanFromDeviceObservable(deviceId, previewEl)` of reader `r` with the decoder at
work during the call. The callback is handed to the decoder when `decodeFromVideoDevice` is
called; `early` are the invocations of the callback before that call resolves or rejects, at
which time the reader still has the controls it had before and the new ones do not exist
yet. -/
def scanFromDeviceObservableDuring (h : Heap) (r : Nat) (deviceId : String)
    (early : List (Option Result × Option JsError)) (resp : OpenResponse) : Started :=
  let i := h.sessions.length
  let scan0 := BehaviorSubject.create { result := none, error := none }
  let sess0 : Session := { reader := r, deviceId := deviceId, scan := scan0, ctrls := none }
  let e := runCallbacks i early { h with sessions := h.sessions ++ [sess0] }
  match e.1.sessions[i]? with
  | none => { heap := e.1, stream := i, delivered := e.2 }
  | some sess =>
    match resp with
    | OpenResponse.resolve torch constraints =>
      let opened : Session :=
        { sess with ctrls := some { stopCalls := 0, switchTorch := torch,
                                    streamVideoConstraintsApply := constraints } }
      { heap := Heap.setScannerControls r (some i) (e.1.setSession i opened),
        stream := i, delivered := e.2 }
    | OpenResponse.reject err =>
      let er := sess.scan.error err
      let h1 := e.1.setSession i { sess with scan := er.1 }
      match h1.scannerControls r with
      | none =>
        { heap := h1.setScannerControls r none, stream := i, delivered := e.2 ++ er.2 }
      | some k =>
        let st := scannerControlsStop h1 k
        { heap := st.1.setScannerControls r none, stream := i,
          delivered := e.2 ++ er.2 ++ st.2 }

/-- The statements of `scanFromDevice` that follow the `await`: the stream `stream` of the
code reader `codeReader` is subscribed and the torch capability is reported. -/
def subscribeStream (codeReader stream : Nat) (s1 : State) : Outcome :=
  match s1.heap.sessions[stream]? with
  | none => { state := s1, thrown := some undefinedStreamError }
  | some sess =>
    let sub := sess.scan.subscribe stream
    let s2 := deliver sub.2
      { s1 with heap := s1.heap.setSession stream { sess with scan := sub.1 } }
    let s3 := { s2 with _scanSubscription := some stream }
    if sub.1.closed stream then { state := s3, thrown := none }
    else
      match getScannerControls s3.heap codeReader with
      | Except.error e => { state := s3, thrown := some e }
      | Except.ok k =>
        let hasTorchControl :=
          match s3.heap.sessions[k]? with
          | some sk => (sk.ctrls.map fun c => c.switchTorch).getD false
          | none => false
        { state := emit (Event.torchCompatible hasTorchControl) s3, thrown := none }

/-- The method `scanFromDevice(deviceId)` with the decoder at work during the call: `early` are
the callback invocations while `decodeFromVideoDevice` is pending, `queued` those after
`scanFromDeviceObservable` has returned and before its awaited stream is subscribed. -/
def scanFromDeviceDuring (deviceId : String)
    (early queued : List (Option Result × Option JsError)) (env : Platform) (s : State) :
    Outcome :=
  let g := getCodeReader s
  let st := scanFromDeviceObservableDuring g.1.heap g.2 deviceId early env.decodeFromVideoDevice
  subscribeStream g.2 st.stream
    (onFrames st.stream queued (deliver st.delivered { g.1 with heap := st.heap }))

/-- The value a live stream holds after a run of non-fatal callback invocations: the outcome of
the last one, or the value it held before when there was none. -/
def valueAfter (v : ScanValue) (cbs : List (Option Result × Option JsError)) : ScanValue :=
  cbs.foldl (fun _ cb => pushed cb) v

/-- The seed of the stream, `new BehaviorSubject({})`. -/
def seed : ScanValue := { result := none, error := none }

/-! # Theorems -/

/-! ## Auxiliary facts about the heap -/

theorem set_same {α : Type} (l : List α) (i : Nat) (a : α) (h : l[i]? = some a) :
    l.set i a = l := by
  induction l generalizing i with
  | nil => rfl
  | cons b t ih =>
    cases i with
    | zero => simp at h; simp [h]
    | succ n => simp at h; simp [ih n h]

theorem lt_of_stored {α : Type} {l : List α} {i : Nat} {a : α} (h : l[i]? = some a) :
    i < l.length := by
  rcases Nat.lt_or_ge i l.length with hlt | hge
  · exact hlt
  · rw [List.getElem?_eq_none hge] at h; cases h

theorem setSession_sessions (h : Heap) (i : Nat) (a x : Session) (hx : h.sessions[i]? = some x) :
    (h.setSession i a).sessions[i]? = some a := by
  simp [Heap.setSession, List.getElem?_set, lt_of_stored hx]

theorem setSession_other (h : Heap) (i j : Nat) (a : Session) (hij : j ≠ i) :
    (h.setSession i a).sessions[j]? = h.sessions[j]? := by
  simp [Heap.setSession, List.getElem?_set, Ne.symm hij]

theorem setSession_setSession (h : Heap) (i : Nat) (a b : Session) :
    (h.setSession i a).setSession i b = h.setSession i b := by
  simp [Heap.setSession, List.set_set]

theorem setSession_same (h : Heap) (i : Nat) (x : Session) (hx : h.sessions[i]? = some x) :
    h.setSession i x = h := by
  simp [Heap.setSession, set_same _ _ _ hx]

@[simp] theorem setSession_scannerControls (h : Heap) (i : Nat) (a : Session) (r : Nat) :
    (h.setSession i a).scannerControls r = h.scannerControls r := rfl

@[simp] theorem setSession_readers (h : Heap) (i : Nat) (a : Session) :
    (h.setSession i a).readers = h.readers := rfl

theorem setSession_ctrls (h : Heap) (i : Nat) (a x : Session) (hx : h.sessions[i]? = some x)
    (hc : a.ctrls = x.ctrls) :
    (h.setSession i a).sessions.map (fun y => y.ctrls) = h.sessions.map (fun y => y.ctrls) := by
  simp only [Heap.setSession, List.map_set]
  apply set_same
  simp [hx, hc]

theorem withValue_self (x : Session) : withValue x.scan.value x = x := rfl

theorem decodeCallback_soft (h : Heap) (i : Nat) (x : Session) (result : Option Result)
    (e : JsError) (hx : h.sessions[i]? = some x) (hs : isSoftFailure e = some true)
    (hl : x.scan.isStopped = false) :
    decodeCallback h i result (some e) =
      { heap := h.setSession i (withValue { result := none, error := some e } x),
        delivered := x.scan.observers.map fun o =>
          (o, Notification.next { result := none, error := some e }),
        thrown := none } := by
  simp [decodeCallback, hx, hs, BehaviorSubject.next, hl, withValue]

theorem notify_eq (n : Notification) (s : State) :
    notify n s = { s with events := s.events ++ observed n } := by
  cases n with
  | next x =>
    cases hx : x.result <;>
      simp [notify, observed, hx, _onDecodeResult, dispatchScanComplete, dispatchScanSuccess,
        dispatchScanFailure, emit]
  | error e => simp [notify, observed, _onDecodeError, dispatchScanError, emit]
  | complete => simp [notify, observed]

theorem deliver_eq (ds : List Delivery) (s : State) :
    deliver ds s = { s with events := s.events ++ ds.flatMap fun d => observed d.2 } := by
  induction ds generalizing s with
  | nil => simp [deliver]
  | cons d t ih =>
    have e : deliver (d :: t) s = deliver t (notify d.2 s) := rfl
    rw [e, ih, notify_eq]
    simp [List.flatMap_cons, List.append_assoc]

theorem deliver_append (a b : List Delivery) (s : State) :
    deliver (a ++ b) s = deliver b (deliver a s) := by
  simp [deliver, List.foldl_append]

@[simp] theorem deliver_nil (s : State) : deliver [] s = s := rfl

@[simp] theorem deliver_heap (ds : List Delivery) (s : State) : (deliver ds s).heap = s.heap := by
  rw [deliver_eq]

theorem deliver_congr_heap (ds : List Delivery) (s : State) (h : Heap) :
    deliver ds { s with heap := h } = { deliver ds s with heap := h } := by
  rw [deliver_eq, deliver_eq]

/-- A run of callbacks on the component is the run on the heap followed by the observers. -/
theorem onFrames_eq (i : Nat) (cbs : List (Option Result × Option JsError)) (s : State) :
    onFrames i cbs s =
      deliver (runCallbacks i cbs s.heap).2 { s with heap := (runCallbacks i cbs s.heap).1 } := by
  induction cbs generalizing s with
  | nil => rfl
  | cons cb t ih =>
    have e1 : onFrames i (cb :: t) s = onFrames i t (onFrame i cb.1 cb.2 s) := rfl
    rw [e1, ih]
    simp [onFrame, runCallbacks, deliver_eq, List.flatMap_append, List.append_assoc]

theorem flatMap_singleton {α β γ : Type} (g : α → γ → β) (o : γ) (l : List α) :
    (l.flatMap fun a => List.map (fun c => g a c) [o]) = l.map fun a => g a o := by
  induction l with
  | nil => rfl
  | cons a t ih => simpa [List.flatMap_cons] using ih

theorem runCallbacks_soft (i : Nat) (cbs : List (Option Result × JsError)) :
    ∀ (h : Heap) (x : Session), h.sessions[i]? = some x → x.scan.isStopped = false →
      (∀ cb ∈ cbs, isSoftFailure cb.2 = some true) →
      (runCallbacks i (cbs.map fun cb => (cb.1, some cb.2)) h).2 =
        cbs.flatMap (fun cb => x.scan.observers.map fun o =>
          (o, Notification.next { result := none, error := some cb.2 })) ∧
      ∃ v, (runCallbacks i (cbs.map fun cb => (cb.1, some cb.2)) h).1 =
        h.setSession i (withValue v x) := by
  induction cbs with
  | nil =>
    intro h x hx _ _
    exact ⟨rfl, x.scan.value, by rw [withValue_self, setSession_same h i x hx]; rfl⟩
  | cons cb t ih =>
    intro h x hx hl hs
    have hcb : isSoftFailure cb.2 = some true := hs cb (List.mem_cons_self _ _)
    have ht : ∀ c ∈ t, isSoftFailure c.2 = some true := fun c hc => hs c (List.mem_cons_of_mem _ hc)
    have hd := decodeCallback_soft h i x cb.1 cb.2 hx hcb hl
    obtain ⟨ih1, v, ih2⟩ := ih (h.setSession i (withValue { result := none, error := some cb.2 } x))
      (withValue { result := none, error := some cb.2 } x)
      (setSession_sessions h i _ x hx) hl ht
    simp only [List.map_cons, runCallbacks, hd, List.flatMap_cons]
    refine ⟨?_, v, ?_⟩
    · rw [ih1]; rfl
    · rw [ih2, setSession_setSession]; rfl

/-- C1. For every finite sequence of decoder callback invocations on a live session, each
carrying a soft-failure error (name NotFoundException, ChecksumException or FormatException, or
the "No MultiFormat Readers" message), the stream delivers to its subscriber exactly one
`{ error }` value per invocation, in order; the stream is not stopped, no controls receive a
`stop()` call and the reader keeps its controls (only the stored current value of the stream
changes); and the component emits `scanFailure` and then one `scanComplete` for each
invocation. -/
theorem soft_failures_keep_stream_alive (s : State) (i o : Nat) (x : Session)
    (cbs : List (Option Result × JsError))
    (hx : s.heap.sessions[i]? = some x) (hlive : x.scan.isStopped = false)
    (hobs : x.scan.observers = [o]) (hsoft : ∀ cb ∈ cbs, isSoftFailure cb.2 = some true) :
    (runCallbacks i (cbs.map fun cb => (cb.1, some cb.2)) s.heap).2 =
        cbs.map (fun cb => (o, Notification.next { result := none, error := some cb.2 })) ∧
    (∃ v, (runCallbacks i (cbs.map fun cb => (cb.1, some cb.2)) s.heap).1 =
        s.heap.setSession i (withValue v x)) ∧
    (∃ y, (onFrames i (cbs.map fun cb => (cb.1, some cb.2)) s).heap.sessions[i]? = some y ∧
        y.scan.isStopped = false ∧ y.scan.hasError = x.scan.hasError ∧
        y.scan.observers = [o]) ∧
    (onFrames i (cbs.map fun cb => (cb.1, some cb.2)) s).heap.sessions.map (fun y => y.ctrls) =
        s.heap.sessions.map (fun y => y.ctrls) ∧
    (onFrames i (cbs.map fun cb => (cb.1, some cb.2)) s).heap.readers = s.heap.readers ∧
    (onFrames i (cbs.map fun cb => (cb.1, some cb.2)) s).events =
        s.events ++ cbs.flatMap fun cb =>
          [Event.scanFailure (some cb.2), Event.scanComplete none] := by
  obtain ⟨h1, v, h2⟩ := runCallbacks_soft i cbs s.heap x hx hlive hsoft
  have hd : (runCallbacks i (cbs.map fun cb => (cb.1, some cb.2)) s.heap).2 =
      cbs.map (fun cb => (o, Notification.next { result := none, error := some cb.2 })) := by
    rw [h1, hobs]
    exact flatMap_singleton (fun cb c => (c, Notification.next { result := none, error := some cb.2 })) o cbs
  refine ⟨hd, ⟨v, h2⟩, ?_, ?_, ?_, ?_⟩
  · refine ⟨withValue v x, ?_, hlive, rfl, hobs⟩
    rw [onFrames_eq, deliver_heap]
    simp only [h2]
    exact setSession_sessions s.heap i _ x hx
  · rw [onFrames_eq, deliver_heap]
    simp only [h2]
    exact setSession_ctrls s.heap i _ x hx rfl
  · rw [onFrames_eq, deliver_heap]
    simp only [h2]
    rfl
  · rw [onFrames_eq, hd, deliver_eq]
    simp [List.flatMap_map, observed, Function.comp_def]

@[simp] theorem setScannerControls_sessions (h : Heap) (r : Nat) (v : Option Nat) :
    (h.setScannerControls r v).sessions = h.sessions := rfl

theorem setScannerControls_get (h : Heap) (r : Nat) (v : Option Nat) (k : Nat)
    (hr : h.scannerControls r = some k) : (h.setScannerControls r v).scannerControls r = v := by
  have hlt : r < h.readers.length := by
    rcases Nat.lt_or_ge r h.readers.length with hlt | hge
    · exact hlt
    · simp [Heap.scannerControls, List.getElem?_eq_none hge] at hr
  simp [Heap.scannerControls, Heap.setScannerControls, List.getElem?_set, hlt]

theorem scannerControlsStop_eq (h : Heap) (k : Nat) (sk : Session)
    (hk : h.sessions[k]? = some sk) :
    scannerControlsStop h k =
      (h.setSession k
        { sk with ctrls := sk.ctrls.map fun c => { c with stopCalls := c.stopCalls + 1 },
                  scan := sk.scan.complete.1 },
       sk.scan.complete.2) := by
  simp [scannerControlsStop, hk]

theorem decodeCallback_fatal (h : Heap) (i : Nat) (x : Session) (c : ScannerControls)
    (result : Option Result) (e : JsError) (hx : h.sessions[i]? = some x)
    (hcur : h.scannerControls x.reader = some i) (hc : x.ctrls = some c)
    (hl : x.scan.isStopped = false) (hf : isSoftFailure e = some false) :
    decodeCallback h i result (some e) =
      { heap := (h.setSession i (terminated e c x)).setScannerControls x.reader none,
        delivered := x.scan.observers.map fun o => (o, Notification.error e),
        thrown := none } := by
  have hs := scannerControlsStop_eq (h.setSession i { x with scan := (x.scan.error e).1 }) i
    { x with scan := (x.scan.error e).1 } (setSession_sessions h i _ x hx)
  simp only [decodeCallback, hx, hf, setSession_scannerControls, hcur, hs]
  simp [BehaviorSubject.error, hl, BehaviorSubject.complete, setSession_setSession, terminated,
    hc]

theorem decodeCallback_dead (h : Heap) (i : Nat) (y : Session) (result : Option Result)
    (error : Option JsError) (hy : h.sessions[i]? = some y) (hs : y.scan.isStopped = true)
    (hn : h.scannerControls y.reader = none) :
    (decodeCallback h i result error).delivered = [] ∧
    ∃ v, (decodeCallback h i result error).heap = h.setSession i (withValue v y) := by
  cases error with
  | none =>
    refine ⟨by simp [decodeCallback, hy, BehaviorSubject.next, hs], ⟨result, none⟩, ?_⟩
    simp [decodeCallback, hy, BehaviorSubject.next, hs, withValue]
  | some e =>
    match hsoft : isSoftFailure e with
    | none =>
      refine ⟨by simp [decodeCallback, hy, hsoft], y.scan.value, ?_⟩
      simp only [decodeCallback, hy, hsoft]
      rw [withValue_self, setSession_same h i y hy]
    | some true =>
      refine ⟨by simp [decodeCallback, hy, BehaviorSubject.next, hs, hsoft], ⟨none, some e⟩, ?_⟩
      simp [decodeCallback, hy, BehaviorSubject.next, hs, withValue, hsoft]
    | some false =>
      refine ⟨?_, y.scan.value, ?_⟩
      · simp [decodeCallback, hy, hsoft, BehaviorSubject.error, hs, hn]
      · simp only [decodeCallback, hy, hsoft, BehaviorSubject.error, hs, if_true,
          Bool.false_eq_true, if_false, setSession_scannerControls, hn]
        rfl

theorem runCallbacks_dead (i : Nat) (cbs : List (Option Result × Option JsError)) :
    ∀ (h : Heap) (y : Session), h.sessions[i]? = some y → y.scan.isStopped = true →
      h.scannerControls y.reader = none →
      (runCallbacks i cbs h).2 = [] ∧
      ∃ v, (runCallbacks i cbs h).1 = h.setSession i (withValue v y) := by
  induction cbs with
  | nil =>
    intro h y hy _ _
    exact ⟨rfl, y.scan.value, by rw [withValue_self, setSession_same h i y hy]; rfl⟩
  | cons cb t ih =>
    intro h y hy hs hn
    obtain ⟨d1, v1, e1⟩ := decodeCallback_dead h i y cb.1 cb.2 hy hs hn
    obtain ⟨d2, v2, e2⟩ := ih (h.setSession i (withValue v1 y)) (withValue v1 y)
      (setSession_sessions h i _ y hy) hs hn
    simp only [runCallbacks, d1, e1, List.nil_append]
    exact ⟨d2, v2, by rw [e2, setSession_setSession]; rfl⟩

/-- The fatal branch of the callback where it is reached and finds its own controls. On a live
session whose wrapped controls the reader stores, a callback invocation with an error for which
the condition of the `if` evaluates to false terminates the stream with that error (every
subscriber receives exactly the error), invokes `stop()` on the decoder controls of the session
once and releases the stored controls of the reader, without throwing; every later run of
callback invocations of that session, whatever they carry, delivers nothing, leaves the stream
terminated with the same error, calls `stop()` on no controls and leaves the reader without
controls. -/
theorem fatal_error_terminates_once (h : Heap) (i : Nat) (x : Session) (c : ScannerControls)
    (result : Option Result) (e : JsError) (later : List (Option Result × Option JsError))
    (hx : h.sessions[i]? = some x) (hcur : h.scannerControls x.reader = some i)
    (hc : x.ctrls = some c) (hlive : x.scan.isStopped = false)
    (hfatal : isSoftFailure e = some false) :
    (decodeCallback h i result (some e)).delivered =
        x.scan.observers.map (fun o => (o, Notification.error e)) ∧
    (decodeCallback h i result (some e)).thrown = none ∧
    (decodeCallback h i result (some e)).heap.sessions[i]? = some (terminated e c x) ∧
    (∀ j, j ≠ i → (decodeCallback h i result (some e)).heap.sessions[j]? = h.sessions[j]?) ∧
    getScannerControls (decodeCallback h i result (some e)).heap x.reader =
        Except.error noScanningError ∧
    (runCallbacks i later (decodeCallback h i result (some e)).heap).2 = [] ∧
    (∃ v, (runCallbacks i later (decodeCallback h i result (some e)).heap).1.sessions[i]? =
        some (withValue v (terminated e c x))) ∧
    (runCallbacks i later (decodeCallback h i result (some e)).heap).1.sessions.map
        (fun y => y.ctrls) =
      (decodeCallback h i result (some e)).heap.sessions.map (fun y => y.ctrls) ∧
    (runCallbacks i later (decodeCallback h i result (some e)).heap).1.readers =
      (decodeCallback h i result (some e)).heap.readers := by
  have hd := decodeCallback_fatal h i x c result e hx hcur hc hlive hfatal
  have hi : ((h.setSession i (terminated e c x)).setScannerControls x.reader none).sessions[i]?
      = some (terminated e c x) := setSession_sessions h i _ x hx
  have hn : ((h.setSession i (terminated e c x)).setScannerControls x.reader none).scannerControls
      (terminated e c x).reader = none :=
    setScannerControls_get (h.setSession i (terminated e c x)) x.reader none i hcur
  obtain ⟨d2, v, e2⟩ := runCallbacks_dead i later _ (terminated e c x) hi rfl hn
  rw [hd]
  refine ⟨rfl, rfl, hi, ?_, ?_, d2, ⟨v, ?_⟩, ?_, ?_⟩
  · intro j hj
    exact setSession_other h i j _ hj
  · have : ((h.setSession i (terminated e c x)).setScannerControls x.reader none).scannerControls
        x.reader = none := hn
    simp [getScannerControls, this]
  · rw [e2]; exact setSession_sessions _ i _ _ hi
  · rw [e2]; exact setSession_ctrls _ i _ _ hi rfl
  · rw [e2]; rfl

theorem decodeCallback_stopped (h : Heap) (i : Nat) (y : Session) (result : Option Result)
    (error : Option JsError) (hy : h.sessions[i]? = some y) (hs : y.scan.isStopped = true)
    (hcur : h.scannerControls y.reader = none ∨ h.scannerControls y.reader = some i) :
    (decodeCallback h i result error).delivered = [] ∧
    ∃ y', (decodeCallback h i result error).heap.sessions[i]? = some y' ∧ StoppedLike y y' ∧
      ((decodeCallback h i result error).heap.scannerControls y.reader = none ∨
       (decodeCallback h i result error).heap.scannerControls y.reader = some i) := by
  rcases hcur with hn | hsome
  · obtain ⟨d, v, e⟩ := decodeCallback_dead h i y result error hy hs hn
    refine ⟨d, withValue v y, ?_, ⟨rfl, hs, rfl, rfl, rfl⟩, Or.inl ?_⟩
    · rw [e]; exact setSession_sessions h i _ y hy
    · rw [e]; exact hn
  · cases error with
    | none =>
      have e : decodeCallback h i result none =
          { heap := h.setSession i (withValue { result := result, error := none } y),
            delivered := [], thrown := none } := by
        simp [decodeCallback, hy, BehaviorSubject.next, hs, withValue]
      rw [e]
      exact ⟨rfl, _, setSession_sessions h i _ y hy, ⟨rfl, hs, rfl, rfl, rfl⟩, Or.inr hsome⟩
    | some err =>
      match hsoft : isSoftFailure err with
      | none =>
        have e : decodeCallback h i result (some err) =
            { heap := h, delivered := [], thrown := some undefinedIncludesError } := by
          simp [decodeCallback, hy, hsoft]
        rw [e]
        exact ⟨rfl, y, hy, ⟨rfl, hs, rfl, rfl, rfl⟩, Or.inr hsome⟩
      | some true =>
        have e : decodeCallback h i result (some err) =
            { heap := h.setSession i (withValue { result := none, error := some err } y),
              delivered := [], thrown := none } := by
          simp [decodeCallback, hy, BehaviorSubject.next, hs, withValue, hsoft]
        rw [e]
        exact ⟨rfl, _, setSession_sessions h i _ y hy, ⟨rfl, hs, rfl, rfl, rfl⟩, Or.inr hsome⟩
      | some false =>
        have hst := scannerControlsStop_eq (h.setSession i { y with scan := (y.scan.error err).1 })
          i { y with scan := (y.scan.error err).1 } (setSession_sessions h i _ y hy)
        have e : decodeCallback h i result (some err) =
            { heap := (h.setSession i
                { y with ctrls := y.ctrls.map fun c => { c with stopCalls := c.stopCalls + 1 } }
                ).setScannerControls y.reader none,
              delivered := [], thrown := none } := by
          simp only [decodeCallback, hy, hsoft, setSession_scannerControls, hsome, hst]
          simp [BehaviorSubject.error, hs, BehaviorSubject.complete, setSession_setSession]
        rw [e]
        refine ⟨rfl, _, setSession_sessions h i _ y hy, ⟨rfl, hs, rfl, rfl, rfl⟩, Or.inl ?_⟩
        exact setScannerControls_get (h.setSession i _) y.reader none i hsome

theorem runCallbacks_stopped (i : Nat) (cbs : List (Option Result × Option JsError)) :
    ∀ (h : Heap) (y : Session), h.sessions[i]? = some y → y.scan.isStopped = true →
      (h.scannerControls y.reader = none ∨ h.scannerControls y.reader = some i) →
      (runCallbacks i cbs h).2 = [] ∧
      ∃ y', (runCallbacks i cbs h).1.sessions[i]? = some y' ∧ StoppedLike y y' := by
  induction cbs with
  | nil =>
    intro h y hy hs _
    exact ⟨rfl, y, hy, rfl, hs, rfl, rfl, rfl⟩
  | cons cb t ih =>
    intro h y hy hs hcur
    obtain ⟨d1, y1, hy1, hl1, hc1⟩ := decodeCallback_stopped h i y cb.1 cb.2 hy hs hcur
    obtain ⟨hr, hs1, he1, ht1, ho1⟩ := hl1
    obtain ⟨d2, y2, hy2, hl2⟩ := ih _ y1 hy1 hs1 (by rw [hr]; exact hc1)
    obtain ⟨hr2, hs2, he2, ht2, ho2⟩ := hl2
    simp only [runCallbacks, d1, List.nil_append]
    exact ⟨d2, y2, hy2, hr2.trans hr, hs2, he2.trans he1, ht2.trans ht1, ho2.trans ho1⟩

theorem stopControls_eq (s : State) (i : Nat) (x : Session) (c : ScannerControls)
    (hx : s.heap.sessions[i]? = some x) (hc : x.ctrls = some c)
    (hlive : x.scan.isStopped = false) :
    stopControls i s = { s with heap := s.heap.setSession i (stopped c x) } := by
  simp [stopControls, scannerControlsStop_eq s.heap i x hx, deliver_eq, BehaviorSubject.complete,
    hlive, observed, hc, stopped]

/-- C3. On the active session of a reader, `getScannerControls` returns the controls of that
session; `stop()` on them completes the outcome stream (every subscriber receives `complete`,
the stream is stopped without error) and emits no component event; afterwards no run of decoder
callbacks of that session (success, soft failure or fatal error) delivers anything to a
subscriber or emits a component event, and the stream stays completed; a second `stop()`
delivers nothing, leaves the stream state and the emitted events as after the first call, and,
being a total function of the state, raises no exception. -/
theorem stop_completes_stream (s : State) (i : Nat) (x : Session) (c : ScannerControls)
    (later : List (Option Result × Option JsError))
    (hx : s.heap.sessions[i]? = some x) (hcur : s.heap.scannerControls x.reader = some i)
    (hc : x.ctrls = some c) (hlive : x.scan.isStopped = false) :
    getScannerControls s.heap x.reader = Except.ok i ∧
    (scannerControlsStop s.heap i).2 = x.scan.observers.map (fun o => (o, Notification.complete)) ∧
    (stopControls i s).heap.sessions[i]? = some (stopped c x) ∧
    (stopControls i s).events = s.events ∧
    (runCallbacks i later (stopControls i s).heap).2 = [] ∧
    (onFrames i later (stopControls i s)).events = (stopControls i s).events ∧
    (∃ y, (onFrames i later (stopControls i s)).heap.sessions[i]? = some y ∧
        y.scan.isStopped = true ∧ y.scan.hasError = x.scan.hasError ∧ y.scan.observers = []) ∧
    (scannerControlsStop (stopControls i s).heap i).2 = [] ∧
    (stopControls i (stopControls i s)).events = (stopControls i s).events ∧
    ((stopControls i (stopControls i s)).heap.sessions[i]?).map (fun y => y.scan) =
      ((stopControls i s).heap.sessions[i]?).map (fun y => y.scan) := by
  have h1 := stopControls_eq s i x c hx hc hlive
  have hi : (s.heap.setSession i (stopped c x)).sessions[i]? = some (stopped c x) :=
    setSession_sessions s.heap i _ x hx
  have hcur1 : (s.heap.setSession i (stopped c x)).scannerControls (stopped c x).reader = some i :=
    hcur
  obtain ⟨d, y, hy, _, hs, he, _, ho⟩ :=
    runCallbacks_stopped i later _ (stopped c x) hi rfl (Or.inr hcur1)
  have h2 := scannerControlsStop_eq (s.heap.setSession i (stopped c x)) i (stopped c x) hi
  rw [h1]
  refine ⟨by simp [getScannerControls, hcur], ?_, hi, rfl, d, ?_, ⟨y, ?_, hs, he, ho⟩, ?_, ?_, ?_⟩
  · simp [scannerControlsStop_eq s.heap i x hx, BehaviorSubject.complete, hlive]
  · rw [onFrames_eq, deliver_eq]
    simp only [d]
    simp
  · rw [onFrames_eq, deliver_heap]; exact hy
  · simp only [h2]
    simp [BehaviorSubject.complete, stopped]
  · simp only [stopControls, h2, deliver_eq]
    simp [BehaviorSubject.complete, stopped]
  · simp only [stopControls, h2, deliver_heap]
    rw [setSession_sessions _ i _ _ hi, hi]
    simp [BehaviorSubject.complete, stopped]

theorem complete_delivers_complete (b : BehaviorSubject) :
    ∀ d ∈ b.complete.2, d.2 = Notification.complete := by
  intro d hd
  unfold BehaviorSubject.complete at hd
  split at hd
  · simp at hd
  · simp at hd
    obtain ⟨_, _, rfl⟩ := hd
    rfl

theorem scannerControlsStop_delivers_complete (h : Heap) (k : Nat) :
    ∀ d ∈ (scannerControlsStop h k).2, d.2 = Notification.complete := by
  intro d hd
  unfold scannerControlsStop at hd
  split at hd
  · simp at hd
  · exact complete_delivers_complete _ d hd

theorem scannerControlsStop_failed (h : Heap) (k n : Nat) (r : Nat) (dev : String) (e : JsError)
    (hn : h.sessions[n]? = some { reader := r, deviceId := dev, scan := failedStream e,
                                   ctrls := none }) :
    (scannerControlsStop h k).1.sessions[n]? =
      some { reader := r, deviceId := dev, scan := failedStream e, ctrls := none } := by
  unfold scannerControlsStop
  split
  · exact hn
  · rename_i sk hk
    by_cases hkn : n = k
    · subst hkn
      rw [hn] at hk
      cases hk
      simp [Heap.setSession, List.getElem?_set, lt_of_stored hn, BehaviorSubject.complete,
        failedStream]
    · rw [setSession_other _ _ _ _ hkn]; exact hn

theorem scanFromDeviceObservable_reject (h : Heap) (r : Nat) (dev : String) (e : JsError) :
    (scanFromDeviceObservable h r dev (OpenResponse.reject e)).stream = h.sessions.length ∧
    (scanFromDeviceObservable h r dev (OpenResponse.reject e)).heap.sessions[h.sessions.length]? =
      some { reader := r, deviceId := dev, scan := failedStream e, ctrls := none } ∧
    ∀ d ∈ (scanFromDeviceObservable h r dev (OpenResponse.reject e)).delivered,
      d.2 = Notification.complete := by
  have hnew : ({ h with sessions := h.sessions ++
      [{ reader := r, deviceId := dev, scan := failedStream e, ctrls := none }] } :
      Heap).sessions[h.sessions.length]? =
      some { reader := r, deviceId := dev, scan := failedStream e, ctrls := none } :=
    List.getElem?_concat_length _ _
  have hfail : (BehaviorSubject.create { result := none, error := none }).error e =
      (failedStream e, []) := rfl
  simp only [scanFromDeviceObservable, hfail]
  split
  · exact ⟨rfl, hnew, by simp⟩
  · refine ⟨rfl, scannerControlsStop_failed _ _ _ r dev e hnew, ?_⟩
    intro d hd
    simp only [List.nil_append] at hd
    exact scannerControlsStop_delivers_complete _ _ d hd

theorem observed_complete (ds : List Delivery) (h : ∀ d ∈ ds, d.2 = Notification.complete) :
    (ds.flatMap fun d => observed d.2) = [] := by
  induction ds with
  | nil => rfl
  | cons d t ih =>
    have hd : d.2 = Notification.complete := h d (List.mem_cons_self _ _)
    have ht := ih fun x hx => h x (List.mem_cons_of_mem _ hx)
    rw [List.flatMap_cons, hd, ht]
    rfl

@[simp] theorem getCodeReader_events (s : State) : (getCodeReader s).1.events = s.events := by
  unfold getCodeReader; split <;> rfl

/-- C5. When `decodeFromVideoDevice` rejects with `e`, `scanFromDeviceObservable` still returns
a stream; that stream answers a subscription with the error `e` alone (no value before it);
`scanFromDevice` does not reject, forwards `e` to `scanError` exactly once and emits nothing
else (in particular no `torchCompatible`), and keeps the closed subscription in
`_scanSubscription`. -/
theorem open_failure_forwarded_once (s : State) (deviceId : String) (e : JsError)
    (probe : ProbeResponse) (devices : List MediaDeviceInfo) (o : Nat) :
    (∃ sess,
      (scanFromDeviceObservable (getCodeReader s).1.heap (getCodeReader s).2 deviceId
        (OpenResponse.reject e)).heap.sessions[
          (scanFromDeviceObservable (getCodeReader s).1.heap (getCodeReader s).2 deviceId
            (OpenResponse.reject e)).stream]? = some sess ∧
      sess.scan.subscribe o = (sess.scan, [(o, Notification.error e)])) ∧
    (scanFromDevice deviceId
      { decodeFromVideoDevice := OpenResponse.reject e, getUserMedia := probe,
        listVideoInputDevices := devices } s).thrown = none ∧
    (scanFromDevice deviceId
      { decodeFromVideoDevice := OpenResponse.reject e, getUserMedia := probe,
        listVideoInputDevices := devices } s).state.events = s.events ++ [Event.scanError e] ∧
    (scanFromDevice deviceId
      { decodeFromVideoDevice := OpenResponse.reject e, getUserMedia := probe,
        listVideoInputDevices := devices } s).state._scanSubscription =
      some (getCodeReader s).1.heap.sessions.length := by
  obtain ⟨h1, h2, h3⟩ :=
    scanFromDeviceObservable_reject (getCodeReader s).1.heap (getCodeReader s).2 deviceId e
  have hobs := observed_complete _ h3
  refine ⟨⟨_, by rw [h1]; exact h2, rfl⟩, ?_⟩
  simp only [scanFromDevice, deliver_heap, h1, h2, deliver_eq, hobs]
  simp [BehaviorSubject.subscribe, failedStream, BehaviorSubject.closed, observed]

/-- C6. For every value `x` delivered by the session stream the observer runs
`_onDecodeResult(x.result, x.error)`, which emits exactly two events: with a result, `scanSuccess`
carrying `result.getText()` and then `scanComplete` carrying the result (no `scanFailure`);
without a result, `scanFailure` carrying the error and then `scanComplete` carrying no result
(no `scanSuccess`). -/
theorem onDecodeResult_emits_two (s : State) (x : ScanValue) :
    notify (Notification.next x) s = _onDecodeResult x.result x.error s ∧
    (_onDecodeResult x.result x.error s).events =
      s.events ++
        (match x.result with
         | some r => [Event.scanSuccess r.text, Event.scanComplete (some r)]
         | none => [Event.scanFailure x.error, Event.scanComplete none]) := by
  refine ⟨rfl, ?_⟩
  cases x.result <;>
    simp [_onDecodeResult, dispatchScanComplete, dispatchScanSuccess, dispatchScanFailure, emit]

/-- C4 (evaluation at the failing input). On a reader that never scanned `getScannerControls`
throws; after a session is started it returns the controls; after `stop()` on these controls the
stream is completed, yet `getScannerControls` still returns the controls instead of throwing;
after a fatal callback error it throws. -/
theorem getScannerControls_after_stop :
    getScannerControls { readers := [{ scannerControls := none }], sessions := [] } 0 =
      Except.error noScanningError ∧
    getScannerControls
      (scanFromDeviceObservable { readers := [{ scannerControls := none }], sessions := [] } 0 "cam"
        (OpenResponse.resolve false false)).heap 0 = Except.ok 0 ∧
    (scannerControlsStop
      (scanFromDeviceObservable { readers := [{ scannerControls := none }], sessions := [] } 0 "cam"
        (OpenResponse.resolve false false)).heap 0).1.sessions.map
          (fun x => (x.scan.isStopped, x.ctrls.map fun c => c.stopCalls)) = [(true, some 1)] ∧
    getScannerControls
      (scannerControlsStop
        (scanFromDeviceObservable { readers := [{ scannerControls := none }], sessions := [] } 0
          "cam" (OpenResponse.resolve false false)).heap 0).1 0 = Except.ok 0 ∧
    getScannerControls
      (decodeCallback
        (scanFromDeviceObservable { readers := [{ scannerControls := none }], sessions := [] } 0
          "cam" (OpenResponse.resolve false false)).heap 0 none
        (some { name := "Error", message := some "" })).heap 0 = Except.error noScanningError := by
  refine ⟨rfl, rfl, rfl, rfl, ?_⟩
  rfl

/-! ## The scan subscription and the current device -/

@[simp] theorem emit_selection (e : Event) (s : State) : selection (emit e s) = selection s := rfl

@[simp] theorem deliver_selection (ds : List Delivery) (s : State) :
    selection (deliver ds s) = selection s := by
  rw [deliver_eq]; rfl

@[simp] theorem stopControls_selection (k : Nat) (s : State) :
    selection (stopControls k s) = selection s := by
  simp [stopControls, deliver_eq, selection]

@[simp] theorem unsubscribe_selection (k : Nat) (s : State) :
    selection (unsubscribe k s) = selection s := by
  unfold unsubscribe; split <;> rfl

@[simp] theorem getCodeReader_selection (s : State) :
    selection (getCodeReader s).1 = selection s := by
  unfold getCodeReader; split <;> rfl

@[simp] theorem onFrame_selection (i : Nat) (r : Option Result) (e : Option JsError) (s : State) :
    selection (onFrame i r e s) = selection s := by
  simp [onFrame, deliver_eq, selection]

@[simp] theorem set_isAutostarting_selection (b : Bool) (s : State) :
    selection (set_isAutostarting b s) = selection s := rfl

@[simp] theorem setPermission_selection (p : Option Bool) (s : State) :
    selection (setPermission p s) = selection s := by
  unfold setPermission; simp only []; split <;> rfl

@[simp] theorem permissionResponseError_selection (e : JsError) (s : State) :
    selection (permissionResponseError e s) = selection s := by
  unfold permissionResponseError; split <;> rfl

@[simp] theorem handlePermissionException_selection (e : JsError) (s : State) :
    selection (handlePermissionException e s).1 = selection s := by
  unfold handlePermissionException
  simp only [permissionResponseError_selection, setPermission_selection]
  split_ifs <;> simp

@[simp] theorem terminateStream_selection (m : Option MediaStream) (s : State) :
    selection (terminateStream m s) = selection s := by
  unfold terminateStream; split <;> rfl

@[simp] theorem askForPermission_selection (env : Platform) (s : State) :
    selection (askForPermission env s).1 = selection s := by
  unfold askForPermission
  split_ifs
  · simp
  · simp
  · split <;> simp

@[simp] theorem updateVideoInputDevices_selection (env : Platform) (s : State) :
    selection (updateVideoInputDevices env s).1 = selection s := by
  unfold updateVideoInputDevices
  simp only []
  split_ifs <;> simp

@[simp] theorem releaseAllStreams_selection (s : State) :
    selection (releaseAllStreams s) = selection s := rfl

theorem inv_of_selection {s t : State} (h : selection t = selection s)
    (hs : SubscriptionHasDevice s) : SubscriptionHasDevice t := by
  unfold SubscriptionHasDevice; rw [h]; exact hs

theorem scanFromDevice_device (d : String) (env : Platform) (s : State) :
    (selection (scanFromDevice d env s).state).2 = (selection s).2 := by
  have hg : (getCodeReader s).1._device = s._device := congrArg Prod.snd (getCodeReader_selection s)
  unfold scanFromDevice
  simp only [deliver_eq]
  split
  · exact hg
  · split
    · exact hg
    · split <;> exact hg

theorem scanFromDevice_inv (d : String) (env : Platform) (s : State)
    (h : (selection s).2.isSome = true) : SubscriptionHasDevice (scanFromDevice d env s).state := by
  intro _
  rw [scanFromDevice_device]; exact h

theorem scanStop_selection (s : State) :
    ((scanStop s).thrown = none ∧ selection (scanStop s).state = (none, s._device)) ∨
    ((scanStop s).thrown ≠ none ∧ (scanStop s).state = s) := by
  cases hsub : s._scanSubscription with
  | none =>
    left
    simp [scanStop, hsub, selection, emit]
  | some sub =>
    cases hcr : s._codeReader with
    | none =>
      left
      have h := unsubscribe_selection sub s
      simp only [selection, Prod.mk.injEq] at h
      simp [scanStop, hsub, hcr, selection, emit, h.2]
    | some cr =>
      cases hg : getScannerControls s.heap cr with
      | error e =>
        right
        simp [scanStop, hsub, hcr, hg]
      | ok k =>
        left
        have h := unsubscribe_selection sub (stopControls k s)
        have h2 := stopControls_selection k s
        simp only [selection, Prod.mk.injEq] at h h2
        simp [scanStop, hsub, hcr, hg, selection, emit, h.2, h2.2]

theorem setDevice_inv (device : Option MediaDeviceInfo) (env : Platform) (s : State)
    (hs : SubscriptionHasDevice s) : SubscriptionHasDevice (setDevice device env s).state := by
  rcases scanStop_selection s with ⟨ht, hsel⟩ | ⟨ht, hst⟩
  · simp only [selection, Prod.mk.injEq] at hsel
    cases device with
    | none =>
      simp only [setDevice, ht]
      intro h
      simp [selection, hsel.1] at h
    | some d =>
      simp only [setDevice, ht]
      split_ifs
      · exact scanFromDevice_inv _ _ _ (by simp [selection])
      · simp at *
      · exact scanFromDevice_inv _ _ _ (by simp [selection])
      · intro h
        simp [selection, hsel.1] at h
  · cases hthrown : (scanStop s).thrown with
    | none => exact absurd hthrown ht
    | some e =>
      simp only [setDevice, hthrown, hst]
      exact hs

theorem set_device_inv (device : Option MediaDeviceInfo) (env : Platform) (s : State)
    (hs : SubscriptionHasDevice s) : SubscriptionHasDevice (set_device device env s) := by
  unfold set_device
  split_ifs
  · exact inv_of_selection rfl hs
  · exact hs
  · exact hs
  · exact hs
  · exact setDevice_inv device env s hs

theorem autostartScanner_inv (devices : List MediaDeviceInfo) (env : Platform) (s : State)
    (hs : SubscriptionHasDevice s) :
    SubscriptionHasDevice (autostartScanner devices env s).state := by
  unfold autostartScanner
  split
  · exact hs
  · have := setDevice_inv (some ‹MediaDeviceInfo›) env s hs
    simp only []
    split
    · exact this
    · exact inv_of_selection (emit_selection _ _) this

theorem initAutostartOff_inv (env : Platform) (s : State) (hs : SubscriptionHasDevice s) :
    SubscriptionHasDevice (initAutostartOff env s) := by
  have h1 : SubscriptionHasDevice (updateVideoInputDevices env (set_isAutostarting false s)).1 :=
    inv_of_selection (by simp) hs
  unfold initAutostartOff
  simp only []
  split_ifs
  · exact setDevice_inv _ env _ h1
  · exact h1

theorem initAutostartOn_inv (env : Platform) (s : State) (hs : SubscriptionHasDevice s) :
    SubscriptionHasDevice (initAutostartOn env s).state := by
  have h1 : SubscriptionHasDevice (askForPermission env (set_isAutostarting true s)).1 :=
    inv_of_selection (by simp) hs
  have h2 : SubscriptionHasDevice
      (updateVideoInputDevices env (askForPermission env (set_isAutostarting true s)).1).1 :=
    inv_of_selection (by simp) hs
  unfold initAutostartOn
  simp only []
  split_ifs
  · have h3 := autostartScanner_inv
      (updateVideoInputDevices env (askForPermission env (set_isAutostarting true s)).1).2 env _ h2
    split
    · exact h3
    · exact inv_of_selection (by simp) h3
  · exact inv_of_selection (by simp) h1

theorem init_inv (env : Platform) (s : State) (hs : SubscriptionHasDevice s) :
    SubscriptionHasDevice (init env s).state := by
  unfold init
  split_ifs
  · exact inv_of_selection rfl (initAutostartOff_inv env s hs)
  · simp only []
    split
    · exact initAutostartOn_inv env s hs
    · exact inv_of_selection rfl (initAutostartOn_inv env s hs)

theorem reset_inv (env : Platform) (s : State) (hs : SubscriptionHasDevice s) :
    SubscriptionHasDevice (reset env s) := by
  unfold reset _reset
  split
  · exact inv_of_selection (emit_selection _ _) hs
  · exact inv_of_selection (emit_selection _ _)
      (set_device_inv none env _ (inv_of_selection rfl hs))

theorem set_enable_inv (enabled : Bool) (env : Platform) (s : State)
    (hs : SubscriptionHasDevice s) : SubscriptionHasDevice (set_enable enabled env s) := by
  unfold set_enable
  simp only []
  split_ifs
  · exact inv_of_selection (releaseAllStreams_selection _)
      (reset_inv env _ (inv_of_selection rfl hs))
  · split
    · rename_i d hd
      exact scanFromDevice_inv _ _ _ (by simp [selection, hd])
    · exact init_inv env _ (inv_of_selection rfl hs)

theorem scanStart_inv (env : Platform) (s : State) (hs : SubscriptionHasDevice s) :
    SubscriptionHasDevice (scanStart env s).state := by
  unfold scanStart
  split_ifs
  · exact hs
  · split
    · exact hs
    · rename_i d hd
      exact scanFromDevice_inv _ _ _ (by simp [selection, hd])

theorem scanStop_inv (s : State) (hs : SubscriptionHasDevice s) :
    SubscriptionHasDevice (scanStop s).state := by
  rcases scanStop_selection s with ⟨_, hsel⟩ | ⟨_, hst⟩
  · intro h
    rw [hsel] at h
    simp at h
  · rw [hst]; exact hs

theorem restart_eq (env : Platform) (s : State) :
    restart env s = { s with _codeReader := none } := by
  simp [restart, _reset]

theorem step_inv (a : Action) (env : Platform) (s : State) (hs : SubscriptionHasDevice s) :
    SubscriptionHasDevice (step a env s) := by
  cases a with
  | set_device d => exact set_device_inv d env s hs
  | set_enable b => exact set_enable_inv b env s hs
  | set_autostart b => exact inv_of_selection rfl hs
  | scanStart => exact scanStart_inv env s hs
  | scanStop => exact scanStop_inv s hs
  | restart =>
    show SubscriptionHasDevice (restart env s)
    rw [restart_eq]
    exact inv_of_selection rfl hs
  | init => exact init_inv env s hs
  | ngOnDestroy =>
    exact inv_of_selection (releaseAllStreams_selection _) (reset_inv env s hs)
  | onFrame i r e => exact inv_of_selection (onFrame_selection i r e s) hs

/-- C10. In every state reachable from a freshly constructed component through its operations
(the `device`, `enable` and `autostart` inputs, `scanStart`, `scanStop`, `restart`, `init`,
`ngOnDestroy`, and decoder callbacks, each await taken as atomic), a non-null scan subscription
implies a non-null current device. -/
theorem subscription_implies_device (s : State) (h : Reachable s) :
    s._scanSubscription.isSome = true → s._device.isSome = true := by
  induction h with
  | fresh nav media => intro h; cases h
  | step a env _ ih => exact step_inv a env _ ih

/-- C7 (evaluation at the failing input). The component that scans on the back camera is ready,
enabled, not autostarting and has permission; after `restart()` the code reader is null, the heap
is untouched (the one session is still active, its controls never received `stop()`, and no new
reader or session exists) and the old scan subscription is still in place. -/
theorem restart_only_drops_reader :
    scanningState._ready = true ∧ scanningState._enabled = true ∧
    scanningState._isAutostarting = false ∧ scanningState.hasPermission = some true ∧
    scanningState._device = some { deviceId := "b", label := "Back Camera" } ∧
    scanningState._scanSubscription = some 0 ∧
    scanningState.heap.sessions = [scanningSession] ∧
    codeReader scanningState = some 0 ∧
    codeReader (restart examplePlatform scanningState) = none ∧
    (restart examplePlatform scanningState).heap = scanningState.heap ∧
    (restart examplePlatform scanningState)._scanSubscription = some 0 ∧
    (restart examplePlatform scanningState).events = scanningState.events ∧
    activeSessions (restart examplePlatform scanningState) = 1 := by
  decide

/-- C8. For every state in which the component has an active session on device `D`, the current
device read after `restart()` is `D`. -/
theorem restart_preserves_device (env : Platform) (s : State) (D : MediaDeviceInfo)
    (h : HasActiveSessionOn s D) : get_device (restart env s) = some D := by
  rw [restart_eq]
  exact h.1

theorem restart_preserves_device_witness :
    get_device (restart examplePlatform scanningState) =
      some { deviceId := "b", label := "Back Camera" } :=
  restart_preserves_device examplePlatform scanningState { deviceId := "b", label := "Back Camera" }
    ⟨rfl, 0, scanningSession, rfl, rfl, rfl, rfl⟩

/-- C9 (evaluation at the failing input). After `init` the component runs one session; assigning
`enable = true` then starts a second session on the same reader without stopping the first:
two sessions are active, the first one still has its observer and never received `stop()`. -/
theorem enable_twice_two_sessions :
    activeSessions (run [(Action.init, examplePlatform)] (fresh true true)) = 1 ∧
    activeSessions (run [(Action.init, examplePlatform), (Action.set_enable true, examplePlatform)]
      (fresh true true)) = 2 ∧
    (run [(Action.init, examplePlatform), (Action.set_enable true, examplePlatform)]
      (fresh true true)).heap.sessions[0]? = some scanningSession ∧
    (run [(Action.init, examplePlatform), (Action.set_enable true, examplePlatform)]
      (fresh true true))._scanSubscription = some 1 := by
  decide

theorem subscription_implies_device_witness :
    (step Action.init examplePlatform (fresh true true))._device.isSome = true :=
  subscription_implies_device _ (Reachable.step _ _ (Reachable.fresh true true)) (by rfl)

theorem soft_failures_keep_stream_alive_witness :
    (onFrames 0 [(none, some notFound), (none, some badChecksum)] scanningState).events =
      scanningState.events ++
        [Event.scanFailure (some notFound), Event.scanComplete none,
         Event.scanFailure (some badChecksum), Event.scanComplete none] :=
  (soft_failures_keep_stream_alive scanningState 0 0 scanningSession
    [(none, notFound), (none, badChecksum)] (by rfl) (by rfl) (by rfl)
    (by decide)).2.2.2.2.2

/-- C2 (evaluation at the failing inputs). (a) The scanning component runs one session, whose
controls the reader stores. A decoder callback carrying an error with none of the three names
and without a message is outside the soft-failure set, yet it neither terminates the stream
nor stops the controls: `error.message.includes(..)` raises a `TypeError` inside the callback
before `scan$.error` and `stop()` are reached, nothing is delivered and the component is left
exactly as it was. (b) With two sessions running on the one reader, a fatal error (with a
message) on the first session terminates the stream of that session, but `stop()` is invoked
on the controls that the reader stores, those of the second session: the controls of the first
session never receive `stop()`, and the second session is stopped and its stream completed. -/
theorem fatal_callback_fails_to_terminate :
    isSoftFailure illegalState = none ∧
    decodeCallback scanningState.heap 0 none (some illegalState) =
      { heap := scanningState.heap, delivered := [],
        thrown := some undefinedIncludesError } ∧
    scanningState.heap.sessions = [scanningSession] ∧
    scanningState.heap.scannerControls 0 = some 0 ∧
    onFrame 0 none (some illegalState) scanningState = scanningState ∧
    isSoftFailure trackEnded = some false ∧
    twoSessionState.heap.sessions.map Session.isActive = [true, true] ∧
    (decodeCallback twoSessionState.heap 0 none (some trackEnded)).thrown = none ∧
    (decodeCallback twoSessionState.heap 0 none (some trackEnded)).heap.sessions.map
        (fun y => (y.scan.isStopped, y.scan.thrownError, y.ctrls.map fun c => c.stopCalls)) =
      [(true, some trackEnded, some 0), (true, none, some 1)] := by
  decide

theorem fatal_error_terminates_once_witness :
    (decodeCallback scanningState.heap 0 none (some trackEnded)).delivered =
      [(0, Notification.error trackEnded)] ∧
    (runCallbacks 0 [(none, some notFound), (none, some trackEnded)]
      (decodeCallback scanningState.heap 0 none (some trackEnded)).heap).2 = [] :=
  ⟨(fatal_error_terminates_once scanningState.heap 0 scanningSession
      { stopCalls := 0, switchTorch := true, streamVideoConstraintsApply := false } none trackEnded
      [] (by rfl) (by rfl) (by rfl) (by rfl) (by rfl)).1,
   (fatal_error_terminates_once scanningState.heap 0 scanningSession
      { stopCalls := 0, switchTorch := true, streamVideoConstraintsApply := false } none trackEnded
      [(none, some notFound), (none, some trackEnded)]
      (by rfl) (by rfl) (by rfl) (by rfl) (by rfl)).2.2.2.2.2.1⟩

theorem stop_completes_stream_witness :
    (runCallbacks 0 [(none, some trackEnded)] (stopControls 0 scanningState).heap).2 = [] ∧
    (stopControls 0 (stopControls 0 scanningState)).events = (stopControls 0 scanningState).events :=
  ⟨(stop_completes_stream scanningState 0 scanningSession
      { stopCalls := 0, switchTorch := true, streamVideoConstraintsApply := false }
      [(none, some trackEnded)] (by rfl) (by rfl) (by rfl) (by rfl)).2.2.2.2.1,
   (stop_completes_stream scanningState 0 scanningSession
      { stopCalls := 0, switchTorch := true, streamVideoConstraintsApply := false }
      [] (by rfl) (by rfl) (by rfl) (by rfl)).2.2.2.2.2.2.2.2.1⟩

/-! ## Device input, permission and initialisation -/

/-- C14. Assigning the device input runs `setDevice` exactly when the component is ready, not
autostarting, the device id differs from the current one and permission is granted; in every
other case the state is unchanged when the component is ready, and only `_devicePreStart` is
stored when it is not: the current device, the scan subscription, the code reader, the heap of
readers and sessions and the emitted events stay as they were. -/
theorem device_input_reaches_setDevice (device : Option MediaDeviceInfo) (env : Platform)
    (s : State) :
    set_device device env s =
      (if reachesSetDevice device s then (setDevice device env s).state
       else if s._ready then s else { s with _devicePreStart := device }) ∧
    (reachesSetDevice device s = false →
      (set_device device env s)._device = s._device ∧
      (set_device device env s)._scanSubscription = s._scanSubscription ∧
      (set_device device env s)._codeReader = s._codeReader ∧
      (set_device device env s).heap = s.heap ∧
      (set_device device env s).events = s.events) := by
  constructor
  · unfold set_device reachesSetDevice
    cases s._ready <;> cases s._isAutostarting <;> cases isCurrentDevice device s <;>
      cases hp : (s.hasPermission == some true) <;> simp_all
  · intro h
    unfold set_device
    unfold reachesSetDevice at h
    cases hr : s._ready <;> cases ha : s._isAutostarting <;>
      cases hc : isCurrentDevice device s <;>
      cases hp : (s.hasPermission == some true) <;> simp_all

theorem device_input_reaches_setDevice_witness :
    (set_device (some { deviceId := "f", label := "Front Camera" }) examplePlatform
      { scanningState with _isAutostarting := true })._device =
      some { deviceId := "b", label := "Back Camera" } :=
  ((device_input_reaches_setDevice (some { deviceId := "f", label := "Front Camera" })
    examplePlatform { scanningState with _isAutostarting := true }).2 (by decide)).1

/-- C15. For a platform error named NotAllowedError, `handlePermissionException` returns and
stores permission false and emits hasDevices(true); for one named NotFoundError it returns and
stores permission null and emits hasDevices(false) followed by camerasNotFound(err); in both
cases the returned value is the stored `hasPermission`, and the only further events are those
of `permissionResponse`. -/
theorem permission_exception_mapping (message : Option String) (s : State) :
    (handlePermissionException { name := "NotAllowedError", message := message } s).2 =
      some false ∧
    (handlePermissionException { name := "NotAllowedError", message := message } s).1.hasPermission
      = (handlePermissionException { name := "NotAllowedError", message := message } s).2 ∧
    (handlePermissionException { name := "NotAllowedError", message := message } s).1.events =
      s.events ++ [Event.hasDevices (some true)] ++
        permissionEvents s.permissionResponseStopped (some false)
          { name := "NotAllowedError", message := message } ∧
    (handlePermissionException { name := "NotFoundError", message := message } s).2 = none ∧
    (handlePermissionException { name := "NotFoundError", message := message } s).1.hasPermission
      = (handlePermissionException { name := "NotFoundError", message := message } s).2 ∧
    (handlePermissionException { name := "NotFoundError", message := message } s).1.events =
      s.events ++ [Event.hasDevices (some false),
                   Event.camerasNotFound (some { name := "NotFoundError", message := message })] ++
        permissionEvents s.permissionResponseStopped none
          { name := "NotFoundError", message := message } := by
  cases hst : s.permissionResponseStopped <;>
    simp [handlePermissionException, setPermission, permissionResponseError, emit,
      permissionEvents, hst]

/-- C16 (evaluation at the failing input). For a platform error named NotReadableError,
`handlePermissionException` returns and stores permission null and emits hasDevices(false)
followed by camerasNotFound(err): the devices-present hint says that no device exists. -/
theorem not_readable_reports_no_devices (message : Option String) (s : State) :
    (handlePermissionException { name := "NotReadableError", message := message } s).2 = none ∧
    (handlePermissionException { name := "NotReadableError", message := message }
      s).1.hasPermission = none ∧
    (handlePermissionException { name := "NotReadableError", message := message } s).1.events =
      s.events ++ [Event.hasDevices (some false),
                   Event.camerasNotFound
                     (some { name := "NotReadableError", message := message })] ++
        permissionEvents s.permissionResponseStopped none
          { name := "NotReadableError", message := message } := by
  cases hst : s.permissionResponseStopped <;>
    simp [handlePermissionException, setPermission, permissionResponseError, emit,
      permissionEvents, hst]

/-- C18 (evaluation at the failing input). With autostart off and the front camera assigned to
the device input before the component is ready, `init` probes no permission, enumerates the
devices and marks the component ready, but the assigned device is not applied: the current
device stays empty, no session is started, and the device is still only in `_devicePreStart`. -/
theorem prestart_device_not_applied :
    (preStartState { deviceId := "f", label := "Front Camera" })._devicePreStart =
      some { deviceId := "f", label := "Front Camera" } ∧
    (init examplePlatform (preStartState { deviceId := "f", label := "Front Camera" })).thrown =
      none ∧
    (init examplePlatform (preStartState { deviceId := "f", label := "Front Camera" })).state.events
      = [Event.autostarting false, Event.hasDevices (some true),
         Event.camerasFound examplePlatform.listVideoInputDevices] ∧
    (init examplePlatform
      (preStartState { deviceId := "f", label := "Front Camera" })).state.hasPermission = none ∧
    (init examplePlatform
      (preStartState { deviceId := "f", label := "Front Camera" })).state.tracksStopped = 0 ∧
    (init examplePlatform
      (preStartState { deviceId := "f", label := "Front Camera" })).state._ready = true ∧
    (init examplePlatform
      (preStartState { deviceId := "f", label := "Front Camera" })).state._device = none ∧
    (init examplePlatform
      (preStartState { deviceId := "f", label := "Front Camera" })).state._devicePreStart =
      some { deviceId := "f", label := "Front Camera" } ∧
    (init examplePlatform
      (preStartState { deviceId := "f", label := "Front Camera" })).state.heap = Heap.empty := by
  decide

/-- C20 (evaluation at the failing input). A first probe is denied: `handlePermissionException`
emits permissionResponse(false) and then calls `permissionResponse.error(err)`, which terminates
the emitter. A later probe that obtains a media stream stops its track, stores permission true
and returns true, and `setPermission` calls `permissionResponse.next(true)`, but nothing is
emitted: the events are those of the denied probe. On a fresh component the same probe emits
permissionResponse(true). -/
theorem granted_after_denied_not_emitted :
    deniedState.hasNavigator = true ∧ deniedState.isMediaDevicesSupported = true ∧
    deniedState.events =
      [Event.hasDevices (some true), Event.permissionResponse (some false),
       Event.permissionResponseError { name := "NotAllowedError", message := some "" }] ∧
    deniedState.permissionResponseStopped = true ∧
    examplePlatform.getUserMedia = ProbeResponse.resolve (some { tracks := 1 }) ∧
    (askForPermission examplePlatform deniedState).2 = some true ∧
    (askForPermission examplePlatform deniedState).1.hasPermission = some true ∧
    (askForPermission examplePlatform deniedState).1.tracksStopped = 1 ∧
    (askForPermission examplePlatform deniedState).1.events = deniedState.events ∧
    Event.permissionResponse (some true) ∉
      (askForPermission examplePlatform deniedState).1.events ∧
    (askForPermission examplePlatform (fresh true true)).1.events =
      [Event.permissionResponse (some true)] := by
  decide

/-- The probe that obtains a media stream, in every state (see C20): `askForPermission` stops
every track of that stream, stores permission true and returns true; permissionResponse(true)
is emitted exactly when the `permissionResponse` emitter has not been terminated by an earlier
failed probe; nothing else in the state changes, so no reference to the stream is kept. -/
theorem probe_stream_released (env : Platform) (s : State) (m : MediaStream)
    (hnav : s.hasNavigator = true) (hmedia : s.isMediaDevicesSupported = true)
    (hprobe : env.getUserMedia = ProbeResponse.resolve (some m)) :
    askForPermission env s =
      ({ s with tracksStopped := s.tracksStopped + m.tracks, hasPermission := some true,
                events := s.events ++
                  if s.permissionResponseStopped then []
                  else [Event.permissionResponse (some true)] },
       some true) := by
  cases hst : s.permissionResponseStopped <;>
    simp [askForPermission, hnav, hmedia, hprobe, terminateStream, setPermission, emit, hst]

theorem probe_stream_released_witness :
    (askForPermission examplePlatform (fresh true true)).1.tracksStopped = 1 ∧
    (askForPermission examplePlatform (fresh true true)).1.events =
      [Event.permissionResponse (some true)] :=
  ⟨by rw [probe_stream_released examplePlatform (fresh true true) { tracks := 1 } rfl rfl rfl]
      rfl,
   by rw [probe_stream_released examplePlatform (fresh true true) { tracks := 1 } rfl rfl rfl]
      rfl⟩

/-- C11 (counterexample). The scanning component is ready, enabled, not autostarting, has
permission and an active session; after `enable = false` its session never received `stop()`
on its controls and its stream is not completed. -/
theorem disable_does_not_stop_controls :
    scanningState._ready = true ∧ scanningState._isAutostarting = false ∧
    scanningState.hasPermission = some true ∧ scanningState._scanSubscription = some 0 ∧
    scanningState.heap.sessions = [scanningSession] ∧ scanningSession.isActive = true ∧
    (set_enable false examplePlatform scanningState)._enabled = false ∧
    (set_enable false examplePlatform scanningState).heap.sessions.map
      (fun x => (x.scan.isStopped, x.ctrls.map fun c => c.stopCalls)) = [(false, some 0)] := by
  decide

/-- C11 (amended). For every state in which the component is ready, not autostarting, has
permission, has a code reader and a scan subscription on a session with device `D` selected,
assigning `enable = false` sets enabled to false, discards the code reader, unsubscribes from
the stream of the session without invoking `stop()` on its controls and without completing the
stream, leaves no scan subscription and no current device, cleans the preview, emits
torchCompatible(false) and deviceChange(null), and invokes release-all-streams exactly once. -/
theorem disable_unsubscribes_and_releases (env : Platform) (s : State) (r i : Nat)
    (D : MediaDeviceInfo) (x : Session)
    (hready : s._ready = true) (hauto : s._isAutostarting = false)
    (hperm : s.hasPermission = some true) (hreader : s._codeReader = some r)
    (hdev : s._device = some D) (hsub : s._scanSubscription = some i)
    (hx : s.heap.sessions[i]? = some x) :
    set_enable false env s =
      { s with _enabled := false, _codeReader := none, _device := none,
               _scanSubscription := none,
               heap := s.heap.setSession i { x with scan := x.scan.unsubscribe i },
               events := s.events ++ [Event.torchCompatible false, Event.deviceChange none],
               cleanVideoSourceCalls := s.cleanVideoSourceCalls + 1,
               releaseAllStreamsCalls := s.releaseAllStreamsCalls + 1 } := by
  simp [set_enable, reset, _reset, hreader, set_device, hready, hauto, isCurrentDevice, hdev,
    hperm, setDevice, scanStop, hsub, unsubscribe, hx, emit, releaseAllStreams]

theorem disable_unsubscribes_and_releases_witness :
    (set_enable false examplePlatform scanningState)._scanSubscription = none ∧
    (set_enable false examplePlatform scanningState)._device = none ∧
    (set_enable false examplePlatform scanningState).releaseAllStreamsCalls = 1 :=
  ⟨by rw [disable_unsubscribes_and_releases examplePlatform scanningState 0 0
        { deviceId := "b", label := "Back Camera" } scanningSession rfl rfl rfl rfl rfl rfl rfl],
   by rw [disable_unsubscribes_and_releases examplePlatform scanningState 0 0
        { deviceId := "b", label := "Back Camera" } scanningSession rfl rfl rfl rfl rfl rfl rfl],
   by rw [disable_unsubscribes_and_releases examplePlatform scanningState 0 0
        { deviceId := "b", label := "Back Camera" } scanningSession rfl rfl rfl rfl rfl rfl rfl]
      rfl⟩

/-! ## Starting and stopping sessions -/

theorem scannerControlsStop_old (h : Heap) (k j : Nat) (y : Session)
    (hy : h.sessions[j]? = some y) :
    (scannerControlsStop h k).1.sessions[j]? = some y ∨
    (scannerControlsStop h k).1.sessions[j]? = some (stopApplied y) := by
  unfold scannerControlsStop
  split
  · exact Or.inl hy
  · rename_i sk hk
    by_cases hjk : j = k
    · subst hjk
      rw [hy] at hk
      cases hk
      exact Or.inr (setSession_sessions h j _ y hy)
    · left
      rw [setSession_other _ _ _ _ hjk]; exact hy

theorem scannerControlsStop_length (h : Heap) (k : Nat) :
    (scannerControlsStop h k).1.sessions.length = h.sessions.length := by
  unfold scannerControlsStop
  split
  · rfl
  · simp [Heap.setSession]

theorem scanFromDeviceObservable_sessions (h : Heap) (r : Nat) (d : String)
    (resp : OpenResponse) :
    (scanFromDeviceObservable h r d resp).stream = h.sessions.length ∧
    (scanFromDeviceObservable h r d resp).heap.sessions.length = h.sessions.length + 1 ∧
    (∃ y, (scanFromDeviceObservable h r d resp).heap.sessions[h.sessions.length]? = some y ∧
      y.deviceId = d) ∧
    ∀ (j : Nat) (y : Session), h.sessions[j]? = some y →
      (scanFromDeviceObservable h r d resp).heap.sessions[j]? = some y ∨
      (scanFromDeviceObservable h r d resp).heap.sessions[j]? = some (stopApplied y) := by
  cases resp with
  | resolve torch constraints =>
    refine ⟨rfl, by simp [scanFromDeviceObservable], ⟨_, List.getElem?_concat_length _ _, rfl⟩,
      ?_⟩
    intro j y hy
    left
    simp only [scanFromDeviceObservable, setScannerControls_sessions]
    rw [List.getElem?_append_left (lt_of_stored hy)]
    exact hy
  | reject e =>
    obtain ⟨h1, h2, _⟩ := scanFromDeviceObservable_reject h r d e
    refine ⟨h1, ?_, ⟨_, h2, rfl⟩, ?_⟩
    · simp only [scanFromDeviceObservable]
      split
      · simp
      · simp [scannerControlsStop_length]
    · intro j y hy
      have hj : ∀ z : Session, (h.sessions ++ [z])[j]? = some y := fun z => by
        rw [List.getElem?_append_left (lt_of_stored hy)]; exact hy
      simp only [scanFromDeviceObservable]
      split
      · exact Or.inl (hj _)
      · exact scannerControlsStop_old _ _ j y (hj _)

@[simp] theorem getCodeReader_sessions (s : State) :
    (getCodeReader s).1.heap.sessions = s.heap.sessions := by
  unfold getCodeReader; split <;> rfl

theorem scanFromDevice_heap (d : String) (env : Platform) (s : State) :
    (scanFromDevice d env s).state.heap =
      match (opened d env s).heap.sessions[(opened d env s).stream]? with
      | none => (opened d env s).heap
      | some sess =>
        (opened d env s).heap.setSession (opened d env s).stream
          { sess with scan := (sess.scan.subscribe (opened d env s).stream).1 } := by
  unfold scanFromDevice opened
  simp only [deliver_eq]
  split
  · rfl
  · split
    · rfl
    · split <;> rfl

theorem scanFromDevice_sessions (d : String) (env : Platform) (s : State) :
    (scanFromDevice d env s).state.heap.sessions.length = s.heap.sessions.length + 1 ∧
    (∃ y, (scanFromDevice d env s).state.heap.sessions[s.heap.sessions.length]? = some y ∧
      y.deviceId = d) ∧
    ∀ (j : Nat) (y : Session), s.heap.sessions[j]? = some y →
      (scanFromDevice d env s).state.heap.sessions[j]? = some y ∨
      (scanFromDevice d env s).state.heap.sessions[j]? = some (stopApplied y) := by
  have hsess := scanFromDeviceObservable_sessions
    (getCodeReader s).1.heap (getCodeReader s).2 d env.decodeFromVideoDevice
  rw [getCodeReader_sessions] at hsess
  obtain ⟨h1, h2, ⟨y0, h3, h4⟩, h5⟩ := hsess
  have h1' : (opened d env s).stream = s.heap.sessions.length := h1
  have h2' : (opened d env s).heap.sessions.length = s.heap.sessions.length + 1 := h2
  have h3' : (opened d env s).heap.sessions[s.heap.sessions.length]? = some y0 := h3
  rw [scanFromDevice_heap, h1', h3']
  refine ⟨by simp [Heap.setSession, h2'], ⟨_, setSession_sessions _ _ _ _ h3', h4⟩, ?_⟩
  intro j y hy
  have hne : j ≠ s.heap.sessions.length := Nat.ne_of_lt (lt_of_stored hy)
  simp only [setSession_other _ _ _ _ hne]
  exact h5 j y hy

theorem scanFromDevice_frame (d : String) (env : Platform) (s : State) :
    ∃ h cr sub ev, (scanFromDevice d env s).state =
      { s with heap := h, _codeReader := cr, _scanSubscription := sub, events := ev } := by
  cases hcr : s._codeReader <;>
  · simp only [scanFromDevice, getCodeReader, hcr, deliver_eq]
    split
    · exact ⟨_, _, _, _, rfl⟩
    · split
      · exact ⟨_, _, _, _, rfl⟩
      · split <;> exact ⟨_, _, _, _, rfl⟩

theorem scanStop_none (s : State) (h : s._scanSubscription = none) :
    scanStop s = { state := emit (Event.torchCompatible false) s, thrown := none } := by
  simp [scanStop, h]

theorem scanStop_active (s : State) (i r : Nat) (x : Session) (c : ScannerControls)
    (hsub : s._scanSubscription = some i) (hr : s._codeReader = some r)
    (hcur : s.heap.scannerControls r = some i) (hx : s.heap.sessions[i]? = some x)
    (hc : x.ctrls = some c) (hlive : x.scan.isStopped = false) :
    scanStop s =
      { state := { s with heap := s.heap.setSession i (stopped c x), _scanSubscription := none,
                          events := s.events ++ [Event.torchCompatible false] },
        thrown := none } := by
  have h1 := stopControls_eq s i x c hx hc hlive
  have h2 : (s.heap.setSession i (stopped c x)).sessions[i]? = some (stopped c x) :=
    setSession_sessions s.heap i _ x hx
  have h3 : ({ stopped c x with scan := (stopped c x).scan.unsubscribe i } : Session) =
      stopped c x := by
    simp [stopped, BehaviorSubject.unsubscribe]
  simp only [scanStop, hsub, hr, getScannerControls, hcur, h1, unsubscribe, h2, h3, emit,
    setSession_setSession]

theorem scanStop_of_noFailed (s : State) (h : NoFailedSession s) :
    ∃ s1, scanStop s = { state := s1, thrown := none } ∧
      s1.heap.sessions.length = s.heap.sessions.length ∧ s1._enabled = s._enabled ∧
      s1.cleanVideoSourceCalls = s.cleanVideoSourceCalls ∧ s1._scanSubscription = none ∧
      ∀ (i : Nat) (x : Session) (c : ScannerControls), s._scanSubscription = some i →
        s.heap.sessions[i]? = some x → x.ctrls = some c →
        s1.heap.sessions[i]? = some (stopped c x) := by
  cases hsub : s._scanSubscription with
  | none =>
    refine ⟨_, scanStop_none s hsub, rfl, rfl, rfl, hsub, ?_⟩
    intro i x c hi
    cases hi
  | some i =>
    obtain ⟨r, x, c, hr, hcur, hx, hc, hlive⟩ := h i hsub
    refine ⟨_, scanStop_active s i r x c hsub hr hcur hx hc hlive, ?_, rfl, rfl, rfl, ?_⟩
    · simp [Heap.setSession]
    · intro j y d hj hy hd
      cases hj
      rw [hx] at hy
      cases hy
      rw [hc] at hd
      cases hd
      exact setSession_sessions s.heap i _ x hx

theorem setDevice_of_scanStop (device : Option MediaDeviceInfo) (env : Platform) (s s1 : State)
    (h : scanStop s = { state := s1, thrown := none }) :
    setDevice device env s =
      match device with
      | some D =>
        if s1._enabled then scanFromDevice D.deviceId env { s1 with _device := some D }
        else { state := { s1 with _device := some D }, thrown := none }
      | none =>
        { state := { s1 with _device := none,
                             cleanVideoSourceCalls := s1.cleanVideoSourceCalls + 1 },
          thrown := none } := by
  cases device <;> simp [setDevice, h]

theorem stopped_stays_stopped (c : ScannerControls) (x y : Session)
    (h : y = stopped c x ∨ y = stopApplied (stopped c x)) :
    y.scan.isStopped = true ∧ y.scan.observers = [] ∧
    ∃ c', y.ctrls = some c' ∧ c.stopCalls < c'.stopCalls := by
  rcases h with rfl | rfl
  · exact ⟨rfl, rfl, _, rfl, Nat.lt_succ_self _⟩
  · refine ⟨rfl, rfl, _, rfl, ?_⟩
    show c.stopCalls < c.stopCalls + 1 + 1
    omega

/-- C12 (counterexample). A scan subscription without a decoder is no failed session: nothing
failed, the session is active and `scanStop` does not throw. In that state `setDevice` only
unsubscribes, since `this.codeReader?.getScannerControls().stop()` is skipped: the controls of
the old session receive no `stop()` and its stream is not completed. The state is reached by
`init` followed by `restart()`, where `setDevice(D)` then leaves two active sessions, and it is
the state in which `_reset` itself assigns `device = undefined`, having cleared the decoder
first. -/
theorem setDevice_without_reader_skips_stop :
    restartedState._scanSubscription = some 0 ∧ restartedState._codeReader = none ∧
    restartedState.heap.sessions = [scanningSession] ∧
    scanningSession.isActive = true ∧
    (scanStop restartedState).thrown = none ∧
    (setDevice (some { deviceId := "f", label := "Front Camera" }) examplePlatform
      restartedState).thrown = none ∧
    (setDevice (some { deviceId := "f", label := "Front Camera" }) examplePlatform
      restartedState).state._device = some { deviceId := "f", label := "Front Camera" } ∧
    (setDevice (some { deviceId := "f", label := "Front Camera" }) examplePlatform
      restartedState).state.heap.sessions.map
        (fun y => (y.deviceId, y.scan.isStopped, y.ctrls.map fun c => c.stopCalls)) =
      [("b", false, some 0), ("f", false, some 0)] ∧
    activeSessions (setDevice (some { deviceId := "f", label := "Front Camera" }) examplePlatform
      restartedState).state = 2 ∧
    (_reset examplePlatform scanningState).1 =
      (setDevice none examplePlatform { scanningState with _codeReader := none }).state ∧
    (setDevice none examplePlatform { scanningState with _codeReader := none }).state._device =
      none ∧
    (setDevice none examplePlatform
      { scanningState with _codeReader := none }).state.heap.sessions.map
        (fun y => (y.deviceId, y.scan.isStopped, y.ctrls.map fun c => c.stopCalls)) =
      [("b", false, some 0)] := by
  decide

/-- C12 (amended). In every state in which the scan subscription, if any, is on a live session
whose controls the current decoder stores, `setDevice(device)` sets the current device to
the given one (or to none); it stops the session of the scan subscription, if there is one
(its stream is completed, its observers are gone and its controls received `stop()`); with a
device and the component enabled it starts exactly one new session, on the `deviceId` of that
device; with a device and the component disabled it starts none; with no device it starts
none, leaves no scan subscription and cleans the preview once. -/
theorem setDevice_stops_then_starts (device : Option MediaDeviceInfo) (env : Platform)
    (s : State) (h : NoFailedSession s) :
    (setDevice device env s).state._device = device ∧
    (setDevice device env s).state.heap.sessions.length =
      s.heap.sessions.length + (if s._enabled = true ∧ device.isSome = true then 1 else 0) ∧
    (∀ D, device = some D → s._enabled = true →
      ∃ y, (setDevice device env s).state.heap.sessions[s.heap.sessions.length]? = some y ∧
        y.deviceId = D.deviceId) ∧
    (device = none →
      (setDevice device env s).state._scanSubscription = none ∧
      (setDevice device env s).state.cleanVideoSourceCalls = s.cleanVideoSourceCalls + 1) ∧
    (∀ (i : Nat) (x : Session) (c : ScannerControls), s._scanSubscription = some i →
      s.heap.sessions[i]? = some x → x.ctrls = some c →
      ∃ y, (setDevice device env s).state.heap.sessions[i]? = some y ∧
        y.scan.isStopped = true ∧ y.scan.observers = [] ∧
        ∃ c', y.ctrls = some c' ∧ c.stopCalls < c'.stopCalls) := by
  obtain ⟨s1, hstop, hlen, hen, hclean, hsub1, hold⟩ := scanStop_of_noFailed s h
  rw [setDevice_of_scanStop device env s s1 hstop]
  cases device with
  | none =>
    refine ⟨rfl, by simp [hlen], ?_, fun _ => ⟨hsub1, by simp [hclean]⟩, ?_⟩
    · intro D hD; cases hD
    · intro i x c hi hx hc
      exact ⟨_, hold i x c hi hx hc, stopped_stays_stopped c x _ (Or.inl rfl)⟩
  | some D =>
    cases henabled : s._enabled with
    | false =>
      have h1 : ¬ s1._enabled = true := by rw [hen, henabled]; simp
      dsimp only
      rw [if_neg h1]
      refine ⟨rfl, by simp [hlen], ?_, ?_, ?_⟩
      · intro _ _ hc; cases hc
      · intro hc; cases hc
      · intro i x c hi hx hc
        exact ⟨_, hold i x c hi hx hc, stopped_stays_stopped c x _ (Or.inl rfl)⟩
    | true =>
      have h1 : s1._enabled = true := by rw [hen, henabled]
      dsimp only
      rw [if_pos h1]
      obtain ⟨g1, ⟨y, g2, g3⟩, g4⟩ := scanFromDevice_sessions D.deviceId env
        { s1 with _device := some D }
      have hdev := scanFromDevice_device D.deviceId env { s1 with _device := some D }
      refine ⟨hdev, ?_, ?_, ?_, ?_⟩
      · rw [g1]; simp [hlen]
      · intro D' hD' _
        cases hD'
        refine ⟨y, ?_, g3⟩
        have : s.heap.sessions.length = s1.heap.sessions.length := hlen.symm
        rw [this]; exact g2
      · intro hc; cases hc
      · intro i x c hi hx hc
        rcases g4 i _ (hold i x c hi hx hc) with hy | hy
        · exact ⟨_, hy, stopped_stays_stopped c x _ (Or.inl rfl)⟩
        · exact ⟨_, hy, stopped_stays_stopped c x _ (Or.inr rfl)⟩

theorem scanningState_noFailedSession : NoFailedSession scanningState := by
  intro i hi
  have : i = 0 := by
    have h0 : scanningState._scanSubscription = some 0 := by decide
    rw [h0] at hi
    exact (Option.some.inj hi).symm
  subst this
  exact ⟨0, scanningSession, _, by decide, by decide, by decide, rfl, rfl⟩

theorem setDevice_stops_then_starts_witness :
    (setDevice (some { deviceId := "f", label := "Front Camera" }) examplePlatform
      scanningState).state._device = some { deviceId := "f", label := "Front Camera" } ∧
    (setDevice (some { deviceId := "f", label := "Front Camera" }) examplePlatform
      scanningState).state.heap.sessions.length = 2 :=
  ⟨(setDevice_stops_then_starts (some { deviceId := "f", label := "Front Camera" })
      examplePlatform scanningState scanningState_noFailedSession).1,
   (setDevice_stops_then_starts (some { deviceId := "f", label := "Front Camera" })
      examplePlatform scanningState scanningState_noFailedSession).2.1⟩

theorem unsubscribe_frame (k : Nat) (s : State) :
    ∃ h, unsubscribe k s = { s with heap := h } ∧
      h.sessions.length = s.heap.sessions.length ∧ h.readers = s.heap.readers := by
  unfold unsubscribe
  split
  · exact ⟨s.heap, rfl, rfl, rfl⟩
  · exact ⟨_, rfl, by simp [Heap.setSession], rfl⟩

theorem scannerControlsStop_readers (h : Heap) (k : Nat) :
    (scannerControlsStop h k).1.readers = h.readers := by
  unfold scannerControlsStop
  split <;> rfl

theorem stopControls_frame (k : Nat) (s : State) :
    ∃ h ev, stopControls k s = { s with heap := h, events := ev } ∧
      h.sessions.length = s.heap.sessions.length ∧ h.readers = s.heap.readers := by
  refine ⟨(scannerControlsStop s.heap k).1,
    s.events ++ ((scannerControlsStop s.heap k).2.flatMap fun d => observed d.2), ?_,
    scannerControlsStop_length _ _, scannerControlsStop_readers _ _⟩
  unfold stopControls
  rw [deliver_eq]

theorem scanStop_frame (s : State) :
    ∃ h sub ev, (scanStop s).state = { s with heap := h, _scanSubscription := sub, events := ev } ∧
      h.sessions.length = s.heap.sessions.length ∧ h.readers = s.heap.readers := by
  rcases Option.eq_none_or_eq_some s._scanSubscription with hsub | ⟨sub, hsub⟩
  · rw [scanStop_none s hsub]
    exact ⟨s.heap, s._scanSubscription, s.events ++ [Event.torchCompatible false], rfl, rfl, rfl⟩
  · rcases Option.eq_none_or_eq_some s._codeReader with hcr | ⟨cr, hcr⟩
    · obtain ⟨h, e, hl, hr⟩ := unsubscribe_frame sub s
      have e0 : scanStop s =
          { state := emit (Event.torchCompatible false)
              { unsubscribe sub s with _scanSubscription := none }, thrown := none } := by
        simp [scanStop, hsub, hcr]
      rw [e0, e]
      exact ⟨h, none, s.events ++ [Event.torchCompatible false], rfl, hl, hr⟩
    · cases hg : getScannerControls s.heap cr with
      | error err =>
        have e0 : scanStop s = { state := s, thrown := some err } := by
          simp [scanStop, hsub, hcr, hg]
        rw [e0]
        exact ⟨s.heap, s._scanSubscription, s.events, rfl, rfl, rfl⟩
      | ok k =>
        obtain ⟨h1, ev1, e1, hl1, hr1⟩ := stopControls_frame k s
        obtain ⟨h2, e2, hl2, hr2⟩ := unsubscribe_frame sub (stopControls k s)
        have e0 : scanStop s =
            { state := emit (Event.torchCompatible false)
                { unsubscribe sub (stopControls k s) with _scanSubscription := none },
              thrown := none } := by
          simp [scanStop, hsub, hcr, hg]
        rw [e1] at e2 hl2 hr2
        rw [e0, e1, e2]
        exact ⟨h2, none, ev1 ++ [Event.torchCompatible false], rfl, hl2.trans hl1, hr2.trans hr1⟩

theorem isCurrentDevice_same_id (D D' : MediaDeviceInfo) (s : State)
    (hid : D'.deviceId = D.deviceId) :
    isCurrentDevice (some D') s = isCurrentDevice (some D) s := by
  simp [isCurrentDevice, hid]

theorem scanStop_outcome (s : State) (h : (scanStop s).thrown = none) :
    scanStop s = { state := (scanStop s).state, thrown := none } := by
  rw [← h]

/-- C13. In a ready, enabled, non-autostarting state with permission granted, assigning a device
`D` and then a device with the same `deviceId` leaves the whole state exactly as the first
assignment left it: the second assignment starts and stops nothing. When `D` is not already the
current device and the running scan, if any, can be stopped, the first assignment makes `D` the
current device and the two assignments together start exactly one session. -/
theorem same_device_twice (env env' : Platform) (s : State) (D D' : MediaDeviceInfo)
    (hready : s._ready = true) (henabled : s._enabled = true)
    (hauto : s._isAutostarting = false) (hperm : s.hasPermission = some true)
    (hid : D'.deviceId = D.deviceId) :
    set_device (some D') env' (set_device (some D) env s) = set_device (some D) env s ∧
    (isCurrentDevice (some D) s = false → (scanStop s).thrown = none →
      (set_device (some D) env s)._device = some D ∧
      (set_device (some D') env' (set_device (some D) env s)).heap.sessions.length =
        s.heap.sessions.length + 1) := by
  cases hcur : isCurrentDevice (some D) s with
  | true =>
    have hcur' : isCurrentDevice (some D') s = true := by
      rw [isCurrentDevice_same_id D D' s hid]; exact hcur
    have e1 : set_device (some D) env s = s := by simp [set_device, hready, hauto, hcur]
    have e2 : set_device (some D') env' s = s := by simp [set_device, hready, hauto, hcur']
    rw [e1, e2]
    exact ⟨rfl, fun h => by cases h⟩
  | false =>
    have hcur' : isCurrentDevice (some D') s = false := by
      rw [isCurrentDevice_same_id D D' s hid]; exact hcur
    have e1 : set_device (some D) env s = (setDevice (some D) env s).state := by
      simp [set_device, hready, hauto, hcur, hperm]
    have e2 : set_device (some D') env' s = (setDevice (some D') env' s).state := by
      simp [set_device, hready, hauto, hcur', hperm]
    cases hthrown : (scanStop s).thrown with
    | some err =>
      have hst : (scanStop s).state = s := by
        rcases scanStop_selection s with ⟨ht, _⟩ | ⟨_, hst⟩
        · rw [ht] at hthrown; cases hthrown
        · exact hst
      have f1 : (setDevice (some D) env s).state = s := by simp [setDevice, hthrown, hst]
      have f2 : (setDevice (some D') env' s).state = s := by simp [setDevice, hthrown, hst]
      rw [e1, f1, e2, f2]
      exact ⟨rfl, fun _ h => by cases h⟩
    | none =>
      obtain ⟨h1, sub1, ev1, hs1, hl1, _⟩ := scanStop_frame s
      have hen1 : (scanStop s).state._enabled = true := by rw [hs1]; exact henabled
      have f1 := setDevice_of_scanStop (some D) env s _ (scanStop_outcome s hthrown)
      dsimp only at f1
      rw [if_pos hen1] at f1
      obtain ⟨h2, cr2, sub2, ev2, hs2⟩ := scanFromDevice_frame D.deviceId env
        { (scanStop s).state with _device := some D }
      obtain ⟨g1, _, _⟩ := scanFromDevice_sessions D.deviceId env
        { (scanStop s).state with _device := some D }
      have hlen : (setDevice (some D) env s).state.heap.sessions.length =
          s.heap.sessions.length + 1 := by
        rw [f1, g1]
        show (scanStop s).state.heap.sessions.length + 1 = _
        rw [hs1]
        show h1.sessions.length + 1 = _
        rw [hl1]
      have hst : (setDevice (some D) env s).state =
          { s with heap := h2, _codeReader := cr2, _scanSubscription := sub2, events := ev2,
                   _device := some D } := by
        rw [f1, hs2, hs1]
      have hnoop : set_device (some D') env'
          { s with heap := h2, _codeReader := cr2, _scanSubscription := sub2, events := ev2,
                   _device := some D } =
          { s with heap := h2, _codeReader := cr2, _scanSubscription := sub2, events := ev2,
                   _device := some D } := by
        simp [set_device, hready, hauto, isCurrentDevice, hid]
      rw [e1, hst, hnoop]
      refine ⟨rfl, fun _ _ => ⟨rfl, ?_⟩⟩
      rw [← hst]; exact hlen

theorem same_device_twice_witness :
    set_device (some { deviceId := "f", label := "Front" }) examplePlatform
        (set_device (some { deviceId := "f", label := "Front Camera" }) examplePlatform
          scanningState) =
      set_device (some { deviceId := "f", label := "Front Camera" }) examplePlatform
        scanningState ∧
    (set_device (some { deviceId := "f", label := "Front" }) examplePlatform
        (set_device (some { deviceId := "f", label := "Front Camera" }) examplePlatform
          scanningState)).heap.sessions.length = 2 :=
  ⟨(same_device_twice examplePlatform examplePlatform scanningState
      { deviceId := "f", label := "Front Camera" } { deviceId := "f", label := "Front" }
      (by decide) (by decide) (by decide) (by decide) rfl).1,
   ((same_device_twice examplePlatform examplePlatform scanningState
      { deviceId := "f", label := "Front Camera" } { deviceId := "f", label := "Front" }
      (by decide) (by decide) (by decide) (by decide) rfl).2 (by decide) (by decide)).2⟩

/-! ## Autostart -/

theorem capital_mem (c : Char) (h1 : 65 ≤ c.toNat) (h2 : c.toNat ≤ 90) :
    c ∈ "ABCDEFGHIJKLMNOPQRSTUVWXYZ".data := by
  have hc : Char.ofNat c.toNat = c := Char.ofNat_toNat c
  rw [← hc]
  generalize c.toNat = n at h1 h2
  interval_cases n <;> decide

theorem canonicalize_eq_sameLetter (w c : Char) (hw : w ∈ rearLetters) :
    (w == canonicalize c) = sameLetter w c := by
  by_cases hA : c = 'Á'
  · subst hA
    revert w
    decide
  · by_cases hu : 65 ≤ c.toNat ∧ c.toNat ≤ 90
    · have hc := capital_mem c hu.1 hu.2
      have hall : ∀ c ∈ "ABCDEFGHIJKLMNOPQRSTUVWXYZ".data, ∀ w ∈ rearLetters,
          (w == canonicalize c) = sameLetter w c := by decide
      exact hall c hc w hw
    · have h1 : canonicalize c = c := by
        simp only [canonicalize, if_neg hA, Char.toLower]
        rw [if_neg]
        simpa using hu
      have h2 : ∀ w ∈ rearLetters,
          capital w = 'Á' ∨ (65 ≤ (capital w).toNat ∧ (capital w).toNat ≤ 90) := by
        decide
      have h3 : c ≠ capital w := by
        intro h
        rcases h2 w hw with h4 | h4
        · exact hA (h.trans h4)
        · exact hu (h ▸ h4)
      rw [h1]
      simp only [sameLetter]
      have : (c == capital w) = false := by simpa using h3
      rw [this, Bool.or_false]
      exact Bool.beq_comm

theorem isPrefixOf_canonicalize (ws : List Char) (hw : ∀ w ∈ ws, w ∈ rearLetters) :
    ∀ t : List Char, ws.isPrefixOf (t.map canonicalize) = startsWithIgnoringCase ws t := by
  induction ws with
  | nil => intro t; cases t <;> rfl
  | cons w ws ih =>
    intro t
    cases t with
    | nil => rfl
    | cons c cs =>
      simp only [List.map_cons, List.isPrefixOf, startsWithIgnoringCase]
      rw [canonicalize_eq_sameLetter w c (hw w (List.mem_cons_self _ _)),
        ih (fun x hx => hw x (List.mem_cons_of_mem _ hx))]

theorem tails_any_canonicalize (ws : List Char) (hw : ∀ w ∈ ws, w ∈ rearLetters)
    (l : List Char) :
    ((l.map canonicalize).tails.any fun t => ws.isPrefixOf t) =
      l.tails.any fun t => startsWithIgnoringCase ws t := by
  induction l with
  | nil =>
    have := isPrefixOf_canonicalize ws hw []
    simpa using this
  | cons a l ih =>
    have := isPrefixOf_canonicalize ws hw (a :: l)
    simp only [List.map_cons] at this
    simp only [List.map_cons, List.tails, List.any_cons, this, ih]

theorem matcher_eq (d : MediaDeviceInfo) :
    matcher d = rearWords.any (containsIgnoringCase d.label) := by
  have h := fun (w : String) (hw : ∀ c ∈ w.data, c ∈ rearLetters) =>
    tails_any_canonicalize w.data hw d.label.data
  simp only [matcher, rearWords, containsIgnoringCase, List.any_cons, List.any_nil,
    h "back" (by decide), h "trás" (by decide), h "rear" (by decide), h "traseira" (by decide),
    h "environment" (by decide), h "ambiente" (by decide)]

theorem selection_eq_choice (devices : List MediaDeviceInfo) :
    (devices.find? matcher).orElse (fun _ => devices.getLast?) = autostartChoice devices := by
  have hm : matcher = fun d => rearWords.any (containsIgnoringCase d.label) :=
    funext matcher_eq
  unfold autostartChoice
  rw [hm, ← List.filter_head?]
  cases List.filter (fun d => rearWords.any (containsIgnoringCase d.label)) devices <;> rfl

theorem autostartScanner_eq (devices : List MediaDeviceInfo) (env : Platform) (s : State) :
    autostartScanner devices env s =
      match autostartChoice devices with
      | none => { state := s, thrown := some noInputDevicesError }
      | some d =>
        match (setDevice (some d) env s).thrown with
        | some e => { state := (setDevice (some d) env s).state, thrown := some e }
        | none => { state := emit (Event.deviceChange (some d)) (setDevice (some d) env s).state,
                    thrown := none } := by
  unfold autostartScanner
  rw [selection_eq_choice]

theorem setDevice_device (device : Option MediaDeviceInfo) (env : Platform) (s : State)
    (h : (scanStop s).thrown = none) : (setDevice device env s).state._device = device := by
  rw [setDevice_of_scanStop device env s _ (scanStop_outcome s h)]
  cases device with
  | none => rfl
  | some D =>
    dsimp only
    split
    · exact scanFromDevice_device D.deviceId env _
    · rfl

/-- C19. For every device list `autostartScanner` picks the first device in list order whose
label contains, ignoring case, one of back, trás, rear, traseira, environment, ambiente, and
otherwise the last device of the list; it hands that device to `setDevice` and, when that
succeeds, emits deviceChange for it, so that the device becomes the current one whenever the
running scan can be stopped; for the empty list it fails with 'Impossible to autostart, no
input devices available.' and leaves the state untouched. It picks 'Back Camera' from
['Front Camera', 'Back Camera'] and 'Cam B' from ['Cam A', 'Cam B']; the first match wins over
the last device and over later matches, in any letter case: it picks 'BACK camera' from
['BACK camera', 'Front Camera'], 'Câmera TRASEIRA' from ['Câmera TRASEIRA', 'Frontal'],
'Parte de TRÁS' from ['Parte de TRÁS', 'Frente'] and 'Rear 1' from
['Front', 'Rear 1', 'Environment 2', 'Other']. -/
theorem autostart_selection (devices : List MediaDeviceInfo) (env : Platform) (s : State) :
    autostartScanner devices env s =
      (match autostartChoice devices with
       | none => { state := s, thrown := some noInputDevicesError }
       | some d =>
         match (setDevice (some d) env s).thrown with
         | some e => { state := (setDevice (some d) env s).state, thrown := some e }
         | none => { state := emit (Event.deviceChange (some d)) (setDevice (some d) env s).state,
                     thrown := none }) ∧
    (∀ d, autostartChoice devices = some d → (scanStop s).thrown = none →
      (autostartScanner devices env s).state._device = some d) ∧
    autostartChoice [] = none ∧
    autostartScanner [] env s = { state := s, thrown := some noInputDevicesError } ∧
    noInputDevicesError.message = some "Impossible to autostart, no input devices available." ∧
    autostartChoice [{ deviceId := "1", label := "Front Camera" },
                     { deviceId := "2", label := "Back Camera" }] =
      some { deviceId := "2", label := "Back Camera" } ∧
    autostartChoice [{ deviceId := "1", label := "Cam A" }, { deviceId := "2", label := "Cam B" }] =
      some { deviceId := "2", label := "Cam B" } ∧
    (autostartScanner [{ deviceId := "1", label := "Front Camera" },
                       { deviceId := "2", label := "Back Camera" }]
      examplePlatform (fresh true true)).state._device =
      some { deviceId := "2", label := "Back Camera" } ∧
    (autostartScanner [{ deviceId := "1", label := "Cam A" }, { deviceId := "2", label := "Cam B" }]
      examplePlatform (fresh true true)).state._device =
      some { deviceId := "2", label := "Cam B" } ∧
    (autostartScanner [{ deviceId := "1", label := "BACK camera" },
                       { deviceId := "2", label := "Front Camera" }]
      examplePlatform (fresh true true)).state._device =
      some { deviceId := "1", label := "BACK camera" } ∧
    (autostartScanner [{ deviceId := "1", label := "Câmera TRASEIRA" },
                       { deviceId := "2", label := "Frontal" }]
      examplePlatform (fresh true true)).state._device =
      some { deviceId := "1", label := "Câmera TRASEIRA" } ∧
    (autostartScanner [{ deviceId := "1", label := "Parte de TRÁS" },
                       { deviceId := "2", label := "Frente" }]
      examplePlatform (fresh true true)).state._device =
      some { deviceId := "1", label := "Parte de TRÁS" } ∧
    (autostartScanner [{ deviceId := "1", label := "Front" }, { deviceId := "2", label := "Rear 1" },
                       { deviceId := "3", label := "Environment 2" },
                       { deviceId := "4", label := "Other" }]
      examplePlatform (fresh true true)).state._device =
      some { deviceId := "2", label := "Rear 1" } := by
  refine ⟨autostartScanner_eq devices env s, ?_, rfl, ?_, rfl, by decide, by decide, by decide,
    by decide, by decide, by decide, by decide, by decide⟩
  · intro d hd hstop
    rw [autostartScanner_eq, hd]
    have := setDevice_device (some d) env s hstop
    dsimp only
    split
    · exact this
    · exact this
  · rw [autostartScanner_eq]
    rfl

theorem autostart_selection_witness :
    (autostartScanner examplePlatform.listVideoInputDevices examplePlatform
      (fresh true true)).state._device = some { deviceId := "b", label := "Back Camera" } :=
  (autostart_selection examplePlatform.listVideoInputDevices examplePlatform
    (fresh true true)).2.1 { deviceId := "b", label := "Back Camera" } (by decide) (by decide)

/-! ## Initialisation -/

@[simp] theorem emit_control (e : Event) (s : State) : control (emit e s) = control s := rfl

@[simp] theorem set_isAutostarting_control (b : Bool) (s : State) :
    control (set_isAutostarting b s) = control s := rfl

@[simp] theorem setPermission_control (p : Option Bool) (s : State) :
    control (setPermission p s) = control s := by
  unfold setPermission; simp only []; split <;> rfl

@[simp] theorem permissionResponseError_control (e : JsError) (s : State) :
    control (permissionResponseError e s) = control s := by
  unfold permissionResponseError; split <;> rfl

@[simp] theorem handlePermissionException_control (e : JsError) (s : State) :
    control (handlePermissionException e s).1 = control s := by
  unfold handlePermissionException
  simp only [permissionResponseError_control, setPermission_control]
  split_ifs <;> simp

@[simp] theorem terminateStream_control (m : Option MediaStream) (s : State) :
    control (terminateStream m s) = control s := by
  unfold terminateStream; split <;> rfl

@[simp] theorem askForPermission_control (env : Platform) (s : State) :
    control (askForPermission env s).1 = control s := by
  unfold askForPermission
  split_ifs
  · simp
  · simp
  · split <;> simp

@[simp] theorem updateVideoInputDevices_control (env : Platform) (s : State) :
    control (updateVideoInputDevices env s).1 = control s := by
  unfold updateVideoInputDevices
  simp only []
  split_ifs <;> simp

theorem scanStop_thrown_eq (s : State) :
    (scanStop s).thrown =
      match s._scanSubscription, s._codeReader with
      | some _, some cr =>
        (match getScannerControls s.heap cr with
         | Except.error e => some e
         | Except.ok _ => none)
      | _, _ => none := by
  rcases Option.eq_none_or_eq_some s._scanSubscription with hsub | ⟨sub, hsub⟩
  · simp [scanStop, hsub]
  · rcases Option.eq_none_or_eq_some s._codeReader with hcr | ⟨cr, hcr⟩
    · simp [scanStop, hsub, hcr]
    · cases hg : getScannerControls s.heap cr <;> simp [scanStop, hsub, hcr, hg]

theorem scanStop_thrown_congr (s t : State) (h : control t = control s) :
    (scanStop t).thrown = (scanStop s).thrown := by
  simp only [control, Prod.mk.injEq] at h
  obtain ⟨h1, h2, h3, _, _⟩ := h
  rw [scanStop_thrown_eq, scanStop_thrown_eq, h1, h2, h3]

theorem readerAllocated_congr (s t : State) (h : control t = control s)
    (hs : ReaderAllocated s) : ReaderAllocated t := by
  simp only [control, Prod.mk.injEq] at h
  obtain ⟨h1, h2, _, _, _⟩ := h
  intro r hr
  rw [h1]
  exact hs r (by rw [← h2]; exact hr)

theorem scanFromDevice_thrown (d : String) (env : Platform) (s : State)
    (h : ReaderAllocated s) : (scanFromDevice d env s).thrown = none := by
  have hr : (getCodeReader s).2 < (getCodeReader s).1.heap.readers.length := by
    rcases Option.eq_none_or_eq_some s._codeReader with hcr | ⟨cr, hcr⟩
    · simp [getCodeReader, hcr]
    · simp [getCodeReader, hcr, h cr hcr]
  cases hresp : env.decodeFromVideoDevice with
  | resolve torch constraints =>
    simp [scanFromDevice, hresp, scanFromDeviceObservable, deliver_eq, Heap.setSession,
      Heap.setScannerControls, BehaviorSubject.subscribe, BehaviorSubject.create,
      BehaviorSubject.closed, getScannerControls, Heap.scannerControls, List.getElem?_set, hr]
  | reject e =>
    obtain ⟨h1, h2, _⟩ :=
      scanFromDeviceObservable_reject (getCodeReader s).1.heap (getCodeReader s).2 d e
    simp only [scanFromDevice, hresp, deliver_heap, h1, h2]
    simp [BehaviorSubject.subscribe, failedStream, BehaviorSubject.closed]

theorem setDevice_thrown (device : Option MediaDeviceInfo) (env : Platform) (s : State)
    (hstop : (scanStop s).thrown = none) (halloc : ReaderAllocated s) :
    (setDevice device env s).thrown = none := by
  obtain ⟨h1, sub1, ev1, hs1, _, hr1⟩ := scanStop_frame s
  have ha : ∀ D : MediaDeviceInfo,
      ReaderAllocated { (scanStop s).state with _device := some D } := by
    intro D r hr
    rw [hs1] at hr ⊢
    show r < h1.readers.length
    rw [hr1]
    exact halloc r hr
  rw [setDevice_of_scanStop device env s _ (scanStop_outcome s hstop)]
  cases device with
  | none => rfl
  | some D =>
    dsimp only
    split
    · exact scanFromDevice_thrown D.deviceId env _ (ha D)
    · rfl

theorem autostartChoice_of_ne_nil (devices : List MediaDeviceInfo) (h : devices ≠ []) :
    ∃ d, autostartChoice devices = some d := by
  unfold autostartChoice
  split
  · exact ⟨_, rfl⟩
  · cases hl : devices.getLast? with
    | none => exact absurd (List.getLast?_eq_none_iff.mp hl) h
    | some d => exact ⟨d, rfl⟩

theorem askForPermission_events (env : Platform) (s : State) :
    ∃ L, (askForPermission env s).1.events = s.events ++ L ∧
      ∀ ds, Event.camerasFound ds ∉ L := by
  unfold askForPermission
  cases hst : s.permissionResponseStopped <;> split_ifs
  all_goals first
    | exact ⟨_, by simp [setPermission, emit, hst]; rfl, by simp⟩
    | (split
       · rename_i stream _
         cases stream <;>
           exact ⟨_, by simp [setPermission, emit, hst, terminateStream]; rfl, by simp⟩
       · simp only [handlePermissionException, terminateStream]
         split_ifs <;>
           exact ⟨_, by simp [setPermission, permissionResponseError, emit, hst]; rfl, by simp⟩)

/-- C17 (counterexample). With autostart on, the permission probe granted and an empty device
list, `init` on a freshly constructed component rejects with 'Impossible to autostart, no input
devices available.'; the component is left not ready and still autostarting. -/
theorem init_rejects_without_devices :
    (fresh true true).autostart = true ∧
    (askForPermission noCameraPlatform (fresh true true)).2 = some true ∧
    noCameraPlatform.listVideoInputDevices = [] ∧
    (init noCameraPlatform (fresh true true)).thrown = some noInputDevicesError ∧
    (init noCameraPlatform (fresh true true)).state._ready = false ∧
    (init noCameraPlatform (fresh true true)).state._isAutostarting = true := by
  decide

/-- C17 (amended). With autostart on, in a state whose running scan, if any, can be stopped and
whose code reader is allocated, for every outcome of the permission probe and every device list
that is not empty when permission is granted, `init` completes without throwing and ends with
ready = true and isAutostarting = false. When permission is not granted the current device, the
scan subscription and the heap are unchanged and no camerasFound event is added; when it is
granted the device picked by the autostart heuristic becomes the current device and
deviceChange is emitted for it. -/
theorem init_autostart_completes (env : Platform) (s : State)
    (hauto : s.autostart = true) (hstop : (scanStop s).thrown = none)
    (halloc : ReaderAllocated s)
    (hdevices : (askForPermission env (set_isAutostarting true s)).2 = some true →
      env.listVideoInputDevices ≠ []) :
    (init env s).thrown = none ∧
    (init env s).state._ready = true ∧
    (init env s).state._isAutostarting = false ∧
    ((askForPermission env (set_isAutostarting true s)).2 ≠ some true →
      (init env s).state._device = s._device ∧
      (init env s).state._scanSubscription = s._scanSubscription ∧
      (init env s).state.heap = s.heap ∧
      ∀ ds, Event.camerasFound ds ∈ (init env s).state.events →
        Event.camerasFound ds ∈ s.events) ∧
    ((askForPermission env (set_isAutostarting true s)).2 = some true →
      ∃ d evs, autostartChoice env.listVideoInputDevices = some d ∧
        (init env s).state._device = some d ∧
        (init env s).state.events =
          evs ++ [Event.deviceChange (some d), Event.autostarting false, Event.autostarted]) := by
  have hna : (!s.autostart) = false := by simp [hauto]
  by_cases hg : (askForPermission env (set_isAutostarting true s)).2 = some true
  · obtain ⟨d, hd⟩ := autostartChoice_of_ne_nil env.listVideoInputDevices (hdevices hg)
    have hc : control (updateVideoInputDevices env
        (askForPermission env (set_isAutostarting true s)).1).1 = control s := by simp
    have hthrown := setDevice_thrown (some d) env _
      ((scanStop_thrown_congr s _ hc).trans hstop) (readerAllocated_congr s _ hc halloc)
    have hdev := setDevice_device (some d) env
      (updateVideoInputDevices env (askForPermission env (set_isAutostarting true s)).1).1
      ((scanStop_thrown_congr s _ hc).trans hstop)
    have hscan : autostartScanner
        (updateVideoInputDevices env (askForPermission env (set_isAutostarting true s)).1).2 env
        (updateVideoInputDevices env (askForPermission env (set_isAutostarting true s)).1).1 =
        { state := emit (Event.deviceChange (some d))
            (setDevice (some d) env (updateVideoInputDevices env
              (askForPermission env (set_isAutostarting true s)).1).1).state,
          thrown := none } := by
      rw [autostartScanner_eq]
      have : (updateVideoInputDevices env
          (askForPermission env (set_isAutostarting true s)).1).2 = env.listVideoInputDevices :=
        rfl
      rw [this, hd]
      dsimp only
      rw [hthrown]
    have hinit : init env s =
        { state := { emit Event.autostarted (set_isAutostarting false
            (emit (Event.deviceChange (some d))
              (setDevice (some d) env (updateVideoInputDevices env
                (askForPermission env (set_isAutostarting true s)).1).1).state)) with
              _ready := true },
          thrown := none } := by
      simp only [init, hna, initAutostartOn, hg, hscan]
      rfl
    rw [hinit]
    refine ⟨rfl, rfl, rfl, fun h => absurd hg h, fun _ => ⟨d,
      (setDevice (some d) env (updateVideoInputDevices env
        (askForPermission env (set_isAutostarting true s)).1).1).state.events, hd, hdev, ?_⟩⟩
    simp [emit, set_isAutostarting]
  · have hinit : init env s =
        { state := { emit Event.autostarted (set_isAutostarting false
            (askForPermission env (set_isAutostarting true s)).1) with _ready := true },
          thrown := none } := by
      simp only [init, hna, initAutostartOn, hg]
      rfl
    have hc : control (askForPermission env (set_isAutostarting true s)).1 = control s := by
      simp
    simp only [control, Prod.mk.injEq] at hc
    obtain ⟨c1, _, c3, c4, _⟩ := hc
    obtain ⟨L, hL, hnot⟩ := askForPermission_events env (set_isAutostarting true s)
    rw [hinit]
    refine ⟨rfl, rfl, rfl, fun _ => ⟨c4, c3, c1, ?_⟩, fun h => absurd h hg⟩
    intro ds hds
    have hev : ({ emit Event.autostarted (set_isAutostarting false
        (askForPermission env (set_isAutostarting true s)).1) with _ready := true } :
        State).events =
        s.events ++ ([Event.autostarting true] ++ L ++
          [Event.autostarting false, Event.autostarted]) := by
      show ((askForPermission env (set_isAutostarting true s)).1.events ++
        [Event.autostarting false]) ++ [Event.autostarted] = _
      rw [hL]
      simp [set_isAutostarting, emit]
    rw [hev] at hds
    simp only [List.mem_append, List.mem_cons, List.mem_singleton, List.not_mem_nil,
      or_false] at hds
    rcases hds with h | (h | h) | h | h
    · exact h
    · cases h
    · exact absurd h (hnot ds)
    · cases h
    · cases h

theorem init_autostart_completes_witness :
    (init examplePlatform (fresh true true)).thrown = none ∧
    (init examplePlatform (fresh true true)).state._ready = true ∧
    (init examplePlatform (fresh true true)).state._isAutostarting = false :=
  ⟨(init_autostart_completes examplePlatform (fresh true true) rfl (by decide)
      (fun r hr => by cases hr) (fun _ => by decide)).1,
   (init_autostart_completes examplePlatform (fresh true true) rfl (by decide)
      (fun r hr => by cases hr) (fun _ => by decide)).2.1,
   (init_autostart_completes examplePlatform (fresh true true) rfl (by decide)
      (fun r hr => by cases hr) (fun _ => by decide)).2.2.1⟩

/-! ## Stopping, starting and failed sessions -/

/-- C21 (counterexample). On the scanning component the second `scanStop()` emits
torchCompatible(false) once more: the events after two calls are those after one call followed
by a second torchCompatible(false). -/
theorem scanStop_twice_emits_again :
    (scanStop scanningState).thrown = none ∧
    (scanStop (scanStop scanningState).state).state.events =
      (scanStop scanningState).state.events ++ [Event.torchCompatible false] ∧
    (scanStop (scanStop scanningState).state).state.events ≠
      (scanStop scanningState).state.events := by
  decide

/-- C21 (amended). When a first `scanStop()` returns normally, a second call raises no exception
and leaves the state as the first one left it, except that torchCompatible(false) is emitted a
second time. -/
theorem scanStop_twice (s : State) (h : (scanStop s).thrown = none) :
    scanStop (scanStop s).state =
      { state := emit (Event.torchCompatible false) (scanStop s).state, thrown := none } := by
  rcases scanStop_selection s with ⟨_, hsel⟩ | ⟨ht, _⟩
  · simp only [selection, Prod.mk.injEq] at hsel
    exact scanStop_none _ hsel.1
  · exact absurd h ht

theorem scanStop_twice_witness :
    (scanStop (scanStop scanningState).state).thrown = none ∧
    (scanStop (scanStop scanningState).state).state._scanSubscription = none :=
  ⟨by rw [scanStop_twice scanningState (by decide)],
   by rw [scanStop_twice scanningState (by decide)]; decide⟩

/-- C25. `scanStart()` throws exactly when a scan subscription exists or no device is selected:
with a subscription it throws 'There is already a scan process running.', without a
subscription and without a device it throws 'No device defined, cannot start scan, please
define a device.', and in both cases the state is unchanged (no session is started); otherwise
it does not throw and starts exactly one session, on the `deviceId` of the current device. -/
theorem scanStart_guards (env : Platform) (s : State) :
    ((scanStart env s).thrown ≠ none ↔ (s._scanSubscription ≠ none ∨ s._device = none)) ∧
    (s._scanSubscription ≠ none →
      scanStart env s = { state := s, thrown := some alreadyRunningError }) ∧
    (s._scanSubscription = none → s._device = none →
      scanStart env s = { state := s, thrown := some noDeviceError }) ∧
    (∀ d, s._scanSubscription = none → s._device = some d →
      (scanStart env s).thrown = none ∧
      (scanStart env s).state.heap.sessions.length = s.heap.sessions.length + 1 ∧
      ∃ y, (scanStart env s).state.heap.sessions[s.heap.sessions.length]? = some y ∧
        y.deviceId = d.deviceId) ∧
    alreadyRunningError.message = some "There is already a scan process running." ∧
    noDeviceError.message = some "No device defined, cannot start scan, please define a device." := by
  rcases Option.eq_none_or_eq_some s._scanSubscription with hsub | ⟨i, hsub⟩
  · rcases Option.eq_none_or_eq_some s._device with hdev | ⟨d, hdev⟩
    · have e : scanStart env s = { state := s, thrown := some noDeviceError } := by
        simp [scanStart, hsub, hdev]
      rw [e]
      refine ⟨by simp [hdev], fun h => absurd hsub h, fun _ _ => rfl, ?_, rfl, rfl⟩
      intro d _ hd
      rw [hdev] at hd
      cases hd
    · have e : scanStart env s =
          { state := (scanFromDevice d.deviceId env s).state, thrown := none } := by
        simp [scanStart, hsub, hdev]
      obtain ⟨g1, g2, _⟩ := scanFromDevice_sessions d.deviceId env s
      rw [e]
      refine ⟨by simp [hsub, hdev], fun h => absurd hsub h, ?_, ?_, rfl, rfl⟩
      · intro _ hd
        rw [hdev] at hd
        cases hd
      · intro d' _ hd
        rw [hdev] at hd
        cases hd
        exact ⟨rfl, g1, g2⟩
  · have e : scanStart env s = { state := s, thrown := some alreadyRunningError } := by
      simp [scanStart, hsub]
    rw [e]
    refine ⟨by simp [hsub], fun _ => rfl, ?_, ?_, rfl, rfl⟩
    · intro h
      rw [hsub] at h
      cases h
    · intro d h
      rw [hsub] at h
      cases h

theorem scanStart_guards_witness :
    scanStart examplePlatform scanningState =
      { state := scanningState, thrown := some alreadyRunningError } :=
  (scanStart_guards examplePlatform scanningState).2.1 (by decide)

/-! ## Formats, video constraints and torch -/

/-- C23. For every string input the `formats` setter throws 'Invalid formats, make sure the
[formats] input is a binding.' and leaves the whole state unchanged: the hints with the
previously registered formats, and the heap with the code reader. -/
theorem formats_rejects_string (x : String) (s : State) :
    set_formats (FormatsInput.text x) s =
      { state := s, thrown := some invalidFormatsError } ∧
    invalidFormatsError.message =
      some "Invalid formats, make sure the [formats] input is a binding." ∧
    get_formats (set_formats (FormatsInput.text x) s).state = get_formats s ∧
    get_hints (set_formats (FormatsInput.text x) s).state = get_hints s ∧
    (set_formats (FormatsInput.text x) s).state.heap = s.heap ∧
    (set_formats (FormatsInput.text x) s).state._codeReader = s._codeReader :=
  ⟨rfl, rfl, rfl, rfl, rfl, rfl⟩

theorem dropWhile_append_of_all {α : Type} (p : α → Bool) (l₁ : List α) (a : α) (l₂ : List α)
    (h : ∀ x ∈ l₁, p x = true) (ha : p a = false) :
    (l₁ ++ a :: l₂).dropWhile p = a :: l₂ := by
  induction l₁ with
  | nil => simp [List.dropWhile, ha]
  | cons b t ih =>
    have hb : p b = true := h b (List.mem_cons_self _ _)
    simp only [List.cons_append, List.dropWhile, hb]
    exact ih fun x hx => h x (List.mem_cons_of_mem _ hx)

theorem trim_padded (pre post init rest : List Char) (a z : Char)
    (hpre : ∀ c ∈ pre, isWhiteSpace c = true) (hpost : ∀ c ∈ post, isWhiteSpace c = true)
    (ha : isWhiteSpace a = false) (hz : isWhiteSpace z = false)
    (hbody : a :: rest = init ++ [z]) :
    trim (String.mk (pre ++ (a :: rest) ++ post)) = String.mk (a :: rest) := by
  unfold trim
  have h1 : (pre ++ (a :: rest) ++ post).dropWhile isWhiteSpace = a :: (rest ++ post) := by
    have : pre ++ (a :: rest) ++ post = pre ++ a :: (rest ++ post) := by simp
    rw [this]
    exact dropWhile_append_of_all _ pre a _ hpre ha
  have h2 : (a :: (rest ++ post)).reverse = post.reverse ++ z :: init.reverse := by
    have : a :: (rest ++ post) = (a :: rest) ++ post := rfl
    rw [this, hbody]
    simp
  have h3 : (post.reverse ++ z :: init.reverse).dropWhile isWhiteSpace =
      z :: init.reverse :=
    dropWhile_append_of_all _ post.reverse z _
      (fun c hc => hpost c (List.mem_reverse.mp hc)) hz
  simp only [h1, h2, h3]
  rw [hbody]
  simp

/-- What the `formats` setter stores for a list, in every state (see C24). The setter does not
throw and stores under POSSIBLE_FORMATS the list obtained element by element, in the same order
and of the same length: a string element becomes the property that the object `BarcodeFormat`
has under the trimmed, upper-cased string, or undefined when it has none; a non-string element
is kept as given; white space around a string does not matter; the `formats` getter returns the
stored list. The input [' qr_code ', 'Ean_13', CODE_128, 'nope'], the first name padded with a
no-break space and an em space, is stored as [QR_CODE, EAN_13, CODE_128, undefined], and the
names written with a sharp s, a long s and a dotless i resolve as well. -/
theorem formats_accepts_list (items : List FormatItem) (s : State) :
    (set_formats (FormatsInput.list items) s).thrown = none ∧
    (set_formats (FormatsInput.list items) s).state._hints.POSSIBLE_FORMATS =
      some (items.map getBarcodeFormatOrFail) ∧
    get_formats (set_formats (FormatsInput.list items) s).state =
      some (items.map getBarcodeFormatOrFail) ∧
    (items.map getBarcodeFormatOrFail).length = items.length ∧
    (∀ (i : Nat) (t : String), items[i]? = some (FormatItem.text t) →
      (items.map getBarcodeFormatOrFail)[i]? =
        some (BarcodeFormat.get (toUpperCase (trim t)))) ∧
    (∀ (i : Nat) (v : Nat), items[i]? = some (FormatItem.value v) →
      (items.map getBarcodeFormatOrFail)[i]? = some (FormatItem.value v)) ∧
    (∀ i : Nat, items[i]? = some FormatItem.undefined →
      (items.map getBarcodeFormatOrFail)[i]? = some FormatItem.undefined) ∧
    (∀ (pre post init rest : List Char) (a z : Char),
      (∀ c ∈ pre, isWhiteSpace c = true) → (∀ c ∈ post, isWhiteSpace c = true) →
      isWhiteSpace a = false → isWhiteSpace z = false → a :: rest = init ++ [z] →
      getBarcodeFormatOrFail (FormatItem.text (String.mk (pre ++ (a :: rest) ++ post))) =
        getBarcodeFormatOrFail (FormatItem.text (String.mk (a :: rest)))) ∧
    get_formats (set_formats
        (FormatsInput.list [FormatItem.text "\u00A0qr_code\u2003", FormatItem.text "Ean_13",
          FormatItem.value 4, FormatItem.text "nope"]) s).state =
      some [FormatItem.value 11, FormatItem.value 7, FormatItem.value 4,
        FormatItem.undefined] ∧
    [FormatItem.text "rß_14", FormatItem.text "rſs_14", FormatItem.text "data_matrıx"].map
        getBarcodeFormatOrFail =
      [FormatItem.value 12, FormatItem.value 12, FormatItem.value 5] := by
  refine ⟨rfl, rfl, rfl, by simp, ?_, ?_, ?_, ?_, ?_, ?_⟩
  · intro i t h
    simp [List.getElem?_map, h, getBarcodeFormatOrFail]
  · intro i v h
    simp [List.getElem?_map, h, getBarcodeFormatOrFail]
  · intro i h
    simp [List.getElem?_map, h, getBarcodeFormatOrFail]
  · intro pre post init rest a z hpre hpost ha hz hbody
    have h1 := trim_padded pre post init rest a z hpre hpost ha hz hbody
    have h2 := trim_padded [] [] init rest a z (by simp) (by simp) ha hz hbody
    simp only [List.nil_append, List.append_nil] at h2
    simp only [getBarcodeFormatOrFail, h1, h2]
  · have e : [FormatItem.text "\u00A0qr_code\u2003", FormatItem.text "Ean_13",
        FormatItem.value 4, FormatItem.text "nope"].map getBarcodeFormatOrFail =
        [FormatItem.value 11, FormatItem.value 7, FormatItem.value 4, FormatItem.undefined] := by
      set_option maxRecDepth 100000 in decide
    show some _ = _
    rw [e]
  · set_option maxRecDepth 100000 in decide

theorem formats_accepts_list_witness :
    (set_formats (FormatsInput.list [FormatItem.text "QR_CODE  "])
      (fresh true true)).state._hints.POSSIBLE_FORMATS = some [FormatItem.value 11] := by
  rw [(formats_accepts_list [FormatItem.text "QR_CODE  "] (fresh true true)).2.1]
  set_option maxRecDepth 100000 in decide

/-- C24 (evaluation at the failing input). The list ['11'] is accepted without an exception,
and what is stored under POSSIBLE_FORMATS and returned by the `formats` getter is the string
'QR_CODE': the string '11' names no barcode format, yet it becomes neither a format nor
undefined, because the object `BarcodeFormat` also holds every number as a key with the name as
value. The same happens for every decimal string from '0' to '16', in any padding. A name
resolves to its format and a string that is no key becomes undefined. -/
theorem formats_stores_enumeration_name :
    "11" ∉ BarcodeFormat.names ∧
    getBarcodeFormatOrFail (FormatItem.text "11") = FormatItem.text "QR_CODE" ∧
    (set_formats (FormatsInput.list [FormatItem.text "11"]) (fresh true true)).thrown = none ∧
    get_formats (set_formats (FormatsInput.list [FormatItem.text "11"]) (fresh true true)).state =
      some [FormatItem.text "QR_CODE"] ∧
    (List.range 17).map (fun n => getBarcodeFormatOrFail (FormatItem.text (toString n))) =
      BarcodeFormat.names.map FormatItem.text ∧
    get_formats (set_formats
        (FormatsInput.list [FormatItem.text " 0 ", FormatItem.text "qr_code",
          FormatItem.text "QR_CODE", FormatItem.text "nope", FormatItem.text "17"])
        (fresh true true)).state =
      some [FormatItem.text "AZTEC", FormatItem.value BarcodeFormat.QR_CODE,
        FormatItem.value BarcodeFormat.QR_CODE, FormatItem.undefined, FormatItem.undefined] := by
  set_option maxRecDepth 100000 in decide

/-- C26 (evaluation at the failing inputs). Without a code reader the `videoConstraints` setter
is a silent no-op. After a fatal decoder error (a code reader exists, no scan is running) it
throws 'No scanning is running at the time.'. While scanning with controls that do not expose
`streamVideoConstraintsApply` it throws a TypeError. In neither case is anything applied. -/
theorem videoConstraints_throws :
    set_videoConstraints 0 (fresh true true) = { state := fresh true true, thrown := none } ∧
    failedState._codeReader = some 0 ∧
    failedState.heap.scannerControls 0 = none ∧
    set_videoConstraints 0 failedState = { state := failedState, thrown := some noScanningError } ∧
    noScanningError.message = some "No scanning is running at the time." ∧
    scanningState.heap.sessions.map
      (fun x => x.ctrls.map fun c => c.streamVideoConstraintsApply) = [some false] ∧
    set_videoConstraints 0 scanningState =
      { state := scanningState,
        thrown := some (notAFunctionError "streamVideoConstraintsApply") } := by
  refine ⟨rfl, by decide, by decide, ?_, rfl, by decide, ?_⟩
  · rfl
  · rfl

/-- C27. Assigning the `torch` input never propagates an exception, in any state and whatever
`switchTorch` does: the setter returns the state its body reached. The body itself throws in
the three cases of the claim and the exception is dropped: with no scan running (on a fresh
component the body creates a code reader and `getScannerControls` throws), with controls that
do not expose `switchTorch`, and when `switchTorch` throws. -/
theorem torch_never_throws (onOff : Bool) (failure : Option JsError) (s : State) :
    (set_torch onOff failure s).thrown = none ∧
    (set_torch onOff failure s).state = (torchAttempt onOff failure s).state ∧
    (torchAttempt onOff failure (fresh true true)).thrown = some noScanningError ∧
    (set_torch onOff failure (fresh true true)).thrown = none ∧
    (set_torch onOff failure (fresh true true)).state._codeReader = some 0 ∧
    (torchAttempt onOff failure
      (scanFromDevice "b"
        { examplePlatform with decodeFromVideoDevice := OpenResponse.resolve false false }
        (fresh true true)).state).thrown = some (notAFunctionError "switchTorch") ∧
    (torchAttempt onOff (some trackEnded) scanningState).thrown = some trackEnded ∧
    (set_torch onOff (some trackEnded) scanningState).thrown = none ∧
    (torchAttempt onOff none scanningState).state.torchSwitched = [(0, onOff)] := by
  refine ⟨rfl, rfl, rfl, rfl, rfl, ?_, ?_, rfl, ?_⟩
  · cases failure <;> rfl
  · rfl
  · rfl

theorem setScannerControls_none (h : Heap) (r : Nat) :
    (h.setScannerControls r none).scannerControls r = none := by
  rcases Nat.lt_or_ge r h.readers.length with hlt | hge
  · simp [Heap.scannerControls, Heap.setScannerControls, List.getElem?_set, hlt]
  · have : ¬ r < h.readers.length := Nat.not_lt.mpr hge
    simp [Heap.scannerControls, Heap.setScannerControls, List.getElem?_set, this,
      List.getElem?_eq_none hge]

theorem scanFromDeviceObservable_reject_controls (h : Heap) (r : Nat) (d : String)
    (e : JsError) :
    (scanFromDeviceObservable h r d (OpenResponse.reject e)).heap.scannerControls r = none := by
  simp only [scanFromDeviceObservable]
  split <;> exact setScannerControls_none _ r

theorem getCodeReader_codeReader (s : State) :
    (getCodeReader s).1._codeReader = some (getCodeReader s).2 := by
  rcases Option.eq_none_or_eq_some s._codeReader with h | ⟨r, h⟩
  · simp [getCodeReader, h]
  · simp [getCodeReader, h]

theorem scanStop_failed (t : State) (h : FailedSession t) :
    scanStop t = { state := t, thrown := some noScanningError } := by
  obtain ⟨i, r, hsub, hr, hc⟩ := h
  simp [scanStop, hsub, hr, getScannerControls, hc]

theorem setDevice_failed (device : Option MediaDeviceInfo) (env : Platform) (t : State)
    (h : FailedSession t) :
    setDevice device env t = { state := t, thrown := some noScanningError } := by
  simp [setDevice, scanStop_failed t h]

theorem scanFromDevice_reject_failed (d : String) (env : Platform) (e : JsError) (s : State)
    (henv : env.decodeFromVideoDevice = OpenResponse.reject e) :
    FailedSession (scanFromDevice d env s).state := by
  obtain ⟨h1, h2, h3⟩ :=
    scanFromDeviceObservable_reject (getCodeReader s).1.heap (getCodeReader s).2 d e
  have hc := scanFromDeviceObservable_reject_controls (getCodeReader s).1.heap
    (getCodeReader s).2 d e
  have hr := getCodeReader_codeReader s
  refine ⟨(getCodeReader s).1.heap.sessions.length, (getCodeReader s).2, ?_, ?_, ?_⟩
  · simp only [scanFromDevice, henv, deliver_heap, h1, h2, deliver_eq]
    simp [BehaviorSubject.subscribe, failedStream, BehaviorSubject.closed]
  · simp only [scanFromDevice, henv, deliver_heap, h1, h2, deliver_eq]
    simp [BehaviorSubject.subscribe, failedStream, BehaviorSubject.closed, hr]
  · simp only [scanFromDevice, henv, deliver_heap, h1, h2, deliver_eq]
    simp [BehaviorSubject.subscribe, failedStream, BehaviorSubject.closed, hc]

/-- C28. After a fatal decoder error on the session that the component scans with, the scan
subscription is still held and the code reader still exists, but `getScannerControls` throws;
the same state arises when `scanFromDevice` fails to open its device. In every such state
`scanStop` throws 'No scanning is running at the time.' and so does the next `setDevice`,
whatever device it is given; both leave the state, and with it the current device, unchanged,
and the device input swallows the rejection without changing the device. -/
theorem failed_session_blocks_setDevice (s : State) (i : Nat) (x : Session)
    (c : ScannerControls) (result : Option Result) (e : JsError)
    (hsub : s._scanSubscription = some i) (hreader : s._codeReader = some x.reader)
    (hx : s.heap.sessions[i]? = some x) (hcur : s.heap.scannerControls x.reader = some i)
    (hc : x.ctrls = some c) (hlive : x.scan.isStopped = false)
    (hfatal : isSoftFailure e = some false) :
    FailedSession (onFrame i result (some e) s) ∧
    (onFrame i result (some e) s)._scanSubscription = some i ∧
    (onFrame i result (some e) s)._device = s._device ∧
    getScannerControls (onFrame i result (some e) s).heap x.reader =
      Except.error noScanningError ∧
    (∀ (d : String) (env : Platform) (err : JsError) (u : State),
      env.decodeFromVideoDevice = OpenResponse.reject err →
      FailedSession (scanFromDevice d env u).state) ∧
    (∀ (t : State) (device : Option MediaDeviceInfo) (env : Platform), FailedSession t →
      scanStop t = { state := t, thrown := some noScanningError } ∧
      setDevice device env t = { state := t, thrown := some noScanningError } ∧
      (set_device device env t)._device = t._device) ∧
    noScanningError.message = some "No scanning is running at the time." := by
  have hd := decodeCallback_fatal s.heap i x c result e hx hcur hc hlive hfatal
  have hn : ((s.heap.setSession i (terminated e c x)).setScannerControls x.reader
      none).scannerControls x.reader = none := setScannerControls_none _ _
  have hstate : onFrame i result (some e) s =
      { s with heap := (s.heap.setSession i (terminated e c x)).setScannerControls x.reader none,
               events := s.events ++
                 (x.scan.observers.map fun o => (o, Notification.error e)).flatMap
                   fun d => observed d.2 } := by
    simp only [onFrame, hd, deliver_eq]
  rw [hstate]
  refine ⟨⟨i, x.reader, hsub, hreader, hn⟩, hsub, rfl, ?_, ?_, ?_, rfl⟩
  · simp only [getScannerControls]
    rw [hn]
  · intro d env err u henv
    exact scanFromDevice_reject_failed d env err u henv
  · intro t device env ht
    refine ⟨scanStop_failed t ht, setDevice_failed device env t ht, ?_⟩
    unfold set_device
    split_ifs
    · rfl
    · rfl
    · rfl
    · rfl
    · rw [setDevice_failed device env t ht]

theorem failed_session_blocks_setDevice_witness :
    setDevice (some { deviceId := "f", label := "Front Camera" }) examplePlatform failedState =
      { state := failedState, thrown := some noScanningError } :=
  ((failed_session_blocks_setDevice scanningState 0 scanningSession
    { stopCalls := 0, switchTorch := true, streamVideoConstraintsApply := false } none trackEnded
    (by decide) (by decide) (by decide) (by decide) rfl rfl (by decide)).2.2.2.2.2.1
    failedState (some { deviceId := "f", label := "Front Camera" }) examplePlatform
    (failed_session_blocks_setDevice scanningState 0 scanningSession
    { stopCalls := 0, switchTorch := true, streamVideoConstraintsApply := false } none trackEnded
    (by decide) (by decide) (by decide) (by decide) rfl rfl (by decide)).1).2.1

/-! ## Teardown -/

theorem reachable_subscriptionHasDevice (s : State) (h : Reachable s) :
    SubscriptionHasDevice s := by
  induction h with
  | fresh nav media => intro h; cases h
  | step a env _ ih => exact step_inv a env _ ih

theorem ngOnDestroy_codeReader (env : Platform) (s : State) :
    (ngOnDestroy env s)._codeReader = none := by
  have hframe : ∀ (t : State), t._codeReader = none →
      (set_device none env t)._codeReader = none := by
    intro t ht
    unfold set_device
    split_ifs
    · exact ht
    · exact ht
    · exact ht
    · exact ht
    · obtain ⟨h1, sub1, ev1, hs1, _, _⟩ := scanStop_frame t
      have hthrown : (scanStop t).thrown = none := by
        rw [scanStop_thrown_eq, ht]
        cases t._scanSubscription <;> rfl
      rw [setDevice_of_scanStop none env t _ (scanStop_outcome t hthrown)]
      show (scanStop t).state._codeReader = none
      rw [hs1]
      exact ht
  rcases Option.eq_none_or_eq_some s._codeReader with h | ⟨r, h⟩
  · simp [ngOnDestroy, reset, _reset, h, releaseAllStreams, emit]
  · have := hframe { s with _codeReader := none } rfl
    simp only [ngOnDestroy, reset, _reset, h, releaseAllStreams, emit]
    exact this

theorem scanStop_no_reader (t : State) (ht : t._codeReader = none) :
    (scanStop t).thrown = none := by
  rw [scanStop_thrown_eq, ht]
  cases t._scanSubscription <;> rfl

theorem setDevice_none_frame (env : Platform) (t : State) :
    ∃ h sub ev dev cl, (setDevice none env t).state =
      { t with heap := h, _scanSubscription := sub, events := ev, _device := dev,
               cleanVideoSourceCalls := cl } := by
  obtain ⟨h1, sub1, ev1, hs1, _, _⟩ := scanStop_frame t
  cases hthrown : (scanStop t).thrown with
  | some e =>
    have e1 : (setDevice none env t).state = (scanStop t).state := by
      simp [setDevice, hthrown]
    rw [e1, hs1]
    exact ⟨h1, sub1, ev1, t._device, t.cleanVideoSourceCalls, rfl⟩
  | none =>
    rw [setDevice_of_scanStop none env t _ (scanStop_outcome t hthrown)]
    dsimp only
    rw [hs1]
    exact ⟨h1, sub1, ev1, none, t.cleanVideoSourceCalls + 1, rfl⟩

theorem set_device_none_frame (env : Platform) (t : State) :
    ∃ h sub ev dev cl pre, set_device none env t =
      { t with heap := h, _scanSubscription := sub, events := ev, _device := dev,
               cleanVideoSourceCalls := cl, _devicePreStart := pre } := by
  unfold set_device
  split_ifs
  · exact ⟨t.heap, t._scanSubscription, t.events, t._device, t.cleanVideoSourceCalls, none, rfl⟩
  · exact ⟨t.heap, t._scanSubscription, t.events, t._device, t.cleanVideoSourceCalls,
      t._devicePreStart, rfl⟩
  · exact ⟨t.heap, t._scanSubscription, t.events, t._device, t.cleanVideoSourceCalls,
      t._devicePreStart, rfl⟩
  · exact ⟨t.heap, t._scanSubscription, t.events, t._device, t.cleanVideoSourceCalls,
      t._devicePreStart, rfl⟩
  · obtain ⟨h, sub, ev, dev, cl, e⟩ := setDevice_none_frame env t
    rw [e]
    exact ⟨h, sub, ev, dev, cl, t._devicePreStart, rfl⟩

theorem ngOnDestroy_releases (env : Platform) (s : State) :
    (ngOnDestroy env s).releaseAllStreamsCalls = s.releaseAllStreamsCalls + 1 := by
  rcases Option.eq_none_or_eq_some s._codeReader with h | ⟨r, h⟩
  · simp [ngOnDestroy, reset, _reset, h, releaseAllStreams, emit]
  · obtain ⟨h1, sub, ev, dev, cl, pre, e⟩ :=
      set_device_none_frame env { s with _codeReader := none }
    simp only [ngOnDestroy, reset, _reset, h, releaseAllStreams, emit, e]

theorem ngOnDestroy_no_reader (env : Platform) (t : State) (ht : t._codeReader = none) :
    ngOnDestroy env t =
      { t with events := t.events ++ [Event.deviceChange none],
               releaseAllStreamsCalls := t.releaseAllStreamsCalls + 1 } := by
  simp [ngOnDestroy, reset, _reset, ht, releaseAllStreams, emit]

theorem set_device_none_clears (env : Platform) (t : State) (hready : t._ready = true)
    (hauto : t._isAutostarting = false) (hperm : t.hasPermission = some true)
    (hcr : t._codeReader = none) (hinv : SubscriptionHasDevice t) :
    (set_device none env t)._device = none ∧ (set_device none env t)._scanSubscription = none := by
  cases hcur : isCurrentDevice none t with
  | true =>
    have e : set_device none env t = t := by simp [set_device, hready, hauto, hcur]
    have hdev : t._device = none := by
      cases hd : t._device with
      | none => rfl
      | some d => simp [isCurrentDevice, hd] at hcur
    rw [e]
    refine ⟨hdev, ?_⟩
    cases hs : t._scanSubscription with
    | none => rfl
    | some i =>
      have := hinv (by simp [selection, hs])
      simp [selection, hdev] at this
  | false =>
    have e : set_device none env t = (setDevice none env t).state := by
      simp [set_device, hready, hauto, hcur, hperm]
    have hthrown := scanStop_no_reader t hcr
    have hsub : (scanStop t).state._scanSubscription = none := by
      rcases scanStop_selection t with ⟨_, hsel⟩ | ⟨ht, _⟩
      · simp only [selection, Prod.mk.injEq] at hsel
        exact hsel.1
      · exact absurd hthrown ht
    rw [e, setDevice_of_scanStop none env t _ (scanStop_outcome t hthrown)]
    exact ⟨rfl, hsub⟩

/-- C22 (counterexample). After `init` started a scan, `ngOnDestroy()` leaves the current
device and the scan subscription in place when `restart()` ran in between (the code reader is
already dropped, so nothing is reset) and when a second `init` met a denied permission probe
(the device input refuses the reset without permission): both states are reached through the
operations of the component. -/
theorem destroy_keeps_device_without_permission :
    (run [(Action.init, examplePlatform), (Action.restart, examplePlatform),
      (Action.ngOnDestroy, examplePlatform)] (fresh true true))._device =
      some { deviceId := "b", label := "Back Camera" } ∧
    (run [(Action.init, examplePlatform), (Action.restart, examplePlatform),
      (Action.ngOnDestroy, examplePlatform)] (fresh true true))._scanSubscription = some 0 ∧
    (run [(Action.init, examplePlatform), (Action.init, deniedPlatform),
      (Action.ngOnDestroy, examplePlatform)] (fresh true true))._device =
      some { deviceId := "b", label := "Back Camera" } ∧
    (run [(Action.init, examplePlatform), (Action.init, deniedPlatform),
      (Action.ngOnDestroy, examplePlatform)] (fresh true true))._scanSubscription = some 0 ∧
    (run [(Action.init, examplePlatform), (Action.init, deniedPlatform),
      (Action.ngOnDestroy, examplePlatform)] (fresh true true))._codeReader = none ∧
    (run [(Action.init, examplePlatform), (Action.init, deniedPlatform),
      (Action.ngOnDestroy, examplePlatform)] (fresh true true)).releaseAllStreamsCalls = 1 := by
  decide

/-- C22 (amended). For every reachable state `ngOnDestroy()` raises no exception (it is a total
function of the state), leaves no code reader and invokes release-all-streams once; a second
`ngOnDestroy()` leaves the state as the first one left it, except that deviceChange(null) is
emitted and release-all-streams is invoked once more; and when the component is ready, not
autostarting, has permission and has a code reader, the first call leaves no current device
and no scan subscription. -/
theorem destroy_twice (env env' : Platform) (s : State) (hreach : Reachable s) :
    (ngOnDestroy env s)._codeReader = none ∧
    (ngOnDestroy env s).releaseAllStreamsCalls = s.releaseAllStreamsCalls + 1 ∧
    ngOnDestroy env' (ngOnDestroy env s) =
      { ngOnDestroy env s with
        events := (ngOnDestroy env s).events ++ [Event.deviceChange none],
        releaseAllStreamsCalls := (ngOnDestroy env s).releaseAllStreamsCalls + 1 } ∧
    (s._ready = true → s._isAutostarting = false → s.hasPermission = some true →
      s._codeReader ≠ none →
      (ngOnDestroy env s)._device = none ∧ (ngOnDestroy env s)._scanSubscription = none) := by
  have hinv := reachable_subscriptionHasDevice s hreach
  have hcr := ngOnDestroy_codeReader env s
  refine ⟨hcr, ngOnDestroy_releases env s, ngOnDestroy_no_reader env' _ hcr, ?_⟩
  intro hready hauto hperm hreader
  obtain ⟨r, hr⟩ := Option.ne_none_iff_exists'.mp hreader
  have hclear := set_device_none_clears env { s with _codeReader := none } hready hauto hperm rfl
    (inv_of_selection rfl hinv)
  simp only [ngOnDestroy, reset, _reset, hr, releaseAllStreams, emit]
  exact hclear

theorem destroy_twice_witness :
    (ngOnDestroy examplePlatform scanningState)._device = none ∧
    (ngOnDestroy examplePlatform scanningState)._scanSubscription = none ∧
    (ngOnDestroy examplePlatform scanningState)._codeReader = none :=
  ⟨((destroy_twice examplePlatform examplePlatform scanningState
      (Reachable.step Action.init examplePlatform (Reachable.fresh true true))).2.2.2
      (by decide) (by decide) (by decide) (by decide)).1,
   ((destroy_twice examplePlatform examplePlatform scanningState
      (Reachable.step Action.init examplePlatform (Reachable.fresh true true))).2.2.2
      (by decide) (by decide) (by decide) (by decide)).2,
   (destroy_twice examplePlatform examplePlatform scanningState
      (Reachable.step Action.init examplePlatform (Reachable.fresh true true))).1⟩

/-! ## The seeded outcome -/

theorem decodeCallback_nonFatal (h : Heap) (i : Nat) (x : Session)
    (cb : Option Result × Option JsError) (hx : h.sessions[i]? = some x)
    (hl : x.scan.isStopped = false) (hnf : nonFatal cb = true) :
    decodeCallback h i cb.1 cb.2 =
      { heap := h.setSession i (withValue (pushed cb) x),
        delivered := x.scan.observers.map fun o => (o, Notification.next (pushed cb)),
        thrown := none } := by
  obtain ⟨r, err⟩ := cb
  cases err with
  | none => simp [decodeCallback, hx, BehaviorSubject.next, hl, withValue, pushed]
  | some e =>
    have hs : isSoftFailure e = some true := by simpa [nonFatal] using hnf
    simp [decodeCallback, hx, hs, BehaviorSubject.next, hl, withValue, pushed]

theorem runCallbacks_nonFatal (i o : Nat) (cbs : List (Option Result × Option JsError)) :
    ∀ (h : Heap) (x : Session), h.sessions[i]? = some x → x.scan.isStopped = false →
      x.scan.observers = [o] → (∀ cb ∈ cbs, nonFatal cb = true) →
      (runCallbacks i cbs h).2 = cbs.map fun cb => (o, Notification.next (pushed cb)) := by
  induction cbs with
  | nil => intro h x _ _ _ _; rfl
  | cons cb t ih =>
    intro h x hx hl hobs hs
    have hcb : nonFatal cb = true := hs cb (List.mem_cons_self _ _)
    have ht : ∀ c ∈ t, nonFatal c = true := fun c hc => hs c (List.mem_cons_of_mem _ hc)
    have hd := decodeCallback_nonFatal h i x cb hx hl hcb
    have ih1 := ih (h.setSession i (withValue (pushed cb) x)) (withValue (pushed cb) x)
      (setSession_sessions h i _ x hx) hl hobs ht
    simp only [runCallbacks, hd, ih1, hobs, List.map_cons, List.map_nil, List.singleton_append]

theorem scanCompletes_append (a b : List Event) :
    scanCompletes (a ++ b) = scanCompletes a + scanCompletes b := by
  simp [scanCompletes, List.countP_append]

theorem scanCompletes_pushed (o : Nat) (cbs : List (Option Result × Option JsError)) :
    scanCompletes ((cbs.map fun cb => (o, Notification.next (pushed cb))).flatMap
      fun d => observed d.2) = cbs.length := by
  induction cbs with
  | nil => rfl
  | cons cb t ih =>
    simp only [List.map_cons, List.flatMap_cons, scanCompletes_append, ih, List.length_cons]
    have : scanCompletes (observed (Notification.next (pushed cb))) = 1 := by
      cases h : (pushed cb).result <;> simp [observed, h, scanCompletes, List.countP_cons]
    rw [this]
    omega

theorem scanFromDevice_resolve (d : String) (env : Platform) (s : State) (torch constraints : Bool)
    (henv : env.decodeFromVideoDevice = OpenResponse.resolve torch constraints) :
    (∃ rest, (scanFromDevice d env s).state.events =
        s.events ++ [Event.scanFailure none, Event.scanComplete none] ++ rest ∧
        scanCompletes rest = 0) ∧
    ∃ y, (scanFromDevice d env s).state.heap.sessions[s.heap.sessions.length]? = some y ∧
      y.scan.isStopped = false ∧ y.scan.observers = [s.heap.sessions.length] := by
  have hlen : (getCodeReader s).1.heap.sessions.length = s.heap.sessions.length := by
    rw [getCodeReader_sessions]
  have hnew : ∀ z : Session, ((getCodeReader s).1.heap.sessions ++ [z])[s.heap.sessions.length]? =
      some z := by
    intro z
    rw [← hlen]
    exact List.getElem?_concat_length _ _
  simp only [scanFromDevice, henv, scanFromDeviceObservable, deliver_eq, hlen,
    setScannerControls_sessions, hnew]
  simp only [BehaviorSubject.subscribe, BehaviorSubject.create, BehaviorSubject.closed]
  simp only [Bool.false_eq_true, if_false, List.nil_append, List.contains_cons, beq_self_eq_true,
    Bool.true_or, Bool.not_true]
  split
  · refine ⟨⟨[], by simp [observed], rfl⟩, ?_⟩
    simp [Heap.setSession, Heap.setScannerControls, List.getElem?_set, hlen]
  · refine ⟨⟨[Event.torchCompatible _], by simp [observed, emit]; rfl, rfl⟩, ?_⟩
    simp [Heap.setSession, Heap.setScannerControls, List.getElem?_set, hlen, emit]

theorem set_concat_length {α : Type} (l : List α) (a b : α) :
    (l ++ [a]).set l.length b = l ++ [b] := by
  induction l with
  | nil => rfl
  | cons x t ih => simp [List.set, ih]

theorem scanFromDeviceObservableDuring_nil (h : Heap) (r : Nat) (d : String)
    (resp : OpenResponse) :
    scanFromDeviceObservableDuring h r d [] resp = scanFromDeviceObservable h r d resp := by
  have hnew : ∀ z : Session, (h.sessions ++ [z])[h.sessions.length]? = some z :=
    fun z => List.getElem?_concat_length _ _
  cases resp with
  | resolve torch constraints =>
    simp only [scanFromDeviceObservableDuring, runCallbacks, hnew, scanFromDeviceObservable,
      Heap.setSession, set_concat_length]
  | reject e =>
    simp only [scanFromDeviceObservableDuring, runCallbacks, hnew, scanFromDeviceObservable,
      Heap.setSession, set_concat_length, List.nil_append]

theorem scanFromDeviceDuring_nil (d : String) (env : Platform) (s : State) :
    scanFromDeviceDuring d [] [] env s = scanFromDevice d env s := by
  simp only [scanFromDeviceDuring, scanFromDeviceObservableDuring_nil, onFrames, List.foldl_nil]
  rfl

theorem subscribeStream_live (r i : Nat) (s1 : State) (x : Session)
    (hx : s1.heap.sessions[i]? = some x) (hl : x.scan.isStopped = false)
    (he : x.scan.hasError = false) (ho : x.scan.observers = []) :
    (∃ rest, (subscribeStream r i s1).state.events =
        s1.events ++ observed (Notification.next x.scan.value) ++ rest ∧
        scanCompletes rest = 0) ∧
    ∃ y, (subscribeStream r i s1).state.heap.sessions[i]? = some y ∧
      y.scan.isStopped = false ∧ y.scan.observers = [i] := by
  have hi : i < s1.heap.sessions.length := lt_of_stored hx
  simp only [subscribeStream, hx, BehaviorSubject.subscribe, he, hl, ho, deliver_eq,
    BehaviorSubject.closed]
  simp only [Bool.false_eq_true, if_false, List.nil_append, List.contains_cons, beq_self_eq_true,
    Bool.true_or, Bool.not_true]
  split
  · refine ⟨⟨[], by simp [observed], rfl⟩, ?_⟩
    simp [Heap.setSession, List.getElem?_set, hi]
  · refine ⟨⟨[Event.torchCompatible _], by simp [observed, emit]; rfl, rfl⟩, ?_⟩
    simp [Heap.setSession, List.getElem?_set, hi, emit]

theorem withValue_withValue (v w : ScanValue) (x : Session) :
    withValue v (withValue w x) = withValue v x := rfl

theorem runCallbacks_quiet (i : Nat) (cbs : List (Option Result × Option JsError)) :
    ∀ (h : Heap) (x : Session), h.sessions[i]? = some x → x.scan.isStopped = false →
      x.scan.observers = [] → (∀ cb ∈ cbs, nonFatal cb = true) →
      runCallbacks i cbs h = (h.setSession i (withValue (valueAfter x.scan.value cbs) x), []) := by
  induction cbs with
  | nil =>
    intro h x hx _ _ _
    show (h, []) = _
    rw [show valueAfter x.scan.value [] = x.scan.value from rfl, withValue_self,
      setSession_same h i x hx]
  | cons cb t ih =>
    intro h x hx hl hobs hs
    have hcb : nonFatal cb = true := hs cb (List.mem_cons_self _ _)
    have ht : ∀ c ∈ t, nonFatal c = true := fun c hc => hs c (List.mem_cons_of_mem _ hc)
    have hd := decodeCallback_nonFatal h i x cb hx hl hcb
    have ih1 := ih (h.setSession i (withValue (pushed cb) x)) (withValue (pushed cb) x)
      (setSession_sessions h i _ x hx) hl hobs ht
    simp only [runCallbacks, hd, ih1, hobs, List.map_nil, List.nil_append,
      setSession_setSession, withValue_withValue]
    rfl

theorem valueAfter_append (v : ScanValue) (a b : List (Option Result × Option JsError)) :
    valueAfter (valueAfter v a) b = valueAfter v (a ++ b) := by
  simp [valueAfter, List.foldl_append]

theorem valueAfter_getLast (v : ScanValue) (cbs : List (Option Result × Option JsError)) :
    valueAfter v cbs = (cbs.getLast?.map pushed).getD v := by
  induction cbs generalizing v with
  | nil => rfl
  | cons cb t ih =>
    show valueAfter (pushed cb) t = _
    rw [ih]
    cases t with
    | nil => rfl
    | cons c u =>
      rw [List.getLast?_cons_cons]
      have h : (c :: u).getLast? = some ((c :: u).getLast (List.cons_ne_nil c u)) :=
        List.getLast?_eq_getLast _ _
      rw [h]
      rfl

theorem scanFromDeviceObservableDuring_resolve (h : Heap) (r : Nat) (d : String)
    (early : List (Option Result × Option JsError)) (torch constraints : Bool)
    (hearly : ∀ cb ∈ early, nonFatal cb = true) :
    scanFromDeviceObservableDuring h r d early (OpenResponse.resolve torch constraints) =
      { heap := Heap.setScannerControls r (some h.sessions.length)
          { h with sessions := h.sessions ++
              [{ reader := r, deviceId := d,
                 scan := { BehaviorSubject.create seed with value := valueAfter seed early },
                 ctrls := some { stopCalls := 0, switchTorch := torch,
                                 streamVideoConstraintsApply := constraints } }] },
        stream := h.sessions.length, delivered := [] } := by
  have hnew : ∀ z : Session, (h.sessions ++ [z])[h.sessions.length]? = some z :=
    fun z => List.getElem?_concat_length _ _
  have hq := runCallbacks_quiet h.sessions.length early
    { h with sessions := h.sessions ++
        [{ reader := r, deviceId := d, scan := BehaviorSubject.create seed, ctrls := none }] }
    { reader := r, deviceId := d, scan := BehaviorSubject.create seed, ctrls := none }
    (hnew _) rfl rfl hearly
  simp only [scanFromDeviceObservableDuring]
  rw [show ({ result := none, error := none } : ScanValue) = seed from rfl, hq]
  simp only [Heap.setSession, set_concat_length, hnew, withValue]
  rfl

theorem scanFromDeviceDuring_resolve (d : String) (env : Platform) (s : State)
    (torch constraints : Bool) (early queued : List (Option Result × Option JsError))
    (henv : env.decodeFromVideoDevice = OpenResponse.resolve torch constraints)
    (hearly : ∀ cb ∈ early, nonFatal cb = true) (hqueued : ∀ cb ∈ queued, nonFatal cb = true) :
    (∃ rest, (scanFromDeviceDuring d early queued env s).state.events =
        s.events ++ observed (Notification.next (valueAfter seed (early ++ queued))) ++ rest ∧
        scanCompletes rest = 0) ∧
    ∃ y, (scanFromDeviceDuring d early queued env s).state.heap.sessions[s.heap.sessions.length]?
        = some y ∧ y.scan.isStopped = false ∧ y.scan.observers = [s.heap.sessions.length] := by
  have hlen : (getCodeReader s).1.heap.sessions.length = s.heap.sessions.length := by
    rw [getCodeReader_sessions]
  have hev := getCodeReader_events s
  simp only [scanFromDeviceDuring, henv,
    scanFromDeviceObservableDuring_resolve _ _ _ _ _ _ hearly, deliver_nil, onFrames_eq]
  generalize (getCodeReader s).1 = G at hlen hev ⊢
  generalize (getCodeReader s).2 = r
  have hnew : ∀ z : Session, (G.heap.sessions ++ [z])[G.heap.sessions.length]? = some z :=
    fun z => List.getElem?_concat_length _ _
  have hq := runCallbacks_quiet G.heap.sessions.length queued
    (Heap.setScannerControls r (some G.heap.sessions.length)
      { G.heap with sessions := G.heap.sessions ++
          [{ reader := r, deviceId := d,
             scan := { BehaviorSubject.create seed with value := valueAfter seed early },
             ctrls := some { stopCalls := 0, switchTorch := torch,
                             streamVideoConstraintsApply := constraints } }] })
    { reader := r, deviceId := d,
      scan := { BehaviorSubject.create seed with value := valueAfter seed early },
      ctrls := some { stopCalls := 0, switchTorch := torch,
                      streamVideoConstraintsApply := constraints } }
    (hnew _) rfl rfl hqueued
  rw [valueAfter_append] at hq
  rw [hq, deliver_nil, ← hlen, ← hev]
  exact subscribeStream_live r G.heap.sessions.length _
    (withValue (valueAfter seed (early ++ queued))
      { reader := r, deviceId := d,
        scan := { BehaviorSubject.create seed with value := valueAfter seed early },
        ctrls := some { stopCalls := 0, switchTorch := torch,
                        streamVideoConstraintsApply := constraints } })
    (setSession_sessions _ _ _ _ (hnew _)) rfl rfl rfl

/-- C29 (counterexample). A first session is opened on the back camera and the decoder invokes
the callback once, with a decoded result, while `decodeFromVideoDevice` is still pending. At
subscription time the stream holds that outcome in place of the seed: `scanFromDevice` emits
scanSuccess and scanComplete for it, scanFailure(undefined) and scanComplete(undefined) are
never emitted, and the session that received one callback has emitted one scanComplete, not
two. After a start without such a callback, a single callback carrying a fatal error adds a
scanError and no scanComplete: again one scanComplete, not two. -/
theorem early_callback_replaces_seed :
    (scanFromDeviceDuring "b" [(some { text := "4006381333931" }, none)] [] examplePlatform
      (fresh true true)).thrown = none ∧
    (scanFromDeviceDuring "b" [(some { text := "4006381333931" }, none)] [] examplePlatform
      (fresh true true)).state.events =
      [Event.scanSuccess "4006381333931", Event.scanComplete (some { text := "4006381333931" }),
       Event.torchCompatible true] ∧
    scanCompletes (scanFromDeviceDuring "b" [(some { text := "4006381333931" }, none)] []
      examplePlatform (fresh true true)).state.events = 1 ∧
    (scanFromDeviceDuring "b" [] [(some { text := "4006381333931" }, none)] examplePlatform
      (fresh true true)).state.events =
      [Event.scanSuccess "4006381333931", Event.scanComplete (some { text := "4006381333931" }),
       Event.torchCompatible true] ∧
    startedState = (scanFromDeviceDuring "b" [] [] examplePlatform (fresh true true)).state ∧
    startedState.events =
      [Event.scanFailure none, Event.scanComplete none, Event.torchCompatible true] ∧
    ([(none, some trackEnded)] : List (Option Result × Option JsError)).length = 1 ∧
    (onFrames 0 [(none, some trackEnded)] startedState).events =
      startedState.events ++ [Event.scanError trackEnded] ∧
    scanCompletes (onFrames 0 [(none, some trackEnded)] startedState).events = 1 := by
  decide

/-- The start with atomic awaits (see C29): when no callback runs before the subscription,
`scanFromDevice` emits scanFailure(undefined) followed by scanComplete(undefined) at
subscription time, followed at most by events that are no scanComplete; and a session that then
received n decoder callbacks, each carrying a successful decode or a soft failure, has emitted
n + 1 scanComplete events. -/
theorem seeded_outcome_is_emitted (d : String) (env : Platform) (s : State)
    (torch constraints : Bool) (cbs : List (Option Result × Option JsError))
    (henv : env.decodeFromVideoDevice = OpenResponse.resolve torch constraints)
    (hcbs : ∀ cb ∈ cbs, nonFatal cb = true) :
    (∃ rest, (scanFromDevice d env s).state.events =
        s.events ++ [Event.scanFailure none, Event.scanComplete none] ++ rest ∧
        scanCompletes rest = 0) ∧
    scanCompletes (onFrames s.heap.sessions.length cbs (scanFromDevice d env s).state).events =
      scanCompletes s.events + (cbs.length + 1) := by
  obtain ⟨⟨rest, hev, hrest⟩, y, hy, hlive, hobs⟩ :=
    scanFromDevice_resolve d env s torch constraints henv
  refine ⟨⟨rest, hev, hrest⟩, ?_⟩
  have hrun := runCallbacks_nonFatal s.heap.sessions.length s.heap.sessions.length cbs
    (scanFromDevice d env s).state.heap y hy hlive hobs hcbs
  rw [onFrames_eq, deliver_eq, hrun]
  show scanCompletes ((scanFromDevice d env s).state.events ++ _) = _
  rw [scanCompletes_append, scanCompletes_pushed, hev, scanCompletes_append,
    scanCompletes_append, hrest]
  have : scanCompletes [Event.scanFailure none, Event.scanComplete none] = 1 := by decide
  rw [this]
  omega

theorem seeded_outcome_is_emitted_witness :
    scanCompletes (onFrames 0 [(none, some notFound), (some { text := "4006381333931" }, none)]
      (scanFromDevice "b" examplePlatform (fresh true true)).state).events = 3 :=
  (seeded_outcome_is_emitted "b" examplePlatform (fresh true true) true false
    [(none, some notFound), (some { text := "4006381333931" }, none)] rfl (by decide)).2

/-- C29 (amended). On every session start that opens the device successfully and during which
every callback invocation carries a successful decode or a soft failure, `scanFromDevice` emits
at subscription time the events of exactly one outcome, the one the stream holds at that
moment: the seed, that is scanFailure(undefined) followed by scanComplete(undefined), when no
callback ran before the subscription, and otherwise the outcome of the last callback that ran
before it (the outcomes before that one are never emitted); what else the start emits is no
scanComplete. Every such callback after the subscription adds one scanComplete, so that a
session that received n callbacks after its subscription has emitted n + 1 scanComplete
events. Without callbacks before the subscription the start is the one with atomic awaits. -/
theorem subscription_replays_latest_outcome (d : String) (env : Platform) (s : State)
    (torch constraints : Bool) (early queued cbs : List (Option Result × Option JsError))
    (henv : env.decodeFromVideoDevice = OpenResponse.resolve torch constraints)
    (hearly : ∀ cb ∈ early, nonFatal cb = true) (hqueued : ∀ cb ∈ queued, nonFatal cb = true)
    (hcbs : ∀ cb ∈ cbs, nonFatal cb = true) :
    (∃ rest, (scanFromDeviceDuring d early queued env s).state.events =
        s.events ++ observed (Notification.next (valueAfter seed (early ++ queued))) ++ rest ∧
        scanCompletes rest = 0) ∧
    valueAfter seed (early ++ queued) = ((early ++ queued).getLast?.map pushed).getD seed ∧
    observed (Notification.next seed) = [Event.scanFailure none, Event.scanComplete none] ∧
    scanFromDeviceDuring d [] [] env s = scanFromDevice d env s ∧
    scanCompletes (onFrames s.heap.sessions.length cbs
        (scanFromDeviceDuring d early queued env s).state).events =
      scanCompletes s.events + (cbs.length + 1) := by
  obtain ⟨⟨rest, hev, hrest⟩, y, hy, hlive, hobs⟩ :=
    scanFromDeviceDuring_resolve d env s torch constraints early queued henv hearly hqueued
  refine ⟨⟨rest, hev, hrest⟩, valueAfter_getLast seed _, rfl, scanFromDeviceDuring_nil d env s, ?_⟩
  have hrun := runCallbacks_nonFatal s.heap.sessions.length s.heap.sessions.length cbs
    (scanFromDeviceDuring d early queued env s).state.heap y hy hlive hobs hcbs
  rw [onFrames_eq, deliver_eq, hrun]
  show scanCompletes ((scanFromDeviceDuring d early queued env s).state.events ++ _) = _
  rw [scanCompletes_append, scanCompletes_pushed, hev, scanCompletes_append,
    scanCompletes_append, hrest]
  have : scanCompletes (observed (Notification.next (valueAfter seed (early ++ queued)))) = 1 := by
    cases h : (valueAfter seed (early ++ queued)).result <;>
      simp [observed, h, scanCompletes, List.countP_cons]
  rw [this]
  omega

theorem subscription_replays_latest_outcome_witness :
    scanCompletes (onFrames 0 [(none, some notFound), (some { text := "4006381333931" }, none)]
      (scanFromDeviceDuring "b" [(none, some notFound), (some { text := "590123412345" }, none)]
        [(none, some badChecksum)] examplePlatform (fresh true true)).state).events = 3 :=
  (subscription_replays_latest_outcome "b" examplePlatform (fresh true true) true false
    [(none, some notFound), (some { text := "590123412345" }, none)] [(none, some badChecksum)]
    [(none, some notFound), (some { text := "4006381333931" }, none)] rfl (by decide) (by decide)
    (by decide)).2.2.2.2

/-! ## The permission emitter -/

theorem setPermission_stopped (p : Option Bool) (t : State)
    (h : t.permissionResponseStopped = true) : setPermission p t = { t with hasPermission := p } := by
  simp [setPermission, h]

theorem setDevice_flag (device : Option MediaDeviceInfo) (env : Platform) (s : State) :
    (setDevice device env s).state.permissionResponseStopped = s.permissionResponseStopped := by
  obtain ⟨h1, sub1, ev1, hs1, _, _⟩ := scanStop_frame s
  cases hthrown : (scanStop s).thrown with
  | some e =>
    have e1 : (setDevice device env s).state = (scanStop s).state := by
      simp [setDevice, hthrown]
    rw [e1, hs1]
  | none =>
    rw [setDevice_of_scanStop device env s _ (scanStop_outcome s hthrown)]
    cases device with
    | none => dsimp only; rw [hs1]
    | some D =>
      dsimp only
      split
      · obtain ⟨h2, cr2, sub2, ev2, hs2⟩ := scanFromDevice_frame D.deviceId env
          { (scanStop s).state with _device := some D }
        rw [hs2, hs1]
      · dsimp only
        rw [hs1]

theorem set_device_flag (device : Option MediaDeviceInfo) (env : Platform) (s : State) :
    (set_device device env s).permissionResponseStopped = s.permissionResponseStopped := by
  unfold set_device
  split_ifs
  · rfl
  · rfl
  · rfl
  · rfl
  · exact setDevice_flag device env s

theorem reset_flag (env : Platform) (s : State) :
    (reset env s).permissionResponseStopped = s.permissionResponseStopped := by
  unfold reset _reset
  split
  · rfl
  · exact set_device_flag none env _

theorem handlePermissionException_flag (err : JsError) (s : State)
    (h : s.permissionResponseStopped = true) :
    (handlePermissionException err s).1.permissionResponseStopped = true := by
  unfold handlePermissionException
  simp only []
  split_ifs <;> simp [setPermission, permissionResponseError, emit, h]

theorem askForPermission_flag (env : Platform) (s : State)
    (h : s.permissionResponseStopped = true) :
    (askForPermission env s).1.permissionResponseStopped = true := by
  unfold askForPermission
  split_ifs
  · simp [setPermission, h]
  · simp [setPermission, h]
  · split
    · rename_i stream _
      cases stream <;> simp [setPermission, h, terminateStream]
    · exact handlePermissionException_flag _ s h

theorem updateVideoInputDevices_flag (env : Platform) (s : State) :
    (updateVideoInputDevices env s).1.permissionResponseStopped = s.permissionResponseStopped := by
  unfold updateVideoInputDevices
  simp only []
  split_ifs <;> rfl

theorem init_flag (env : Platform) (s : State) (h : s.permissionResponseStopped = true) :
    (init env s).state.permissionResponseStopped = true := by
  unfold init
  split_ifs
  · show (initAutostartOff env s).permissionResponseStopped = true
    unfold initAutostartOff
    simp only []
    split_ifs
    · rw [setDevice_flag, updateVideoInputDevices_flag]; exact h
    · rw [updateVideoInputDevices_flag]; exact h
  · have h1 : (askForPermission env (set_isAutostarting true s)).1.permissionResponseStopped =
        true := askForPermission_flag env _ h
    have h2 : (initAutostartOn env s).state.permissionResponseStopped = true := by
      unfold initAutostartOn
      simp only []
      split_ifs
      · have h3 : (autostartScanner
            (updateVideoInputDevices env (askForPermission env (set_isAutostarting true s)).1).2
            env (updateVideoInputDevices env
              (askForPermission env (set_isAutostarting true s)).1).1
            ).state.permissionResponseStopped = true := by
          unfold autostartScanner
          split
          · rw [updateVideoInputDevices_flag]; exact h1
          · simp only []
            split
            · rw [setDevice_flag, updateVideoInputDevices_flag]; exact h1
            · show (setDevice _ env _).state.permissionResponseStopped = true
              rw [setDevice_flag, updateVideoInputDevices_flag]; exact h1
        split
        · exact h3
        · exact h3
      · exact h1
    simp only []
    split
    · exact h2
    · exact h2

theorem step_flag (a : Action) (env : Platform) (s : State)
    (h : s.permissionResponseStopped = true) :
    (step a env s).permissionResponseStopped = true := by
  cases a with
  | set_device d => show (set_device d env s).permissionResponseStopped = true
                    rw [set_device_flag]; exact h
  | set_enable b =>
    show (set_enable b env s).permissionResponseStopped = true
    unfold set_enable
    simp only []
    split_ifs
    · show (reset env _).permissionResponseStopped = true
      rw [reset_flag]; exact h
    · split
      · rename_i d _
        obtain ⟨h2, cr2, sub2, ev2, hs2⟩ := scanFromDevice_frame d.deviceId env
          { s with _enabled := b }
        rw [hs2]; exact h
      · exact init_flag env _ h
  | set_autostart b => exact h
  | scanStart =>
    show (scanStart env s).state.permissionResponseStopped = true
    unfold scanStart
    split_ifs
    · exact h
    · split
      · exact h
      · rename_i d _
        obtain ⟨h2, cr2, sub2, ev2, hs2⟩ := scanFromDevice_frame d.deviceId env s
        show (scanFromDevice d.deviceId env s).state.permissionResponseStopped = true
        rw [hs2]; exact h
  | scanStop =>
    obtain ⟨h1, sub1, ev1, hs1, _, _⟩ := scanStop_frame s
    show (scanStop s).state.permissionResponseStopped = true
    rw [hs1]; exact h
  | restart =>
    show (restart env s).permissionResponseStopped = true
    rw [restart_eq]; exact h
  | init => exact init_flag env s h
  | ngOnDestroy =>
    show (reset env s).permissionResponseStopped = true
    rw [reset_flag]; exact h
  | onFrame i r e =>
    show (onFrame i r e s).permissionResponseStopped = true
    simp only [onFrame, deliver_eq]
    exact h

/-- C30. For every platform error, when `permissionResponse` is still live,
`handlePermissionException` emits the mapped permission value on `permissionResponse` exactly
once and then terminates that emitter with the error: these two are the last events, and
nothing before them is a `permissionResponse` notification. From then on the emitter stays
terminated through every operation of the component; every later `setPermission` call stores
the value in `hasPermission` and emits nothing; in particular a later probe that obtains a
media stream stores permission true and adds no event. -/
theorem permission_failure_terminates (err : JsError) (s : State)
    (hlive : s.permissionResponseStopped = false) :
    (∃ hints, (handlePermissionException err s).1.events =
        s.events ++ hints ++
          [Event.permissionResponse (handlePermissionException err s).2,
           Event.permissionResponseError err] ∧
        (∀ p, Event.permissionResponse p ∉ hints) ∧
        (∀ e, Event.permissionResponseError e ∉ hints)) ∧
    (handlePermissionException err s).1.hasPermission = (handlePermissionException err s).2 ∧
    (handlePermissionException err s).1.permissionResponseStopped = true ∧
    (∀ (t : State) (a : Action) (env : Platform), t.permissionResponseStopped = true →
      (step a env t).permissionResponseStopped = true) ∧
    (∀ (t : State) (p : Option Bool), t.permissionResponseStopped = true →
      setPermission p t = { t with hasPermission := p }) ∧
    (∀ (t : State) (env : Platform) (m : MediaStream), t.permissionResponseStopped = true →
      t.hasNavigator = true → t.isMediaDevicesSupported = true →
      env.getUserMedia = ProbeResponse.resolve (some m) →
      (askForPermission env t).1.hasPermission = some true ∧
      (askForPermission env t).1.events = t.events ∧
      (askForPermission env t).1.permissionResponseStopped = true) := by
  refine ⟨?_, ?_, ?_, fun t a env h => step_flag a env t h,
    fun t p h => setPermission_stopped p t h, ?_⟩
  · unfold handlePermissionException
    simp only []
    split_ifs
    · exact ⟨[Event.hasDevices none],
        by simp [setPermission, permissionResponseError, emit, hlive], by simp, by simp⟩
    · exact ⟨[Event.hasDevices (some true)],
        by simp [setPermission, permissionResponseError, emit, hlive], by simp, by simp⟩
    · exact ⟨[Event.hasDevices (some false), Event.camerasNotFound (some err)],
        by simp [setPermission, permissionResponseError, emit, hlive], by simp, by simp⟩
    · exact ⟨[Event.hasDevices (some false), Event.camerasNotFound (some err)],
        by simp [setPermission, permissionResponseError, emit, hlive], by simp, by simp⟩
    · exact ⟨[], by simp [setPermission, permissionResponseError, emit, hlive], by simp,
        by simp⟩
  · unfold handlePermissionException
    simp only []
    split_ifs <;> simp [setPermission, permissionResponseError, emit, hlive]
  · unfold handlePermissionException
    simp only []
    split_ifs <;> simp [setPermission, permissionResponseError, emit, hlive]
  · intro t env m ht hnav hmedia hprobe
    simp [askForPermission, hnav, hmedia, hprobe, terminateStream, setPermission, ht]

theorem permission_failure_terminates_witness :
    (handlePermissionException { name := "NotAllowedError", message := some "" }
      (fresh true true)).1.events =
      [Event.hasDevices (some true), Event.permissionResponse (some false),
       Event.permissionResponseError { name := "NotAllowedError", message := some "" }] ∧
    (handlePermissionException { name := "NotAllowedError", message := some "" }
      (fresh true true)).1.permissionResponseStopped = true :=
  ⟨by decide,
   (permission_failure_terminates { name := "NotAllowedError", message := some "" } (fresh true true)
      rfl).2.2.1⟩

end NgxScanner
